import Mathlib

/-!
# Scene dependency-graph node builder

A shallow embedding of `source/blender/depsgraph/intern/builder/deg_builder_nodes_scene.cc`
(`DepsgraphNodeBuilder::build_scene_render`, `build_scene_parameters`,
`build_scene_compositor`) together with the parts of the builder these three functions
call.  The builder is a single-threaded traversal that mutates one builder object; here
the builder object is an explicit `BuilderState` that every function takes and returns.
-/

namespace Deg

/-! ## Data model -/

/-- Identity of a data-block: the address of its `ID`, by kind of data-block.  Two
data-blocks of different kinds never share an address. -/
inductive ID
  | scene (addr : Nat)
  | object (addr : Nat)
  | nodetree (addr : Nat)
  deriving DecidableEq

/-- Handle of an `IDProperty` group. -/
abbrev IDProperty := Nat

/-- A `TimeMarker` of a scene; only its `prop` pointer is read by the builder. -/
structure TimeMarker where
  prop : Option IDProperty
  deriving DecidableEq

/-- The part of `RenderData` the scene builder reads. -/
structure RenderData where
  scemode : Nat
  deriving DecidableEq

/-- The part of `Scene` the scene builder reads.  `addr` is the pointer `scene`
itself, `properties` is `scene->id.properties`; `nodetree` and `camera` are
pointers that may be null.  `speakers` lists the speaker objects that the sequencer of
the scene requires (section 4.3 step 7 of the spec), which `build_scene_speakers`
builds; a scene has none unless they are given. -/
structure Scene where
  addr : Nat
  properties : Option IDProperty
  r : RenderData
  nodetree : Option Nat
  camera : Option Nat
  markers : List TimeMarker
  speakers : List Nat := []
  deriving DecidableEq

/-- The identity `&scene->id` of a scene. -/
def Scene.id (scene : Scene) : ID := ID.scene scene.addr

/-- The two bits of `RenderData.scemode` that `build_scene_render` tests.  They are
defined in `DNA_scene_types.h`; every result below holds for any value of the two
masks. -/
structure SceModeBits where
  R_DOSEQ : Nat
  R_DOCOMP : Nat

/-- A node of a node-tree; `group` is the node-tree a group node references. -/
structure bNode where
  group : Option Nat
  deriving DecidableEq

/-- A node-tree: the list of its nodes. -/
structure bNodeTree where
  nodes : List bNode
  deriving DecidableEq

/-- The node-trees of the main database, by address. -/
structure Main where
  nodetrees : List (Nat × bNodeTree)

/-- The nodes of the node-tree at `addr` (none for an address that holds no tree). -/
def Main.nodes (bmain : Main) (addr : Nat) : List bNode :=
  match bmain.nodetrees.find? (fun e => e.1 == addr) with
  | some e => e.2.nodes
  | none => []

/-- Linkage state of an ID node. -/
inductive eDepsNode_LinkedState
  | DEG_ID_LINKED_INDIRECTLY
  | DEG_ID_LINKED_DIRECTLY
  deriving DecidableEq

/-- Component types. -/
inductive NodeType
  | PARAMETERS
  | ANIMATION
  | SHADING
  | GEOMETRY
  | TRANSFORM
  deriving DecidableEq

/-- Operation codes. -/
inductive OperationCode
  | SCENE_EVAL
  | COMPOSITOR_EVAL
  | MATERIAL_UPDATE
  deriving DecidableEq

/-- Tags of the build-tag map. -/
inductive Tag
  | TAG_PARAMETERS
  | TAG_SCENE_COMPOSITOR
  | TAG_COMPLETE
  deriving DecidableEq

/-- The evaluation callback bound to an operation; the builder never runs it. -/
inductive EvalCallback
  | BKE_scene_eval_compositor_nodetree (scene_cow : ID)
  deriving DecidableEq

/-- ID node: the wrapper of one data-block. -/
structure IDNode where
  id_orig : ID
  linked_state : eDepsNode_LinkedState
  deriving DecidableEq

/-- Component node, identified by its owner and type. -/
structure ComponentNode where
  owner : ID
  type : NodeType
  deriving DecidableEq

/-- Operation node, identified by its component (owner, type) and operation code. -/
structure OperationNode where
  owner : ID
  type : NodeType
  opcode : OperationCode
  evaluate : Option EvalCallback
  deriving DecidableEq

/-- One call of a function of the builder that the scene builder relies on, with its
arguments (and, for the tag check, its result). -/
inductive Call
  | add_id_node (id : ID)
  | add_time_source
  | checkIsBuiltAndTag (id : ID) (tag : Tag) (result : Bool)
  | get_cow_datablock (id : ID)
  | add_operation_node (id : ID) (type : NodeType) (opcode : OperationCode)
  | build_animdata (id : ID)
  | build_parameters (id : ID)
  | build_idproperties (prop : Option IDProperty)
  | build_scene_audio (scene : Nat)
  | build_scene_sequencer (scene : Nat)
  | build_scene_speakers (scene : Nat) (view_layer : Nat)
  | build_object (base_index : Int) (object : Nat) (linked_state : eDepsNode_LinkedState)
      (is_visible : Bool)
  deriving DecidableEq

/-- The builder object: the members `scene_` and `view_layer_`, the graph under
construction (ID nodes, components, operations, time source), the build-tag map, and
the calls made so far in the order they were made. -/
structure BuilderState where
  scene_ : Option Nat
  view_layer_ : Option Nat
  id_nodes : List IDNode
  components : List ComponentNode
  operations : List OperationNode
  time_source : Bool
  built_map : List (ID × Tag)
  trace : List Call
  deriving DecidableEq

/-- The builder at the start of a build pass. -/
def BuilderState.fresh : BuilderState :=
  { scene_ := none, view_layer_ := none, id_nodes := [], components := [],
    operations := [], time_source := false, built_map := [], trace := [] }

/-- Record a call. -/
def BuilderState.log (s : BuilderState) (c : Call) : BuilderState :=
  { s with trace := s.trace ++ [c] }

/-! ## Identity registry, build-tag map and graph primitives -/

/-- Position of the first ID node of `id` in the registry. -/
def find_id_node (id : ID) : List IDNode → Option Nat
  | [] => none
  | n :: rest => if n.id_orig = id then some 0 else (find_id_node id rest).map (· + 1)

/-- Modelled from the spec: `add_id_node` of the Identity Registry (its definition is
in `deg_builder_nodes.cc`, which is missing here).  Section 4.1: returns the existing
node for the entity if present; otherwise constructs a new one, registers it, and
returns it.  The node is returned as its position in the registry; a new node starts
indirectly linked. -/
def add_id_node (id : ID) (s : BuilderState) : Nat × BuilderState :=
  let s := s.log (Call.add_id_node id)
  match find_id_node id s.id_nodes with
  | some i => (i, s)
  | none =>
    (s.id_nodes.length,
      { s with id_nodes := s.id_nodes ++ [⟨id, eDepsNode_LinkedState.DEG_ID_LINKED_INDIRECTLY⟩] })

/-- Assignment `id_node->linked_state = state` on the registry list. -/
def set_linked_state_at (state : eDepsNode_LinkedState) : Nat → List IDNode → List IDNode
  | _, [] => []
  | 0, n :: rest => { n with linked_state := state } :: rest
  | i + 1, n :: rest => n :: set_linked_state_at state i rest

/-- Assignment `id_node->linked_state = state` for the node at position `id_node`. -/
def set_linked_state (id_node : Nat) (state : eDepsNode_LinkedState) (s : BuilderState) :
    BuilderState :=
  { s with id_nodes := set_linked_state_at state id_node s.id_nodes }

/-- Linkage state of the ID node of `id`, if the registry has one. -/
def linked_state_of (id : ID) (s : BuilderState) : Option eDepsNode_LinkedState :=
  (s.id_nodes.find? (fun n => decide (n.id_orig = id))).map (·.linked_state)

/-- Modelled from the spec: `get_cow_datablock` of the Identity Registry (missing
here).  Section 4.1: resolves an entity to its evaluation-time working copy, which is
opaque; the copy is named by the entity it is the copy of. -/
def get_cow_datablock (id : ID) (s : BuilderState) : ID × BuilderState :=
  (id, s.log (Call.get_cow_datablock id))

/-- Modelled from the spec: `BuilderMap::checkIsBuiltAndTag` (its definition is in
`deg_builder_map.cc`, which is missing here).  Section 4.2: returns `true` if this
(entity, tag) pair was already marked during the current pass, otherwise marks it and
returns `false`. -/
def checkIsBuiltAndTag (id : ID) (tag : Tag) (s : BuilderState) : Bool × BuilderState :=
  if (id, tag) ∈ s.built_map then
    (true, s.log (Call.checkIsBuiltAndTag id tag true))
  else
    (false, { s.log (Call.checkIsBuiltAndTag id tag false) with
                built_map := s.built_map ++ [(id, tag)] })

/-- Find-or-create of the component `(id, type)`. -/
def add_component_node (id : ID) (type : NodeType) (s : BuilderState) : BuilderState :=
  if (⟨id, type⟩ : ComponentNode) ∈ s.components then s
  else { s with components := s.components ++ [⟨id, type⟩] }

/-- Modelled from the spec: `add_operation_node` (its definition is in
`deg_builder_nodes.cc`, which is missing here).  Section 3: an operation node is owned
by one component node, which is owned by one ID node, so the ID node and the component
are fetched or created and the operation is added to the component.  The operation list
is not de-duplicated: that an operation exists once is a property of the callers. -/
def add_operation_node (id : ID) (type : NodeType) (opcode : OperationCode)
    (evaluate : Option EvalCallback) (s : BuilderState) : BuilderState :=
  let s := s.log (Call.add_operation_node id type opcode)
  let s := (add_id_node id s).2
  let s := add_component_node id type s
  { s with operations := s.operations ++ [⟨id, type, opcode, evaluate⟩] }

/-- Modelled from the spec: `add_time_source` (missing here).  Section 4.3 step 2:
ensure the time source node of the graph exists. -/
def add_time_source (s : BuilderState) : BuilderState :=
  { s.log Call.add_time_source with time_source := true }

/-! ## Collaborators that the spec leaves opaque

Section 1 and section 6 of the spec treat the animation, parameters, ID-property,
audio and sequencer builders as external collaborators with a "build operation(s) for
entity" entry point whose internals are not specified.  Each is represented by the
record of the request; the nodes it creates are its own concern. -/

/-- Modelled from the spec: `build_animdata` (missing here), the animation
collaborator of section 6, consumed only as "build this ID's animation". -/
def build_animdata (id : ID) (s : BuilderState) : BuilderState :=
  s.log (Call.build_animdata id)

/-- Modelled from the spec: `build_parameters` (missing here), the parameters
collaborator of section 6. -/
def build_parameters (id : ID) (s : BuilderState) : BuilderState :=
  s.log (Call.build_parameters id)

/-- Modelled from the spec: `build_idproperties` (missing here); section 4.3 only
says that properties attached to the scene and its markers are built. -/
def build_idproperties (prop : Option IDProperty) (s : BuilderState) : BuilderState :=
  s.log (Call.build_idproperties prop)

/-- Modelled from the spec: `build_scene_audio` (missing here), the audio collaborator
of section 6. -/
def build_scene_audio (scene : Scene) (s : BuilderState) : BuilderState :=
  s.log (Call.build_scene_audio scene.addr)

/-- Modelled from the spec: `build_scene_sequencer` (missing here), the sequencer
collaborator of section 6. -/
def build_scene_sequencer (scene : Scene) (s : BuilderState) : BuilderState :=
  s.log (Call.build_scene_sequencer scene.addr)

/-- Promotion of a linkage state: directness can only be upgraded. -/
def promote (old new : eDepsNode_LinkedState) : eDepsNode_LinkedState :=
  match old with
  | eDepsNode_LinkedState.DEG_ID_LINKED_DIRECTLY => eDepsNode_LinkedState.DEG_ID_LINKED_DIRECTLY
  | eDepsNode_LinkedState.DEG_ID_LINKED_INDIRECTLY => new

/-- Promotion of the linkage state of the node at a position of the registry. -/
def promote_linked_state_at (state : eDepsNode_LinkedState) : Nat → List IDNode → List IDNode
  | _, [] => []
  | 0, n :: rest => { n with linked_state := promote n.linked_state state } :: rest
  | i + 1, n :: rest => n :: promote_linked_state_at state i rest

/-- Modelled from the spec: `build_object` of the Object Builder (missing here).
Section 4.4: register or fetch the object's ID node and promote its linkage directness
if needed.  The per-object construction and the recursion into the members of an
instanced group are the Object Builder's own concern and are not represented. -/
def build_object (base_index : Int) (object : Nat) (linked_state : eDepsNode_LinkedState)
    (is_visible : Bool) (s : BuilderState) : BuilderState :=
  let s := s.log (Call.build_object base_index object linked_state is_visible)
  let (id_node, s) := add_id_node (ID.object object) s
  { s with id_nodes := promote_linked_state_at linked_state id_node s.id_nodes }

/-- Modelled from the spec: `build_scene_speakers` (missing here).  Section 4.3 step 7:
the speaker objects that the sequencer requires are built, each through the Object
Builder of section 4.4.  The spec does not give the other arguments of these object
builds: they are taken without a base (`-1`, as for the camera), visible, and linked
indirectly, so that the build of a speaker never marks an object direct. -/
def build_scene_speakers (scene : Scene) (view_layer : Nat) (s : BuilderState) :
    BuilderState :=
  scene.speakers.foldl
    (fun s object =>
      build_object (-1) object eDepsNode_LinkedState.DEG_ID_LINKED_INDIRECTLY true s)
    (s.log (Call.build_scene_speakers scene.addr view_layer))

/-- Modelled from the spec: `build_nodetree` of the Node-Tree Builder (missing here).
Section 4.5: builds animation and shading operations for the tree itself, then iterates
its nodes; for any node that references another node-tree (group node), recurses with
the same build-tag discipline, the tag keyed on the sub-tree's identity.  The check and
tag is the first action (section 9).  `fuel` bounds the depth of the recursion; `none`
means the bound was reached. -/
def build_nodetree (bmain : Main) : Nat → Nat → BuilderState → Option BuilderState
  | 0, _, _ => none
  | fuel + 1, ntree, s =>
    match checkIsBuiltAndTag (ID.nodetree ntree) Tag.TAG_COMPLETE s with
    | (true, s) => some s
    | (false, s) =>
      let s := build_animdata (ID.nodetree ntree) s
      let s := add_operation_node (ID.nodetree ntree) NodeType.SHADING
        OperationCode.MATERIAL_UPDATE none s
      (bmain.nodes ntree).foldlM
        (fun s bnode =>
          match bnode.group with
          | none => some s
          | some group_ntree => build_nodetree bmain fuel group_ntree s)
        s

/-! ## The scene builder (`deg_builder_nodes_scene.cc`) -/

/-- `DepsgraphNodeBuilder::build_scene_compositor`. -/
def build_scene_compositor (bmain : Main) (fuel : Nat) (scene : Scene) (s : BuilderState) :
    Option BuilderState :=
  match checkIsBuiltAndTag scene.id Tag.TAG_SCENE_COMPOSITOR s with
  | (true, s) => some s
  | (false, s) =>
    match scene.nodetree with
    | none => some s
    | some nodetree =>
      let (scene_cow, s) := get_cow_datablock scene.id s
      let s := add_operation_node scene.id NodeType.SHADING OperationCode.COMPOSITOR_EVAL
        (some (EvalCallback.BKE_scene_eval_compositor_nodetree scene_cow)) s
      build_nodetree bmain fuel nodetree s

/-- `DepsgraphNodeBuilder::build_scene_parameters`. -/
def build_scene_parameters (bmain : Main) (fuel : Nat) (scene : Scene) (s : BuilderState) :
    Option BuilderState :=
  match checkIsBuiltAndTag scene.id Tag.TAG_PARAMETERS s with
  | (true, s) => some s
  | (false, s) =>
    let s := build_parameters scene.id s
    let s := build_idproperties scene.properties s
    let s := add_operation_node scene.id NodeType.PARAMETERS OperationCode.SCENE_EVAL none s
    match build_scene_compositor bmain fuel scene s with
    | none => none
    | some s =>
      some (scene.markers.foldl (fun s marker => build_idproperties marker.prop s) s)

/-- `DepsgraphNodeBuilder::build_scene_render`. -/
def build_scene_render (bits : SceModeBits) (bmain : Main) (fuel : Nat) (scene : Scene)
    (view_layer : Nat) (s : BuilderState) : Option BuilderState :=
  let s := { s with scene_ := some scene.addr, view_layer_ := some view_layer }
  let build_compositor : Bool := scene.r.scemode &&& bits.R_DOCOMP != 0
  let build_sequencer : Bool := scene.r.scemode &&& bits.R_DOSEQ != 0
  let (id_node, s) := add_id_node scene.id s
  let s := set_linked_state id_node eDepsNode_LinkedState.DEG_ID_LINKED_DIRECTLY s
  let s := add_time_source s
  let s := build_animdata scene.id s
  match build_scene_parameters bmain fuel scene s with
  | none => none
  | some s =>
    let s := build_scene_audio scene s
    match (if build_compositor then build_scene_compositor bmain fuel scene s else some s) with
    | none => none
    | some s =>
      let s :=
        if build_sequencer then
          build_scene_speakers scene view_layer (build_scene_sequencer scene s)
        else s
      let s :=
        match scene.camera with
        | some camera =>
          build_object (-1) camera eDepsNode_LinkedState.DEG_ID_LINKED_DIRECTLY true s
        | none => s
      some s

/-! ## Notions used to state the results -/

/-- The node-tree at address `t` has been tagged as built. -/
def ntTagged (s : BuilderState) (t : Nat) : Prop :=
  (ID.nodetree t, Tag.TAG_COMPLETE) ∈ s.built_map

instance (s : BuilderState) (t : Nat) : Decidable (ntTagged s t) := by
  unfold ntTagged; infer_instance

/-- What `build_nodetree` does for a tree that is not yet built, before it iterates
the nodes: tag, animation, shading operation. -/
def enter_nodetree (t : Nat) (s : BuilderState) : BuilderState :=
  add_operation_node (ID.nodetree t) NodeType.SHADING OperationCode.MATERIAL_UPDATE none
    (build_animdata (ID.nodetree t)
      (checkIsBuiltAndTag (ID.nodetree t) Tag.TAG_COMPLETE s).2)

/-- The iteration of `build_nodetree` over the nodes of a tree. -/
def build_nodetree_nodes (bmain : Main) (fuel : Nat) (nodes : List bNode) (s : BuilderState) :
    Option BuilderState :=
  nodes.foldlM
    (fun s bnode =>
      match bnode.group with
      | none => some s
      | some group_ntree => build_nodetree bmain fuel group_ntree s)
    s

/-- The identity is that of a node-tree. -/
def ID.isNodetree : ID → Bool
  | ID.nodetree _ => true
  | _ => false

/-- The call is one the Node-Tree Builder makes for a node-tree. -/
def Call.isNodetreeCall : Call → Bool
  | Call.add_id_node id => id.isNodetree
  | Call.checkIsBuiltAndTag id _ _ => id.isNodetree
  | Call.add_operation_node id _ _ => id.isNodetree
  | Call.build_animdata id => id.isNodetree
  | _ => false

/-- The state `s2` extends `s1` by node-tree material only: everything `s1` holds is
kept in place, and what was added (ID nodes, components, operations, tags, calls)
belongs to node-trees. -/
structure NtExt (s1 s2 : BuilderState) : Prop where
  scene_eq : s2.scene_ = s1.scene_
  view_layer_eq : s2.view_layer_ = s1.view_layer_
  time_source_eq : s2.time_source = s1.time_source
  id_nodes_ext : ∃ l, s2.id_nodes = s1.id_nodes ++ l ∧ ∀ n ∈ l, n.id_orig.isNodetree = true
  components_ext : ∃ l, s2.components = s1.components ++ l ∧ ∀ c ∈ l, c.owner.isNodetree = true
  operations_ext : ∃ l, s2.operations = s1.operations ++ l ∧ ∀ o ∈ l, o.owner.isNodetree = true
  built_map_ext : ∃ l, s2.built_map = s1.built_map ++ l ∧ ∀ p ∈ l, p.1.isNodetree = true
  trace_ext : ∃ l, s2.trace = s1.trace ++ l ∧ ∀ c ∈ l, c.isNodetreeCall = true

/-- Number of times the node-tree at `u` was expanded: the tag checks on it that
returned `false`. -/
def expansions (u : Nat) (s : BuilderState) : Nat :=
  s.trace.count (Call.checkIsBuiltAndTag (ID.nodetree u) Tag.TAG_COMPLETE false)

/-- Number of shading operations the graph holds for the node-tree at `u`. -/
def nodetree_ops (u : Nat) (s : BuilderState) : Nat :=
  s.operations.count
    ⟨ID.nodetree u, NodeType.SHADING, OperationCode.MATERIAL_UPDATE, none⟩

/-- The trace, the operations and the tags agree on the node-trees: a tagged tree was
expanded once and has one shading operation, an untagged tree none. -/
def NtInv (s : BuilderState) : Prop :=
  ∀ u, expansions u s = (if ntTagged s u then 1 else 0) ∧
    nodetree_ops u s = (if ntTagged s u then 1 else 0)

/-- The node-tree at `g` is referenced by a group node of the node-tree at `u`. -/
def references (bmain : Main) (u g : Nat) : Prop :=
  (⟨some g⟩ : bNode) ∈ bmain.nodes u

/-- The node-tree at `u` is reached from the node-tree at `t` through group nodes. -/
def Reach (bmain : Main) (t u : Nat) : Prop :=
  Relation.ReflTransGen (references bmain) t u

/-- What `build_scene_compositor` does between the two early returns and the call of
`build_nodetree`: resolve the evaluated copy and add the compositor operation. -/
def compositor_entry (scene : Scene) (s : BuilderState) : BuilderState :=
  add_operation_node scene.id NodeType.SHADING OperationCode.COMPOSITOR_EVAL
    (some (EvalCallback.BKE_scene_eval_compositor_nodetree scene.id))
    (get_cow_datablock scene.id (checkIsBuiltAndTag scene.id Tag.TAG_SCENE_COMPOSITOR s).2).2

/-- What `build_scene_parameters` does between the early return and the call of
`build_scene_compositor`. -/
def parameters_entry (scene : Scene) (s : BuilderState) : BuilderState :=
  add_operation_node scene.id NodeType.PARAMETERS OperationCode.SCENE_EVAL none
    (build_idproperties scene.properties
      (build_parameters scene.id (checkIsBuiltAndTag scene.id Tag.TAG_PARAMETERS s).2))

/-- The loop of `build_scene_parameters` over the markers of the scene. -/
def build_markers (scene : Scene) (s : BuilderState) : BuilderState :=
  scene.markers.foldl (fun s marker => build_idproperties marker.prop s) s

/-- The state `s2` comes later in the pass than `s1`: no tag was removed and no directly
linked ID node was reverted. -/
def Grows (s1 s2 : BuilderState) : Prop :=
  (∀ p ∈ s1.built_map, p ∈ s2.built_map) ∧
  (∀ id, linked_state_of id s1 = some eDepsNode_LinkedState.DEG_ID_LINKED_DIRECTLY →
    linked_state_of id s2 = some eDepsNode_LinkedState.DEG_ID_LINKED_DIRECTLY)

/-- Number of compositor operations the graph holds for the scene. -/
def compositor_ops (scene : Scene) (s : BuilderState) : Nat :=
  s.operations.countP (fun o => decide (o.owner = scene.id ∧ o.type = NodeType.SHADING ∧
    o.opcode = OperationCode.COMPOSITOR_EVAL))

/-- A sequence of tag checks, in order. -/
def run_checks (pairs : List (ID × Tag)) (s : BuilderState) : BuilderState :=
  pairs.foldl (fun s p => (checkIsBuiltAndTag p.1 p.2 s).2) s

/-- What `build_scene_render` does before it calls `build_scene_parameters`. -/
def render_entry (scene : Scene) (view_layer : Nat) (s : BuilderState) : BuilderState :=
  let s := { s with scene_ := some scene.addr, view_layer_ := some view_layer }
  build_animdata scene.id
    (add_time_source
      (set_linked_state (add_id_node scene.id s).1
        eDepsNode_LinkedState.DEG_ID_LINKED_DIRECTLY (add_id_node scene.id s).2))

/-- The sequencer step of `build_scene_render`. -/
def render_sequencer (bits : SceModeBits) (scene : Scene) (view_layer : Nat)
    (s : BuilderState) : BuilderState :=
  if scene.r.scemode &&& bits.R_DOSEQ != 0 then
    build_scene_speakers scene view_layer (build_scene_sequencer scene s)
  else s

/-- The camera step of `build_scene_render`. -/
def render_camera (scene : Scene) (s : BuilderState) : BuilderState :=
  match scene.camera with
  | some camera => build_object (-1) camera eDepsNode_LinkedState.DEG_ID_LINKED_DIRECTLY true s
  | none => s

/-- A database of two node-trees that reference each other through group nodes. -/
def cyclic_bmain : Main :=
  ⟨[(10, ⟨[⟨some 11⟩, ⟨none⟩]⟩), (11, ⟨[⟨some 10⟩]⟩)]⟩

/-- Sample values of the two mode bits. -/
def sample_bits : SceModeBits := ⟨1, 64⟩

/-- A scene with compositing requested, a node-tree, a camera and a marker. -/
def scene_comp : Scene :=
  { addr := 1, properties := none, r := ⟨64⟩, nodetree := some 10, camera := some 5,
    markers := [⟨none⟩] }

/-- The same scene with compositing not requested. -/
def scene_nocomp : Scene :=
  { addr := 1, properties := none, r := ⟨0⟩, nodetree := some 10, camera := some 5,
    markers := [⟨none⟩] }

/-- A scene with no node-tree, no mode bit set and a camera. -/
def scene_plain : Scene :=
  { addr := 1, properties := some 7, r := ⟨0⟩, nodetree := none, camera := some 5,
    markers := [] }

/-- Number of tag checks on the pair `(id, tag)` that returned `false`. -/
def false_checks (id : ID) (tag : Tag) (s : BuilderState) : Nat :=
  s.trace.count (Call.checkIsBuiltAndTag id tag false)

/-- The trace and the build-tag map agree: a marked pair had one check that returned
`false`, an unmarked pair none. -/
def TagInv (s : BuilderState) : Prop :=
  ∀ id tag, false_checks id tag s = (if (id, tag) ∈ s.built_map then 1 else 0)

/-- The calls that the builds of the speaker objects make: for each object the object
build and the request for its ID node. -/
def speaker_calls : List Nat → List Call
  | [] => []
  | object :: rest =>
    Call.build_object (-1) object eDepsNode_LinkedState.DEG_ID_LINKED_INDIRECTLY true ::
      Call.add_id_node (ID.object object) :: speaker_calls rest

/-- The calls of the sequencer step and of the camera step of `build_scene_render`. -/
def render_tail (bits : SceModeBits) (scene : Scene) (view_layer : Nat) : List Call :=
  (if scene.r.scemode &&& bits.R_DOSEQ != 0 then
    [Call.build_scene_sequencer scene.addr, Call.build_scene_speakers scene.addr view_layer]
      ++ speaker_calls scene.speakers
  else []) ++
  (match scene.camera with
   | some camera =>
     [Call.build_object (-1) camera eDepsNode_LinkedState.DEG_ID_LINKED_DIRECTLY true,
      Call.add_id_node (ID.object camera)]
   | none => [])

/-- Number of node-trees of the database that are not yet tagged as built. -/
def untagged (bmain : Main) (s : BuilderState) : Nat :=
  bmain.nodetrees.countP (fun e => decide (¬ ntTagged s e.1))

/-! ## Notions used to state the results on the registry, the sequencer and the camera -/

/-- The registry of `t` extends the registry of `s`: the ID nodes of `s` are still
there, in place and for the same entities, and nodes were only added behind them. -/
def RegistryGrows (s t : BuilderState) : Prop :=
  ∃ l, t.id_nodes.map (·.id_orig) = s.id_nodes.map (·.id_orig) ++ l

/-- The call is neither a sequencer nor a speakers build. -/
def Call.notSequencer : Call → Bool
  | Call.build_scene_sequencer _ => false
  | Call.build_scene_speakers _ _ => false
  | _ => true

/-- The call is not an object build. -/
def Call.notObject : Call → Bool
  | Call.build_object _ _ _ _ => false
  | _ => true

/-- The state `t` follows `s` by steps that are no sequencer, speakers or object
build: the registry of `t` extends that of `s`, and the calls made since `s` are none
of these three. -/
def Quiet (s t : BuilderState) : Prop :=
  RegistryGrows s t ∧
  ∃ l, t.trace = s.trace ++ l ∧ ∀ c ∈ l, c.notSequencer = true ∧ c.notObject = true

/-- The calls of the sequencer step of `build_scene_render`. -/
def sequencer_calls (bits : SceModeBits) (scene : Scene) (view_layer : Nat) : List Call :=
  if scene.r.scemode &&& bits.R_DOSEQ != 0 then
    [Call.build_scene_sequencer scene.addr, Call.build_scene_speakers scene.addr view_layer]
      ++ speaker_calls scene.speakers
  else []

/-- The calls of the camera step of `build_scene_render`. -/
def camera_calls (scene : Scene) : List Call :=
  match scene.camera with
  | some camera =>
    [Call.build_object (-1) camera eDepsNode_LinkedState.DEG_ID_LINKED_DIRECTLY true,
     Call.add_id_node (ID.object camera)]
  | none => []

/-- A scene like `scene_comp` with the sequencer flag set as well. -/
def scene_seq : Scene :=
  { addr := 1, properties := none, r := ⟨65⟩, nodetree := some 10, camera := some 5,
    markers := [⟨none⟩] }

/-- A scene with a node-tree and no camera. -/
def scene_nocam : Scene :=
  { addr := 1, properties := none, r := ⟨64⟩, nodetree := some 10, camera := none,
    markers := [] }

end Deg

/-!
# OptiX device queue

A shallow embedding of `OptiXDeviceQueue::enqueue` of
`intern/cycles/device/optix/queue.cpp`.
-/

namespace Optix

/-- The kernels of `DeviceKernel`, as the `switch` of `OptiXDeviceQueue::enqueue` lists
them. -/
inductive DeviceKernel
  | DEVICE_KERNEL_INTEGRATOR_SHADE_SURFACE_RAYTRACE
  | DEVICE_KERNEL_INTEGRATOR_INTERSECT_CLOSEST
  | DEVICE_KERNEL_INTEGRATOR_INTERSECT_SHADOW
  | DEVICE_KERNEL_INTEGRATOR_INTERSECT_SUBSURFACE
  | DEVICE_KERNEL_INTEGRATOR_INIT_FROM_CAMERA
  | DEVICE_KERNEL_INTEGRATOR_SHADE_BACKGROUND
  | DEVICE_KERNEL_INTEGRATOR_SHADE_LIGHT
  | DEVICE_KERNEL_INTEGRATOR_SHADE_SURFACE
  | DEVICE_KERNEL_INTEGRATOR_SHADE_VOLUME
  | DEVICE_KERNEL_INTEGRATOR_SHADE_SHADOW
  | DEVICE_KERNEL_INTEGRATOR_MEGAKERNEL
  | DEVICE_KERNEL_INTEGRATOR_QUEUED_PATHS_ARRAY
  | DEVICE_KERNEL_INTEGRATOR_QUEUED_SHADOW_PATHS_ARRAY
  | DEVICE_KERNEL_INTEGRATOR_ACTIVE_PATHS_ARRAY
  | DEVICE_KERNEL_INTEGRATOR_TERMINATED_PATHS_ARRAY
  | DEVICE_KERNEL_INTEGRATOR_SORTED_PATHS_ARRAY
  | DEVICE_KERNEL_INTEGRATOR_RESET
  | DEVICE_KERNEL_SHADER_EVAL_DISPLACE
  | DEVICE_KERNEL_SHADER_EVAL_BACKGROUND
  | DEVICE_KERNEL_FILM_CONVERT_DEPTH_HALF_RGBA
  | DEVICE_KERNEL_FILM_CONVERT_MIST_HALF_RGBA
  | DEVICE_KERNEL_FILM_CONVERT_SAMPLE_COUNT_HALF_RGBA
  | DEVICE_KERNEL_FILM_CONVERT_FLOAT_HALF_RGBA
  | DEVICE_KERNEL_FILM_CONVERT_SHADOW3_HALF_RGBA
  | DEVICE_KERNEL_FILM_CONVERT_DIVIDE_EVEN_COLOR_HALF_RGBA
  | DEVICE_KERNEL_FILM_CONVERT_FLOAT3_HALF_RGBA
  | DEVICE_KERNEL_FILM_CONVERT_SHADOW4_HALF_RGBA
  | DEVICE_KERNEL_FILM_CONVERT_MOTION_HALF_RGBA
  | DEVICE_KERNEL_FILM_CONVERT_CRYPTOMATTE_HALF_RGBA
  | DEVICE_KERNEL_FILM_CONVERT_DENOISING_COLOR_HALF_RGBA
  | DEVICE_KERNEL_FILM_CONVERT_SHADOW_CATCHER_HALF_RGBA
  | DEVICE_KERNEL_FILM_CONVERT_SHADOW_CATCHER_MATTE_WITH_SHADOW_HALF_RGBA
  | DEVICE_KERNEL_FILM_CONVERT_FLOAT4_HALF_RGBA
  | DEVICE_KERNEL_ADAPTIVE_SAMPLING_CONVERGENCE_CHECK
  | DEVICE_KERNEL_ADAPTIVE_SAMPLING_CONVERGENCE_FILTER_X
  | DEVICE_KERNEL_ADAPTIVE_SAMPLING_CONVERGENCE_FILTER_Y
  | DEVICE_KERNEL_FILTER_CONVERT_TO_RGB
  | DEVICE_KERNEL_FILTER_CONVERT_FROM_RGB
  | DEVICE_KERNEL_PREFIX_SUM
  | DEVICE_KERNEL_NUM
  deriving DecidableEq

/-- The pipelines `enqueue` picks from `optix_device->pipelines`. -/
inductive Pipeline
  | PIP_SHADE_RAYTRACE
  | PIP_INTERSECT
  deriving DecidableEq

/-- The ray-generation program groups `enqueue` points `sbt_params.raygenRecord` at. -/
inductive RaygenGroup
  | PG_RGEN_SHADE_SURFACE_RAYTRACE
  | PG_RGEN_INTERSECT_CLOSEST
  | PG_RGEN_INTERSECT_SHADOW
  | PG_RGEN_INTERSECT_SUBSURFACE
  deriving DecidableEq

/-- What `enqueue` does to the device and the log, in order. -/
inductive Event
  | debug_enqueue (kernel : DeviceKernel) (work_size : Int)
  | copy_path_index_array (src : Option Nat)
  | copy_render_buffer (src : Option Nat)
  | stream_synchronize
  | optixLaunch (pipeline : Pipeline) (raygen : RaygenGroup) (work_size : Int)
  | log_error_invalid_kernel
  | cuda_enqueue (kernel : DeviceKernel) (work_size : Int) (args : List Nat)
  deriving DecidableEq

/-- The device as `enqueue` sees it: whether an error is set on it, and what has been
done so far. -/
structure Device where
  have_error : Bool
  events : List Event
  deriving DecidableEq

/-- What `enqueue` relies on and this file does not define: whether each driver call
succeeds, and `CUDADeviceQueue::enqueue` of the parent class. -/
structure Driver where
  copy_path_index_array_ok : Bool
  copy_render_buffer_ok : Bool
  stream_synchronize_ok : Bool
  optixLaunch_ok : Bool
  CUDADeviceQueue_enqueue : DeviceKernel → Int → List Nat → Device → Bool × Device

/-- The macros `cuda_device_assert` and `optix_device_assert`: the call is made, and an
error is set on the device if it failed. -/
def device_assert (ev : Event) (ok : Bool) (dev : Device) : Device :=
  { have_error := dev.have_error || !ok, events := dev.events ++ [ev] }

/-- `is_optix_specific_kernel`. -/
def is_optix_specific_kernel (kernel : DeviceKernel) : Bool :=
  kernel == DeviceKernel.DEVICE_KERNEL_INTEGRATOR_SHADE_SURFACE_RAYTRACE ||
  kernel == DeviceKernel.DEVICE_KERNEL_INTEGRATOR_INTERSECT_CLOSEST ||
  kernel == DeviceKernel.DEVICE_KERNEL_INTEGRATOR_INTERSECT_SHADOW ||
  kernel == DeviceKernel.DEVICE_KERNEL_INTEGRATOR_INTERSECT_SUBSURFACE

/-- The `switch` of `enqueue`: the pipeline and ray-generation record of the four
OptiX kernels; `none` is the branch that logs "Invalid kernel is attempted to be
enqueued." and returns `false`. -/
def select_pipeline : DeviceKernel → Option (Pipeline × RaygenGroup)
  | DeviceKernel.DEVICE_KERNEL_INTEGRATOR_SHADE_SURFACE_RAYTRACE =>
    some (Pipeline.PIP_SHADE_RAYTRACE, RaygenGroup.PG_RGEN_SHADE_SURFACE_RAYTRACE)
  | DeviceKernel.DEVICE_KERNEL_INTEGRATOR_INTERSECT_CLOSEST =>
    some (Pipeline.PIP_INTERSECT, RaygenGroup.PG_RGEN_INTERSECT_CLOSEST)
  | DeviceKernel.DEVICE_KERNEL_INTEGRATOR_INTERSECT_SHADOW =>
    some (Pipeline.PIP_INTERSECT, RaygenGroup.PG_RGEN_INTERSECT_SHADOW)
  | DeviceKernel.DEVICE_KERNEL_INTEGRATOR_INTERSECT_SUBSURFACE =>
    some (Pipeline.PIP_INTERSECT, RaygenGroup.PG_RGEN_INTERSECT_SUBSURFACE)
  | DeviceKernel.DEVICE_KERNEL_INTEGRATOR_INIT_FROM_CAMERA
  | DeviceKernel.DEVICE_KERNEL_INTEGRATOR_SHADE_BACKGROUND
  | DeviceKernel.DEVICE_KERNEL_INTEGRATOR_SHADE_LIGHT
  | DeviceKernel.DEVICE_KERNEL_INTEGRATOR_SHADE_SURFACE
  | DeviceKernel.DEVICE_KERNEL_INTEGRATOR_SHADE_VOLUME
  | DeviceKernel.DEVICE_KERNEL_INTEGRATOR_SHADE_SHADOW
  | DeviceKernel.DEVICE_KERNEL_INTEGRATOR_MEGAKERNEL
  | DeviceKernel.DEVICE_KERNEL_INTEGRATOR_QUEUED_PATHS_ARRAY
  | DeviceKernel.DEVICE_KERNEL_INTEGRATOR_QUEUED_SHADOW_PATHS_ARRAY
  | DeviceKernel.DEVICE_KERNEL_INTEGRATOR_ACTIVE_PATHS_ARRAY
  | DeviceKernel.DEVICE_KERNEL_INTEGRATOR_TERMINATED_PATHS_ARRAY
  | DeviceKernel.DEVICE_KERNEL_INTEGRATOR_SORTED_PATHS_ARRAY
  | DeviceKernel.DEVICE_KERNEL_INTEGRATOR_RESET
  | DeviceKernel.DEVICE_KERNEL_SHADER_EVAL_DISPLACE
  | DeviceKernel.DEVICE_KERNEL_SHADER_EVAL_BACKGROUND
  | DeviceKernel.DEVICE_KERNEL_FILM_CONVERT_DEPTH_HALF_RGBA
  | DeviceKernel.DEVICE_KERNEL_FILM_CONVERT_MIST_HALF_RGBA
  | DeviceKernel.DEVICE_KERNEL_FILM_CONVERT_SAMPLE_COUNT_HALF_RGBA
  | DeviceKernel.DEVICE_KERNEL_FILM_CONVERT_FLOAT_HALF_RGBA
  | DeviceKernel.DEVICE_KERNEL_FILM_CONVERT_SHADOW3_HALF_RGBA
  | DeviceKernel.DEVICE_KERNEL_FILM_CONVERT_DIVIDE_EVEN_COLOR_HALF_RGBA
  | DeviceKernel.DEVICE_KERNEL_FILM_CONVERT_FLOAT3_HALF_RGBA
  | DeviceKernel.DEVICE_KERNEL_FILM_CONVERT_SHADOW4_HALF_RGBA
  | DeviceKernel.DEVICE_KERNEL_FILM_CONVERT_MOTION_HALF_RGBA
  | DeviceKernel.DEVICE_KERNEL_FILM_CONVERT_CRYPTOMATTE_HALF_RGBA
  | DeviceKernel.DEVICE_KERNEL_FILM_CONVERT_DENOISING_COLOR_HALF_RGBA
  | DeviceKernel.DEVICE_KERNEL_FILM_CONVERT_SHADOW_CATCHER_HALF_RGBA
  | DeviceKernel.DEVICE_KERNEL_FILM_CONVERT_SHADOW_CATCHER_MATTE_WITH_SHADOW_HALF_RGBA
  | DeviceKernel.DEVICE_KERNEL_FILM_CONVERT_FLOAT4_HALF_RGBA
  | DeviceKernel.DEVICE_KERNEL_ADAPTIVE_SAMPLING_CONVERGENCE_CHECK
  | DeviceKernel.DEVICE_KERNEL_ADAPTIVE_SAMPLING_CONVERGENCE_FILTER_X
  | DeviceKernel.DEVICE_KERNEL_ADAPTIVE_SAMPLING_CONVERGENCE_FILTER_Y
  | DeviceKernel.DEVICE_KERNEL_FILTER_CONVERT_TO_RGB
  | DeviceKernel.DEVICE_KERNEL_FILTER_CONVERT_FROM_RGB
  | DeviceKernel.DEVICE_KERNEL_PREFIX_SUM
  | DeviceKernel.DEVICE_KERNEL_NUM => none

/-- `OptiXDeviceQueue::enqueue`: the returned value and the device after the call.
`args` is the array of argument pointers. -/
def enqueue (drv : Driver) (kernel : DeviceKernel) (work_size : Int) (args : List Nat)
    (dev : Device) : Bool × Device :=
  if !is_optix_specific_kernel kernel then
    drv.CUDADeviceQueue_enqueue kernel work_size args dev
  else if dev.have_error then
    (false, dev)
  else
    let dev := { dev with events := dev.events ++ [Event.debug_enqueue kernel work_size] }
    let dev := device_assert (Event.copy_path_index_array args[0]?) drv.copy_path_index_array_ok dev
    let dev :=
      if kernel = DeviceKernel.DEVICE_KERNEL_INTEGRATOR_SHADE_SURFACE_RAYTRACE then
        device_assert (Event.copy_render_buffer args[1]?) drv.copy_render_buffer_ok dev
      else dev
    let dev := device_assert Event.stream_synchronize drv.stream_synchronize_ok dev
    match select_pipeline kernel with
    | none =>
      (false, { dev with events := dev.events ++ [Event.log_error_invalid_kernel] })
    | some (pipeline, raygen) =>
      let dev := device_assert (Event.optixLaunch pipeline raygen work_size)
        drv.optixLaunch_ok dev
      (!dev.have_error, dev)

/-- A driver whose calls all succeed, with a parent queue that launches the kernel it
is given and reports success. -/
def working_driver : Driver :=
  { copy_path_index_array_ok := true, copy_render_buffer_ok := true,
    stream_synchronize_ok := true, optixLaunch_ok := true,
    CUDADeviceQueue_enqueue := fun kernel work_size args dev =>
      if dev.have_error then (false, dev)
      else
        (true,
          { dev with events := dev.events ++ [Event.cuda_enqueue kernel work_size args] }) }

end Optix

/-!
# Cache library: object list and item names

A shallow embedding of `cache_library_tag_recursive`,
`BKE_cache_library_make_object_list`, `BKE_cache_item_name_prefix` and
`BKE_cache_item_name` of `source/blender/blenkernel/intern/cache_library.c`.
-/

namespace CacheLib

/-- The macros `cache_library.c` uses and does not define; the results hold for any
value of them. -/
structure Defines where
  MAX_CACHE_GROUP_LEVEL : Nat
  LIB_DOIT : Nat
  OB_DUPLIGROUP : Nat

/-- The part of `Object` the functions read: `flag` is `ob->id.flag`, `dup_group` is the
list of the `gob->ob` of `ob->dup_group->gobject` (`none` for a null `dup_group`), and
`cache_library` is the pointer `ob->cache_library`.  An object is named by its place in
`bmain->object`. -/
structure Object where
  flag : Nat
  transflag : Nat
  dup_group : Option (List Nat)
  cache_library : Option Nat
  deriving DecidableEq

/-- The objects of `bmain`, and the calls of `cache_library_tag_recursive` made so far
as pairs (level, object). -/
structure TagState where
  objects : List Object
  calls : List (Nat × Nat)
  deriving DecidableEq

/-- The object at `ob` has the `LIB_DOIT` tag. -/
def tagged (c : Defines) (objects : List Object) (ob : Nat) : Bool :=
  match objects[ob]? with
  | some o => o.flag &&& c.LIB_DOIT != 0
  | none => false

/-- `cache_library_tag_recursive`.  `fuel` bounds the depth of the recursion; `none`
means the bound was reached. -/
def cache_library_tag_recursive (c : Defines) : Nat → Nat → Nat → TagState → Option TagState
  | 0, _, _, _ => none
  | fuel + 1, level, ob, s =>
    let s := { s with calls := s.calls ++ [(level, ob)] }
    if level > c.MAX_CACHE_GROUP_LEVEL then some s
    else
      match s.objects[ob]? with
      | none => some s
      | some o =>
        if o.transflag &&& c.OB_DUPLIGROUP ≠ 0 then
          match o.dup_group with
          | none => some s
          | some gobject =>
            gobject.foldlM
              (fun s gob_ob =>
                match s.objects[ob]? with
                | none => some s
                | some o =>
                  if o.flag &&& c.LIB_DOIT = 0 then
                    cache_library_tag_recursive c fuel (level + 1) gob_ob
                      { s with
                        objects := s.objects.set ob { o with flag := o.flag ||| c.LIB_DOIT } }
                  else some s)
              s
        else some s

/-- Modelled from the spec: `BKE_main_id_tag_idcode(bmain, ID_OB, false)` (its
definition is in `library.c`, which is missing here; the spec does not describe it).
The call site says "clear tags": the `LIB_DOIT` bits of every object are cleared. -/
def BKE_main_id_tag_idcode_OB_false (c : Defines) (objects : List Object) : List Object :=
  objects.map (fun o => { o with flag := o.flag ^^^ (o.flag &&& c.LIB_DOIT) })

/-- `BKE_cache_library_make_object_list`: the objects of `bmain` after the call and the
list `lb` after the call (the objects its links point at). -/
def BKE_cache_library_make_object_list (c : Defines) (fuel : Nat) (objects : List Object)
    (cachelib : Option Nat) (lb : List Nat) : Option (List Object × List Nat) :=
  match cachelib with
  | none => some (objects, lb)
  | some cl =>
    let s : TagState := { objects := BKE_main_id_tag_idcode_OB_false c objects, calls := [] }
    match (List.range objects.length).foldlM
        (fun s ob =>
          match s.objects[ob]? with
          | none => some s
          | some o =>
            if o.cache_library = some cl then cache_library_tag_recursive c fuel 0 ob s
            else some s)
        s with
    | none => none
    | some s =>
      some (s.objects,
        lb ++ (List.range s.objects.length).filter (fun ob => tagged c s.objects ob))

/-- Sample values of the macros. -/
def sample_defines : Defines :=
  { MAX_CACHE_GROUP_LEVEL := 8, LIB_DOIT := 1024, OB_DUPLIGROUP := 256 }

/-- Three objects: object 0 belongs to cache library 1 and instances a group whose
members are the objects 1 and 2, which are plain objects. -/
def group_of_two : List Object :=
  [{ flag := 0, transflag := 256, dup_group := some [1, 2], cache_library := some 1 },
   { flag := 0, transflag := 0, dup_group := none, cache_library := none },
   { flag := 0, transflag := 0, dup_group := none, cache_library := none }]

/-- One object that instances a group which contains the object itself. -/
def self_group : List Object :=
  [{ flag := 0, transflag := 256, dup_group := some [0], cache_library := some 1 }]

/-- The cache item types `BKE_cache_item_name_prefix` switches on (the enumerators of
`eCacheLibrary_Type`, whose values are not defined here), and any other value of the
`int type` argument. -/
inductive CacheType where
  | CACHE_TYPE_OBJECT
  | CACHE_TYPE_DERIVED_MESH
  | CACHE_TYPE_HAIR
  | CACHE_TYPE_HAIR_PATHS
  | CACHE_TYPE_PARTICLES
  | other (type : Int)
  deriving DecidableEq

/-- `BKE_cache_item_name_prefix`; `none` is the `NULL` of the default case. -/
def BKE_cache_item_name_prefix : CacheType → Option (List Char)
  | .CACHE_TYPE_OBJECT => some "OBJECT".toList
  | .CACHE_TYPE_DERIVED_MESH => some "MESH".toList
  | .CACHE_TYPE_HAIR => some "HAIR".toList
  | .CACHE_TYPE_HAIR_PATHS => some "HAIRPATHS".toList
  | .CACHE_TYPE_PARTICLES => some "PARTICLES".toList
  | .other _ => none

/-- The conversion `%d` of `sprintf` for a value that is not negative. -/
def decimal (n : Nat) : List Char :=
  if n = 0 then ['0'] else ((Nat.digits 10 n).reverse.map Nat.digitChar)

/-- `BKE_cache_item_name`, as the string written to `name`; `ob_name` is
`ob->id.name + 2`.  `none` when the prefix is `NULL`. -/
def BKE_cache_item_name (ob_name : List Char) (type : CacheType) (index : Int) :
    Option (List Char) :=
  match BKE_cache_item_name_prefix type with
  | none => none
  | some pre =>
    if index ≥ 0 then some (pre ++ '_' :: (ob_name ++ '_' :: decimal index.toNat))
    else some (pre ++ '_' :: ob_name)

end CacheLib

/-!
# KDL vectors: norm and normalisation

A shallow embedding of `Vector::Norm`, `Vector::Normalize`, `Vector2::Norm` and
`Vector2::Normalize` of `intern/itasc/kdl/frames.cpp`.
-/

namespace KDL

/-- The three coordinates `data[0]`, `data[1]`, `data[2]` of a `Vector`.  A `double` is
taken as a rational number: the arithmetic of the model is exact. -/
structure Vector where
  data0 : ℚ
  data1 : ℚ
  data2 : ℚ
  deriving DecidableEq

/-- The two coordinates `data[0]`, `data[1]` of a `Vector2`. -/
structure Vector2 where
  data0 : ℚ
  data1 : ℚ
  deriving DecidableEq

/-- What `frames.cpp` calls and does not define: the square root of the C library,
`sqr` of `utility.h`, and the division of a vector by a number of `frames.inl`.  The
results hold for any of them. -/
structure Ops where
  sqrt : ℚ → ℚ
  sqr : ℚ → ℚ
  div : Vector → ℚ → Vector
  div2 : Vector2 → ℚ → Vector2

/-- The absolute value `fabs`. -/
def fabs (x : ℚ) : ℚ := if x < 0 then -x else x

/-- `Vector2::Norm`. -/
def Vector2.Norm (ops : Ops) (v : Vector2) : ℚ :=
  let tmp0 := fabs v.data0
  let tmp1 := fabs v.data1
  if tmp0 ≥ tmp1 then
    if tmp1 = 0 then 0
    else tmp0 * ops.sqrt (1 + ops.sqr (tmp1 / tmp0))
  else tmp1 * ops.sqrt (1 + ops.sqr (tmp0 / tmp1))

/-- `Vector2::Normalize`: the vector after the call and the value returned. -/
def Vector2.Normalize (ops : Ops) (self : Vector2) (eps : ℚ) : Vector2 × ℚ :=
  let v := self.Norm ops
  if v < eps then (⟨1, 0⟩, v)
  else (ops.div2 self v, v)

/-- `Vector::Norm`. -/
def Vector.Norm (ops : Ops) (v : Vector) : ℚ :=
  let tmp1 := fabs v.data0
  let tmp2 := fabs v.data1
  if tmp1 ≥ tmp2 then
    let tmp2 := fabs v.data2
    if tmp1 ≥ tmp2 then
      if tmp1 = 0 then 0
      else tmp1 * ops.sqrt (1 + ops.sqr (v.data1 / v.data0) + ops.sqr (v.data2 / v.data0))
    else tmp2 * ops.sqrt (1 + ops.sqr (v.data0 / v.data2) + ops.sqr (v.data1 / v.data2))
  else
    let tmp1 := fabs v.data2
    if tmp2 > tmp1 then
      tmp2 * ops.sqrt (1 + ops.sqr (v.data0 / v.data1) + ops.sqr (v.data2 / v.data1))
    else tmp1 * ops.sqrt (1 + ops.sqr (v.data0 / v.data2) + ops.sqr (v.data1 / v.data2))

/-- `Vector::Normalize`: the vector after the call and the value returned. -/
def Vector.Normalize (ops : Ops) (self : Vector) (eps : ℚ) : Vector × ℚ :=
  let v := self.Norm ops
  if v < eps then (⟨1, 0, 0⟩, v)
  else (ops.div self v, v)

/-- Operations for the examples: the square, the division of each coordinate, and the
root of rational numbers, which is exact on the square of a rational number. -/
def exact_ops : Ops :=
  { sqrt := Rat.sqrt
    sqr := fun x => x * x
    div := fun v a => ⟨v.data0 / a, v.data1 / a, v.data2 / a⟩
    div2 := fun v a => ⟨v.data0 / a, v.data1 / a⟩ }

end KDL

/-!
# Keyframe columns and long keyframes

A shallow embedding of `bezt_handle_type`, `bezt_extreme_type`, `nalloc_ak_bezt`,
`nupdate_ak_bezt` and `compute_keyblock_data` of
`source/blender/editors/animation/keyframes_keylist.cc`.
-/

namespace Keylist

/-- The part of `BezTriple` the functions read, over a type `F` of `float` values:
`vec i j` is `vec[i][j]`, `hide` holds the key type (`BEZKEYTYPE`), and `f1`, `f2`, `f3`
are the selection flags. -/
structure BezTriple (F : Type) where
  vec : Fin 3 → Fin 3 → F
  ipo : Nat
  h1 : Nat
  h2 : Nat
  hide : Nat
  f1 : Nat
  f2 : Nat
  f3 : Nat

/-- `BezTripleChain`: the current key and its logical neighbours, which may be null. -/
structure BezTripleChain (F : Type) where
  cur : BezTriple F
  prev : Option (BezTriple F)
  next : Option (BezTriple F)

/-- The enumerators the functions use, whose values are not defined here.  The fields of
a column and of a block that hold them are taken as numbers without a width: every
enumerator fits the field that stores it. -/
structure Enums where
  HD_FREE : Nat
  HD_AUTO : Nat
  HD_VECT : Nat
  HD_AUTO_ANIM : Nat
  KEYFRAME_HANDLE_AUTO_CLAMP : Nat
  KEYFRAME_HANDLE_AUTO : Nat
  KEYFRAME_HANDLE_VECTOR : Nat
  KEYFRAME_HANDLE_ALIGNED : Nat
  KEYFRAME_HANDLE_FREE : Nat
  KEYFRAME_EXTREME_NONE : Nat
  KEYFRAME_EXTREME_MAX : Nat
  KEYFRAME_EXTREME_MIN : Nat
  KEYFRAME_EXTREME_MIXED : Nat
  KEYFRAME_EXTREME_FLAT : Nat
  BEZT_IPO_BEZ : Nat
  BEZT_IPO_ELASTIC : Nat
  BEZT_KEYTYPE_KEYFRAME : Nat
  BEZT_KEYTYPE_MOVEHOLD : Nat
  SELECT : Nat
  ACTKEYBLOCK_FLAG_STATIC_HOLD : Nat
  ACTKEYBLOCK_FLAG_MOVING_HOLD : Nat
  ACTKEYBLOCK_FLAG_ANY_HOLD : Nat
  ACTKEYBLOCK_FLAG_NON_BEZIER : Nat

/-- The comparisons of `float` values (`lt a b` is `a < b`, and `a > b` is `lt b a`;
`eq a b` is `a == b`) and the macros that are not defined here: `IS_EQF`,
`BEZT_ISSEL_ANY`, `MAX2`, and `ELEM` as a test of its first argument against the list of
the others.  The results hold for any of them. -/
structure Env (F : Type) where
  lt : F → F → Bool
  eq : F → F → Bool
  IS_EQF : F → F → Bool
  BEZT_ISSEL_ANY : BezTriple F → Bool
  MAX2 : Nat → Nat → Nat
  ELEM : Nat → List Nat → Bool

/-- The macro `BEZKEYTYPE` of `ED_anim_api.h`. -/
def BEZKEYTYPE {F : Type} (bezt : BezTriple F) : Nat := bezt.hide

/-- `ActKeyBlockInfo`. -/
structure ActKeyBlockInfo where
  flag : Nat
  conflict : Nat
  sel : Nat
  deriving DecidableEq

/-- The fields of `ActKeyColumn` that the functions below read and write.  `next` is the
link to the next column of the list (`none` for a null pointer); the links `left` and
`right` of the tree are the two subtrees of a `DLRBT_Node`.  The fields that the
callbacks for `BezTripleChain` do not set are zero in a column from `MEM_callocN`. -/
structure ActKeyColumn (F : Type) where
  cfra : F
  sel : Nat
  key_type : Nat
  handle_type : Nat
  extreme_type : Nat
  totkey : Int
  totcurve : Int := 0
  totblock : Int := 0
  block : ActKeyBlockInfo := { flag := 0, conflict := 0, sel := 0 }
  next : Option Nat := none

/-- `bezt_handle_type`. -/
def bezt_handle_type {F : Type} (d : Enums) (env : Env F) (bezt : BezTriple F) : Nat :=
  if bezt.h1 = d.HD_AUTO_ANIM ∧ bezt.h2 = d.HD_AUTO_ANIM then d.KEYFRAME_HANDLE_AUTO_CLAMP
  else if env.ELEM bezt.h1 [d.HD_AUTO_ANIM, d.HD_AUTO] &&
      env.ELEM bezt.h2 [d.HD_AUTO_ANIM, d.HD_AUTO] then d.KEYFRAME_HANDLE_AUTO
  else if bezt.h1 = d.HD_VECT ∧ bezt.h2 = d.HD_VECT then d.KEYFRAME_HANDLE_VECTOR
  else if env.ELEM d.HD_FREE [bezt.h1, bezt.h2] then d.KEYFRAME_HANDLE_FREE
  else d.KEYFRAME_HANDLE_ALIGNED

/-- `bezt_extreme_type`. -/
def bezt_extreme_type {F : Type} (d : Enums) (env : Env F) (chain : BezTripleChain F) : Nat :=
  if chain.prev.isNone && chain.next.isNone then d.KEYFRAME_EXTREME_NONE
  else
    let cur_y := chain.cur.vec 1 1
    let prev_y :=
      match chain.prev with
      | some prev => if !env.IS_EQF cur_y (prev.vec 1 1) then prev.vec 1 1 else cur_y
      | none => cur_y
    let next_y :=
      match chain.next with
      | some next => if !env.IS_EQF cur_y (next.vec 1 1) then next.vec 1 1 else cur_y
      | none => cur_y
    if env.eq prev_y cur_y && env.eq next_y cur_y then d.KEYFRAME_EXTREME_FLAT
    else if (env.lt prev_y cur_y && env.lt cur_y next_y) ||
        (env.lt cur_y prev_y && env.lt next_y cur_y) then d.KEYFRAME_EXTREME_NONE
    else
      let l_bezier :=
        match chain.prev with
        | some prev => decide (prev.ipo = d.BEZT_IPO_BEZ)
        | none => false
      let r_bezier := chain.next.isSome && decide (chain.cur.ipo = d.BEZT_IPO_BEZ)
      let handle_l := if l_bezier then chain.cur.vec 0 1 else cur_y
      let handle_r := if r_bezier then chain.cur.vec 2 1 else cur_y
      if env.lt prev_y cur_y || env.lt next_y cur_y then
        let is_overshoot := env.lt cur_y handle_l || env.lt cur_y handle_r
        d.KEYFRAME_EXTREME_MAX ||| (if is_overshoot then d.KEYFRAME_EXTREME_MIXED else 0)
      else if env.lt cur_y prev_y || env.lt cur_y next_y then
        let is_overshoot := env.lt handle_l cur_y || env.lt handle_r cur_y
        d.KEYFRAME_EXTREME_MIN ||| (if is_overshoot then d.KEYFRAME_EXTREME_MIXED else 0)
      else d.KEYFRAME_EXTREME_NONE

/-- The value of a `short` after an increment: the sum reduced to 16 bits, two's
complement. -/
def short_incr (x : Int) : Int := (x + 1 + 32768) % 65536 - 32768

/-- `nalloc_ak_bezt`: the new column. -/
def nalloc_ak_bezt {F : Type} (d : Enums) (env : Env F) (chain : BezTripleChain F) :
    ActKeyColumn F :=
  let bezt := chain.cur
  { cfra := bezt.vec 1 0
    sel := if env.BEZT_ISSEL_ANY bezt then d.SELECT else 0
    key_type := BEZKEYTYPE bezt
    handle_type := bezt_handle_type d env bezt
    extreme_type := bezt_extreme_type d env chain
    totkey := 1 }

/-- `nupdate_ak_bezt`: the column after the update. -/
def nupdate_ak_bezt {F : Type} (d : Enums) (env : Env F) (ak : ActKeyColumn F)
    (chain : BezTripleChain F) : ActKeyColumn F :=
  let bezt := chain.cur
  let ak := if env.BEZT_ISSEL_ANY bezt then { ak with sel := d.SELECT } else ak
  let ak := { ak with totkey := short_incr ak.totkey }
  let ak :=
    if BEZKEYTYPE bezt = d.BEZT_KEYTYPE_KEYFRAME then
      { ak with key_type := d.BEZT_KEYTYPE_KEYFRAME }
    else ak
  let ak := { ak with handle_type := env.MAX2 ak.handle_type (bezt_handle_type d env bezt) }
  let new_extreme := bezt_extreme_type d env chain
  if new_extreme ≠ ak.extreme_type then
    if ak.extreme_type = d.KEYFRAME_EXTREME_FLAT then { ak with extreme_type := new_extreme }
    else if new_extreme ≠ d.KEYFRAME_EXTREME_FLAT then
      { ak with
        extreme_type := ak.extreme_type ||| (new_extreme ||| d.KEYFRAME_EXTREME_MIXED) }
    else ak
  else ak

/-- `compute_keyblock_data`: the block info written to `info`. -/
def compute_keyblock_data {F : Type} (d : Enums) (env : Env F) (prev beztn : BezTriple F) :
    ActKeyBlockInfo :=
  let info : ActKeyBlockInfo := { flag := 0, conflict := 0, sel := 0 }
  let info :=
    if BEZKEYTYPE beztn = d.BEZT_KEYTYPE_MOVEHOLD then
      if BEZKEYTYPE prev = d.BEZT_KEYTYPE_MOVEHOLD then
        { info with
          flag := info.flag |||
            (d.ACTKEYBLOCK_FLAG_MOVING_HOLD ||| d.ACTKEYBLOCK_FLAG_ANY_HOLD) }
      else info
    else info
  let info :=
    if env.IS_EQF (beztn.vec 1 1) (prev.vec 1 1) then
      let hold :=
        if prev.ipo = d.BEZT_IPO_BEZ then
          env.IS_EQF (beztn.vec 1 1) (beztn.vec 0 1) && env.IS_EQF (prev.vec 1 1) (prev.vec 2 1)
        else !env.ELEM prev.ipo [d.BEZT_IPO_ELASTIC]
      if hold then
        { info with
          flag := info.flag |||
            (d.ACTKEYBLOCK_FLAG_STATIC_HOLD ||| d.ACTKEYBLOCK_FLAG_ANY_HOLD) }
      else info
    else info
  let info :=
    if prev.ipo ≠ d.BEZT_IPO_BEZ then
      { info with flag := info.flag ||| d.ACTKEYBLOCK_FLAG_NON_BEZIER }
    else info
  { info with sel := if env.BEZT_ISSEL_ANY prev || env.BEZT_ISSEL_ANY beztn then 1 else 0 }

/-- `add_keyblock_info`: the column after the call. -/
def add_keyblock_info {F : Type} (col : ActKeyColumn F) (block : ActKeyBlockInfo) :
    ActKeyColumn F :=
  let col :=
    if col.totcurve ≤ 1 ∧ col.totblock = 0 then { col with block := block }
    else
      { col with
        block :=
          { conflict := col.block.conflict ||| (col.block.flag ^^^ block.flag)
            flag := col.block.flag ||| block.flag
            sel := col.block.sel ||| block.sel } }
  if block.flag ≠ 0 then { col with totblock := short_incr col.totblock } else col

/-- `actkeyblock_is_valid`; `none` is the null pointer. -/
def actkeyblock_is_valid {F : Type} (ac : Option (ActKeyColumn F)) : Bool :=
  match ac with
  | none => false
  | some ac => ac.next.isSome && decide (ac.totblock > 0)

/-- `actkeyblock_get_valid_hold`: the `int` returned.  The two `short` fields are
promoted to `int`, where `&`, `|` and `~` are the operations of the integers in two's
complement. -/
def actkeyblock_get_valid_hold {F : Type} (d : Enums) (ac : Option (ActKeyColumn F)) : Int :=
  if !actkeyblock_is_valid ac then 0
  else
    match ac with
    | none => 0
    | some ac =>
      let hold_mask : Int :=
        Int.lor (d.ACTKEYBLOCK_FLAG_ANY_HOLD : Int) (d.ACTKEYBLOCK_FLAG_STATIC_HOLD : Int)
      Int.land (Int.land (ac.block.flag : Int) (Int.lnot (ac.block.conflict : Int))) hold_mask

/-- A node pointer of the tree of columns: null, or a column with its `left` and `right`
subtrees. -/
inductive DLRBT_Node (F : Type) where
  | nil : DLRBT_Node F
  | node (left : DLRBT_Node F) (ak : ActKeyColumn F) (right : DLRBT_Node F) : DLRBT_Node F

/-- `DLRBT_Tree`, of which the functions here read `root`. -/
structure DLRBT_Tree (F : Type) where
  root : DLRBT_Node F

/-- `AnimKeylist`. -/
structure AnimKeylist (F : Type) where
  keys : DLRBT_Tree F

/-- `Range2f`. -/
structure Range2f (F : Type) where
  min : F
  max : F

/-- The loop of `ED_keylist_find_any_between`, from the node `ak`.  `range2f_in_range`
of `BLI_range.h` is not defined here and is an argument. -/
def find_any_between_from {F : Type} (env : Env F)
    (range2f_in_range : Range2f F → F → Bool) (frame_range : Range2f F) :
    DLRBT_Node F → Option (ActKeyColumn F)
  | .nil => none
  | .node left ak right =>
    if range2f_in_range frame_range ak.cfra then some ak
    else if env.lt ak.cfra frame_range.min then
      find_any_between_from env range2f_in_range frame_range right
    else find_any_between_from env range2f_in_range frame_range left

/-- `ED_keylist_find_any_between`; `none` is the null pointer. -/
def ED_keylist_find_any_between {F : Type} (env : Env F)
    (range2f_in_range : Range2f F → F → Bool) (keylist : AnimKeylist F)
    (frame_range : Range2f F) : Option (ActKeyColumn F) :=
  find_any_between_from env range2f_in_range frame_range keylist.keys.root

/-- The columns of a tree, from left to right. -/
def DLRBT_Node.columns {F : Type} : DLRBT_Node F → List (ActKeyColumn F)
  | .nil => []
  | .node left ak right => left.columns ++ ak :: right.columns

/-- The tree is a binary search tree ordered by `cfra`: at every node the columns of the
left subtree are not later than the node and those of the right subtree not earlier. -/
def DLRBT_Node.ordered {F : Type} [LinearOrder F] : DLRBT_Node F → Bool
  | .nil => true
  | .node left ak right =>
    left.columns.all (fun x => decide (x.cfra ≤ ak.cfra)) &&
      right.columns.all (fun x => decide (ak.cfra ≤ x.cfra)) &&
      left.ordered && right.ordered

/-- The number of blocks of a list that have a flag. -/
def flagged (blocks : List ActKeyBlockInfo) : Nat :=
  blocks.countP (fun x => decide (x.flag ≠ 0))

/-- The column after `add_keyblock_info` for each block of a list, in order. -/
def add_keyblock_infos {F : Type} (col : ActKeyColumn F) (blocks : List ActKeyBlockInfo) :
    ActKeyColumn F :=
  blocks.foldl add_keyblock_info col

/-- A column at frame `cfra` with `totblock` blocks, the block info `block` and a next
column when `next` says so. -/
def sample_column (cfra : Int) (totblock : Int) (block : ActKeyBlockInfo)
    (next : Option Nat) : ActKeyColumn Int :=
  { cfra := cfra, sel := 0, key_type := 0, handle_type := 0, extreme_type := 0, totkey := 1,
    totcurve := 1, totblock := totblock, block := block, next := next }

/-- Sample values of the enumerators. -/
def sample_enums : Enums :=
  { HD_FREE := 0, HD_AUTO := 1, HD_VECT := 2, HD_AUTO_ANIM := 4,
    KEYFRAME_HANDLE_AUTO_CLAMP := 1, KEYFRAME_HANDLE_AUTO := 2, KEYFRAME_HANDLE_VECTOR := 3,
    KEYFRAME_HANDLE_ALIGNED := 4, KEYFRAME_HANDLE_FREE := 5,
    KEYFRAME_EXTREME_NONE := 0, KEYFRAME_EXTREME_MAX := 1, KEYFRAME_EXTREME_MIN := 2,
    KEYFRAME_EXTREME_MIXED := 4, KEYFRAME_EXTREME_FLAT := 8,
    BEZT_IPO_BEZ := 2, BEZT_IPO_ELASTIC := 11,
    BEZT_KEYTYPE_KEYFRAME := 0, BEZT_KEYTYPE_MOVEHOLD := 4,
    SELECT := 1,
    ACTKEYBLOCK_FLAG_STATIC_HOLD := 1, ACTKEYBLOCK_FLAG_MOVING_HOLD := 2,
    ACTKEYBLOCK_FLAG_ANY_HOLD := 4, ACTKEYBLOCK_FLAG_NON_BEZIER := 8 }

/-- Keys with whole numbers for values: the comparisons are those of the integers, and
`IS_EQF` is equality. -/
def int_env : Env Int :=
  { lt := fun a b => decide (a < b)
    eq := fun a b => decide (a = b)
    IS_EQF := fun a b => decide (a = b)
    BEZT_ISSEL_ANY := fun bezt => decide (bezt.f1 % 2 = 1 ∨ bezt.f2 % 2 = 1 ∨ bezt.f3 % 2 = 1)
    MAX2 := fun a b => if a > b then a else b
    ELEM := fun v l => decide (v ∈ l) }

/-- A key of type `key_type` with value `y` at frame `x`. -/
def sample_key (key_type : Nat) (x y : Int) : BezTriple Int :=
  { vec := fun _ j => if j = 0 then x else y
    ipo := 2, h1 := 4, h2 := 4, hide := key_type, f1 := 0, f2 := 0, f3 := 0 }

end Keylist

namespace Deg

/-! ## Reasoning about the node-tree recursion -/

theorem build_nodetree_zero (bmain : Main) (t : Nat) (s : BuilderState) :
    build_nodetree bmain 0 t s = none := rfl

theorem build_nodetree_succ_built (bmain : Main) (fuel t : Nat) (s : BuilderState)
    (h : ntTagged s t) :
    build_nodetree bmain (fuel + 1) t s
      = some (s.log (Call.checkIsBuiltAndTag (ID.nodetree t) Tag.TAG_COMPLETE true)) := by
  unfold ntTagged at h
  simp [build_nodetree, checkIsBuiltAndTag, h]

theorem build_nodetree_succ_new (bmain : Main) (fuel t : Nat) (s : BuilderState)
    (h : ¬ ntTagged s t) :
    build_nodetree bmain (fuel + 1) t s
      = build_nodetree_nodes bmain fuel (bmain.nodes t) (enter_nodetree t s) := by
  unfold ntTagged at h
  simp [build_nodetree, checkIsBuiltAndTag, h, build_nodetree_nodes, enter_nodetree]

theorem build_nodetree_nodes_nil (bmain : Main) (fuel : Nat) (s : BuilderState) :
    build_nodetree_nodes bmain fuel [] s = some s := rfl

theorem build_nodetree_nodes_plain (bmain : Main) (fuel : Nat) (rest : List bNode)
    (s : BuilderState) :
    build_nodetree_nodes bmain fuel (⟨none⟩ :: rest) s
      = build_nodetree_nodes bmain fuel rest s := by
  simp [build_nodetree_nodes]

theorem build_nodetree_nodes_group (bmain : Main) (fuel g : Nat) (rest : List bNode)
    (s : BuilderState) :
    build_nodetree_nodes bmain fuel (⟨some g⟩ :: rest) s
      = (build_nodetree bmain fuel g s).bind (build_nodetree_nodes bmain fuel rest) := by
  simp [build_nodetree_nodes]


/-! ### What each primitive does to each part of the builder state -/

@[simp] theorem log_trace (s : BuilderState) (c : Call) : (s.log c).trace = s.trace ++ [c] := rfl
@[simp] theorem log_scene_ (s : BuilderState) (c : Call) : (s.log c).scene_ = s.scene_ := rfl
@[simp] theorem log_view_layer_ (s : BuilderState) (c : Call) :
    (s.log c).view_layer_ = s.view_layer_ := rfl
@[simp] theorem log_id_nodes (s : BuilderState) (c : Call) : (s.log c).id_nodes = s.id_nodes := rfl
@[simp] theorem log_components (s : BuilderState) (c : Call) :
    (s.log c).components = s.components := rfl
@[simp] theorem log_operations (s : BuilderState) (c : Call) :
    (s.log c).operations = s.operations := rfl
@[simp] theorem log_time_source (s : BuilderState) (c : Call) :
    (s.log c).time_source = s.time_source := rfl
@[simp] theorem log_built_map (s : BuilderState) (c : Call) :
    (s.log c).built_map = s.built_map := rfl

@[simp] theorem add_id_node_trace (id : ID) (s : BuilderState) :
    (add_id_node id s).2.trace = s.trace ++ [Call.add_id_node id] := by
  unfold add_id_node; simp only []; split <;> rfl
@[simp] theorem add_id_node_scene_ (id : ID) (s : BuilderState) :
    (add_id_node id s).2.scene_ = s.scene_ := by
  unfold add_id_node; simp only []; split <;> rfl
@[simp] theorem add_id_node_view_layer_ (id : ID) (s : BuilderState) :
    (add_id_node id s).2.view_layer_ = s.view_layer_ := by
  unfold add_id_node; simp only []; split <;> rfl
@[simp] theorem add_id_node_components (id : ID) (s : BuilderState) :
    (add_id_node id s).2.components = s.components := by
  unfold add_id_node; simp only []; split <;> rfl
@[simp] theorem add_id_node_operations (id : ID) (s : BuilderState) :
    (add_id_node id s).2.operations = s.operations := by
  unfold add_id_node; simp only []; split <;> rfl
@[simp] theorem add_id_node_time_source (id : ID) (s : BuilderState) :
    (add_id_node id s).2.time_source = s.time_source := by
  unfold add_id_node; simp only []; split <;> rfl
@[simp] theorem add_id_node_built_map (id : ID) (s : BuilderState) :
    (add_id_node id s).2.built_map = s.built_map := by
  unfold add_id_node; simp only []; split <;> rfl

theorem add_id_node_id_nodes (id : ID) (s : BuilderState) :
    (add_id_node id s).2.id_nodes =
      match find_id_node id s.id_nodes with
      | some _ => s.id_nodes
      | none => s.id_nodes ++ [⟨id, eDepsNode_LinkedState.DEG_ID_LINKED_INDIRECTLY⟩] := by
  unfold add_id_node; simp only [log_id_nodes]; split <;> rfl

@[simp] theorem add_component_node_trace (id : ID) (type : NodeType) (s : BuilderState) :
    (add_component_node id type s).trace = s.trace := by
  unfold add_component_node; split <;> rfl
@[simp] theorem add_component_node_scene_ (id : ID) (type : NodeType) (s : BuilderState) :
    (add_component_node id type s).scene_ = s.scene_ := by
  unfold add_component_node; split <;> rfl
@[simp] theorem add_component_node_view_layer_ (id : ID) (type : NodeType) (s : BuilderState) :
    (add_component_node id type s).view_layer_ = s.view_layer_ := by
  unfold add_component_node; split <;> rfl
@[simp] theorem add_component_node_id_nodes (id : ID) (type : NodeType) (s : BuilderState) :
    (add_component_node id type s).id_nodes = s.id_nodes := by
  unfold add_component_node; split <;> rfl
@[simp] theorem add_component_node_operations (id : ID) (type : NodeType) (s : BuilderState) :
    (add_component_node id type s).operations = s.operations := by
  unfold add_component_node; split <;> rfl
@[simp] theorem add_component_node_time_source (id : ID) (type : NodeType) (s : BuilderState) :
    (add_component_node id type s).time_source = s.time_source := by
  unfold add_component_node; split <;> rfl
@[simp] theorem add_component_node_built_map (id : ID) (type : NodeType) (s : BuilderState) :
    (add_component_node id type s).built_map = s.built_map := by
  unfold add_component_node; split <;> rfl

@[simp] theorem add_operation_node_trace (id : ID) (type : NodeType) (opcode : OperationCode)
    (ev : Option EvalCallback) (s : BuilderState) :
    (add_operation_node id type opcode ev s).trace
      = s.trace ++ [Call.add_operation_node id type opcode, Call.add_id_node id] := by
  simp [add_operation_node]
@[simp] theorem add_operation_node_operations (id : ID) (type : NodeType)
    (opcode : OperationCode) (ev : Option EvalCallback) (s : BuilderState) :
    (add_operation_node id type opcode ev s).operations
      = s.operations ++ [⟨id, type, opcode, ev⟩] := by
  simp [add_operation_node]
@[simp] theorem add_operation_node_built_map (id : ID) (type : NodeType)
    (opcode : OperationCode) (ev : Option EvalCallback) (s : BuilderState) :
    (add_operation_node id type opcode ev s).built_map = s.built_map := by
  simp [add_operation_node]
@[simp] theorem add_operation_node_scene_ (id : ID) (type : NodeType)
    (opcode : OperationCode) (ev : Option EvalCallback) (s : BuilderState) :
    (add_operation_node id type opcode ev s).scene_ = s.scene_ := by
  simp [add_operation_node]
@[simp] theorem add_operation_node_view_layer_ (id : ID) (type : NodeType)
    (opcode : OperationCode) (ev : Option EvalCallback) (s : BuilderState) :
    (add_operation_node id type opcode ev s).view_layer_ = s.view_layer_ := by
  simp [add_operation_node]
@[simp] theorem add_operation_node_time_source (id : ID) (type : NodeType)
    (opcode : OperationCode) (ev : Option EvalCallback) (s : BuilderState) :
    (add_operation_node id type opcode ev s).time_source = s.time_source := by
  simp [add_operation_node]
theorem add_operation_node_id_nodes (id : ID) (type : NodeType)
    (opcode : OperationCode) (ev : Option EvalCallback) (s : BuilderState) :
    (add_operation_node id type opcode ev s).id_nodes = (add_id_node id s).2.id_nodes := by
  simp [add_operation_node, add_id_node_id_nodes]
theorem add_operation_node_components (id : ID) (type : NodeType)
    (opcode : OperationCode) (ev : Option EvalCallback) (s : BuilderState) :
    (add_operation_node id type opcode ev s).components
      = if (⟨id, type⟩ : ComponentNode) ∈ s.components then s.components
        else s.components ++ [⟨id, type⟩] := by
  simp only [add_operation_node, add_component_node, add_id_node_components, log_components]
  split <;> simp

theorem checkIsBuiltAndTag_built (id : ID) (tag : Tag) (s : BuilderState)
    (h : (id, tag) ∈ s.built_map) :
    checkIsBuiltAndTag id tag s = (true, s.log (Call.checkIsBuiltAndTag id tag true)) := by
  simp [checkIsBuiltAndTag, h]

theorem checkIsBuiltAndTag_new (id : ID) (tag : Tag) (s : BuilderState)
    (h : (id, tag) ∉ s.built_map) :
    checkIsBuiltAndTag id tag s
      = (false, { s.log (Call.checkIsBuiltAndTag id tag false) with
                    built_map := s.built_map ++ [(id, tag)] }) := by
  simp [checkIsBuiltAndTag, h]

theorem enter_nodetree_trace (t : Nat) (s : BuilderState) (h : ¬ ntTagged s t) :
    (enter_nodetree t s).trace = s.trace ++
      [Call.checkIsBuiltAndTag (ID.nodetree t) Tag.TAG_COMPLETE false,
       Call.build_animdata (ID.nodetree t),
       Call.add_operation_node (ID.nodetree t) NodeType.SHADING OperationCode.MATERIAL_UPDATE,
       Call.add_id_node (ID.nodetree t)] := by
  simp [enter_nodetree, build_animdata, checkIsBuiltAndTag_new _ _ s h]

theorem enter_nodetree_operations (t : Nat) (s : BuilderState) :
    (enter_nodetree t s).operations = s.operations ++
      [⟨ID.nodetree t, NodeType.SHADING, OperationCode.MATERIAL_UPDATE, none⟩] := by
  simp only [enter_nodetree, build_animdata, add_operation_node_operations, log_operations]
  unfold checkIsBuiltAndTag
  split <;> rfl

theorem enter_nodetree_built_map (t : Nat) (s : BuilderState) (h : ¬ ntTagged s t) :
    (enter_nodetree t s).built_map = s.built_map ++ [(ID.nodetree t, Tag.TAG_COMPLETE)] := by
  simp [enter_nodetree, build_animdata, checkIsBuiltAndTag_new _ _ s h]

/-! ### Frame of the node-tree builder -/

theorem NtExt_refl (s : BuilderState) : NtExt s s :=
  ⟨rfl, rfl, rfl, ⟨[], by simp⟩, ⟨[], by simp⟩, ⟨[], by simp⟩, ⟨[], by simp⟩, ⟨[], by simp⟩⟩

theorem ext_trans {α : Type} (P : α → Prop) {a b c : List α}
    (h1 : ∃ l, b = a ++ l ∧ ∀ x ∈ l, P x) (h2 : ∃ l, c = b ++ l ∧ ∀ x ∈ l, P x) :
    ∃ l, c = a ++ l ∧ ∀ x ∈ l, P x := by
  obtain ⟨l1, e1, p1⟩ := h1
  obtain ⟨l2, e2, p2⟩ := h2
  refine ⟨l1 ++ l2, by rw [e2, e1, List.append_assoc], ?_⟩
  intro x hx
  rcases List.mem_append.mp hx with h | h
  · exact p1 x h
  · exact p2 x h

theorem NtExt_trans {a b c : BuilderState} (h1 : NtExt a b) (h2 : NtExt b c) : NtExt a c :=
  ⟨h2.scene_eq.trans h1.scene_eq, h2.view_layer_eq.trans h1.view_layer_eq,
    h2.time_source_eq.trans h1.time_source_eq,
    ext_trans _ h1.id_nodes_ext h2.id_nodes_ext,
    ext_trans _ h1.components_ext h2.components_ext,
    ext_trans _ h1.operations_ext h2.operations_ext,
    ext_trans _ h1.built_map_ext h2.built_map_ext,
    ext_trans _ h1.trace_ext h2.trace_ext⟩

theorem NtExt_log (s : BuilderState) (c : Call) (hc : c.isNodetreeCall = true) :
    NtExt s (s.log c) :=
  ⟨rfl, rfl, rfl, ⟨[], by simp [BuilderState.log]⟩, ⟨[], by simp [BuilderState.log]⟩,
    ⟨[], by simp [BuilderState.log]⟩, ⟨[], by simp [BuilderState.log]⟩,
    ⟨[c], by simp [BuilderState.log, hc]⟩⟩

theorem NtExt_checkIsBuiltAndTag (t : Nat) (tag : Tag) (s : BuilderState) :
    NtExt s (checkIsBuiltAndTag (ID.nodetree t) tag s).2 := by
  unfold checkIsBuiltAndTag
  split
  · exact NtExt_log s _ rfl
  · exact ⟨rfl, rfl, rfl, ⟨[], by simp [BuilderState.log]⟩, ⟨[], by simp [BuilderState.log]⟩,
      ⟨[], by simp [BuilderState.log]⟩,
      ⟨[(ID.nodetree t, tag)], by simp [BuilderState.log, ID.isNodetree]⟩,
      ⟨[Call.checkIsBuiltAndTag (ID.nodetree t) tag false],
        by simp [BuilderState.log, Call.isNodetreeCall, ID.isNodetree]⟩⟩

theorem NtExt_add_id_node (t : Nat) (s : BuilderState) :
    NtExt s (add_id_node (ID.nodetree t) s).2 := by
  unfold add_id_node
  simp only
  split
  · exact NtExt_log s _ rfl
  · exact ⟨rfl, rfl, rfl,
      ⟨[⟨ID.nodetree t, eDepsNode_LinkedState.DEG_ID_LINKED_INDIRECTLY⟩],
        by simp [BuilderState.log, ID.isNodetree]⟩,
      ⟨[], by simp [BuilderState.log]⟩, ⟨[], by simp [BuilderState.log]⟩,
      ⟨[], by simp [BuilderState.log]⟩,
      ⟨[Call.add_id_node (ID.nodetree t)],
        by simp [BuilderState.log, Call.isNodetreeCall, ID.isNodetree]⟩⟩

theorem NtExt_add_component_node (t : Nat) (type : NodeType) (s : BuilderState) :
    NtExt s (add_component_node (ID.nodetree t) type s) := by
  unfold add_component_node
  split
  · exact NtExt_refl s
  · exact ⟨rfl, rfl, rfl, ⟨[], by simp⟩, ⟨[⟨ID.nodetree t, type⟩], by simp [ID.isNodetree]⟩,
      ⟨[], by simp⟩, ⟨[], by simp⟩, ⟨[], by simp⟩⟩

theorem NtExt_add_operation_node (t : Nat) (type : NodeType) (opcode : OperationCode)
    (evaluate : Option EvalCallback) (s : BuilderState) :
    NtExt s (add_operation_node (ID.nodetree t) type opcode evaluate s) := by
  unfold add_operation_node
  simp only
  refine NtExt_trans (NtExt_log s (Call.add_operation_node (ID.nodetree t) type opcode) rfl) ?_
  refine NtExt_trans (NtExt_add_id_node t _) ?_
  refine NtExt_trans (NtExt_add_component_node t type _) ?_
  exact ⟨rfl, rfl, rfl, ⟨[], by simp⟩, ⟨[], by simp⟩,
    ⟨[⟨ID.nodetree t, type, opcode, evaluate⟩], by simp [ID.isNodetree]⟩,
    ⟨[], by simp⟩, ⟨[], by simp⟩⟩

theorem NtExt_enter_nodetree (t : Nat) (s : BuilderState) : NtExt s (enter_nodetree t s) := by
  unfold enter_nodetree build_animdata
  exact NtExt_trans (NtExt_checkIsBuiltAndTag t Tag.TAG_COMPLETE s)
    (NtExt_trans (NtExt_log _ (Call.build_animdata (ID.nodetree t)) rfl)
      (NtExt_add_operation_node t _ _ _ _))

/-- A reflexive and transitive relation that holds across every tree build of a given
fuel holds across the iteration over a list of nodes. -/
theorem build_nodetree_nodes_rel (bmain : Main) (R : BuilderState → BuilderState → Prop)
    (hrefl : ∀ s, R s s) (htrans : ∀ a b c, R a b → R b c → R a c) (n : Nat)
    (ih : ∀ (t : Nat) (s s' : BuilderState), build_nodetree bmain n t s = some s' → R s s') :
    ∀ (nodes : List bNode) (a b : BuilderState),
      build_nodetree_nodes bmain n nodes a = some b → R a b := by
  intro nodes
  induction nodes with
  | nil =>
    intro a b h
    simp [build_nodetree_nodes_nil] at h
    subst h
    exact hrefl a
  | cons x rest ihn =>
    intro a b h
    obtain ⟨g⟩ := x
    cases g with
    | none =>
      rw [build_nodetree_nodes_plain] at h
      exact ihn a b h
    | some g =>
      rw [build_nodetree_nodes_group] at h
      cases hrun : build_nodetree bmain n g a with
      | none => simp [hrun] at h
      | some a1 =>
        simp [hrun] at h
        exact htrans a a1 b (ih g a a1 hrun) (ihn a1 b h)

/-- Every relation on builder states that is reflexive, transitive and holds across
the two ways `build_nodetree` treats a tree on entry holds across a whole run. -/
theorem build_nodetree_rel (bmain : Main) (R : BuilderState → BuilderState → Prop)
    (hrefl : ∀ s, R s s) (htrans : ∀ a b c, R a b → R b c → R a c)
    (hbuilt : ∀ t s, ntTagged s t →
      R s (s.log (Call.checkIsBuiltAndTag (ID.nodetree t) Tag.TAG_COMPLETE true)))
    (henter : ∀ t s, ¬ ntTagged s t → R s (enter_nodetree t s)) :
    ∀ (fuel t : Nat) (s s' : BuilderState), build_nodetree bmain fuel t s = some s' → R s s' := by
  intro fuel
  induction fuel with
  | zero => intro t s s' h; simp [build_nodetree_zero] at h
  | succ n ih =>
    intro t s s' h
    by_cases ht : ntTagged s t
    · rw [build_nodetree_succ_built bmain n t s ht] at h
      simp at h
      subst h
      exact hbuilt t s ht
    · rw [build_nodetree_succ_new bmain n t s ht] at h
      exact htrans _ _ _ (henter t s ht)
        (build_nodetree_nodes_rel bmain R hrefl htrans n ih _ _ _ h)

theorem build_nodetree_NtExt (bmain : Main) (fuel t : Nat) (s s' : BuilderState)
    (h : build_nodetree bmain fuel t s = some s') : NtExt s s' :=
  build_nodetree_rel bmain NtExt NtExt_refl (fun _ _ _ => NtExt_trans)
    (fun _ s _ => NtExt_log s _ rfl) (fun t s _ => NtExt_enter_nodetree t s) fuel t s s' h

/-! ### Termination of the node-tree builder -/

theorem build_nodetree_nodes_NtExt (bmain : Main) (fuel : Nat) (nodes : List bNode)
    (s s' : BuilderState) (h : build_nodetree_nodes bmain fuel nodes s = some s') : NtExt s s' :=
  build_nodetree_nodes_rel bmain NtExt NtExt_refl (fun _ _ _ => NtExt_trans) fuel
    (build_nodetree_NtExt bmain fuel) nodes s s' h

theorem NtExt_tagged_mono {s s' : BuilderState} (h : NtExt s s') (p : ID × Tag)
    (hp : p ∈ s.built_map) : p ∈ s'.built_map := by
  obtain ⟨l, e, _⟩ := h.built_map_ext
  rw [e]
  exact List.mem_append_left l hp

theorem untagged_mono (bmain : Main) (s s' : BuilderState)
    (h : ∀ t, ntTagged s t → ntTagged s' t) : untagged bmain s' ≤ untagged bmain s := by
  unfold untagged
  apply List.countP_mono_left
  intro e _ he
  simp only [decide_eq_true_eq] at he ⊢
  exact fun h' => he (h e.1 h')

theorem countP_lt_of_mem {α : Type} (p q : α → Bool) (l : List α)
    (hpq : ∀ x ∈ l, p x = true → q x = true) (x : α) (hx : x ∈ l) (hq : q x = true)
    (hp : p x = false) : l.countP p < l.countP q := by
  induction l with
  | nil => simp at hx
  | cons y rest ih =>
    have hrest : ∀ z ∈ rest, p z = true → q z = true :=
      fun z hz => hpq z (List.mem_cons_of_mem y hz)
    have hle : rest.countP p ≤ rest.countP q := List.countP_mono_left hrest
    rcases List.mem_cons.mp hx with rfl | hmem
    · simp [List.countP_cons, hq, hp]
      omega
    · have := ih hrest hmem
      have hy := hpq y (List.mem_cons_self y rest)
      simp only [List.countP_cons]
      by_cases hpy : p y = true
      · simp [hpy, hy hpy]; omega
      · simp [hpy]; omega

theorem mem_nodetrees_of_nodes_ne_nil (bmain : Main) (t : Nat) (h : bmain.nodes t ≠ []) :
    ∃ e ∈ bmain.nodetrees, e.1 = t := by
  unfold Main.nodes at h
  cases hf : bmain.nodetrees.find? (fun e => e.1 == t) with
  | none => simp [hf] at h
  | some e =>
    refine ⟨e, List.mem_of_find?_eq_some hf, ?_⟩
    have := List.find?_some hf
    simpa using this

theorem ntTagged_enter_nodetree (t : Nat) (s : BuilderState) (h : ¬ ntTagged s t) :
    ntTagged (enter_nodetree t s) t := by
  unfold ntTagged
  rw [enter_nodetree_built_map t s h]
  simp

/-- Enough fuel gives a result: `build_nodetree` returns whenever the fuel exceeds the
number of node-trees of the database that are not yet tagged. -/
theorem build_nodetree_returns (bmain : Main) :
    ∀ (fuel t : Nat) (s : BuilderState), untagged bmain s < fuel →
      ∃ s', build_nodetree bmain fuel t s = some s' := by
  intro fuel
  induction fuel with
  | zero => intro t s h; omega
  | succ n ih =>
    have hnodes : ∀ (nodes : List bNode) (a : BuilderState), untagged bmain a < n →
        ∃ b, build_nodetree_nodes bmain n nodes a = some b := by
      intro nodes
      induction nodes with
      | nil => intro a _; exact ⟨a, rfl⟩
      | cons x rest ihn =>
        intro a ha
        obtain ⟨g⟩ := x
        cases g with
        | none =>
          rw [build_nodetree_nodes_plain]
          exact ihn a ha
        | some g =>
          rw [build_nodetree_nodes_group]
          obtain ⟨a1, hrun⟩ := ih g a ha
          have hext := build_nodetree_NtExt bmain n g a a1 hrun
          have hle := untagged_mono bmain a a1 (fun u hu => NtExt_tagged_mono hext _ hu)
          obtain ⟨b, hb⟩ := ihn a1 (by omega)
          exact ⟨b, by simp [hrun, hb]⟩
    intro t s hs
    by_cases ht : ntTagged s t
    · exact ⟨_, build_nodetree_succ_built bmain n t s ht⟩
    · rw [build_nodetree_succ_new bmain n t s ht]
      by_cases hnil : bmain.nodes t = []
      · rw [hnil]
        exact ⟨_, rfl⟩
      · obtain ⟨e, he, het⟩ := mem_nodetrees_of_nodes_ne_nil bmain t hnil
        have hext := NtExt_enter_nodetree t s
        have hlt : untagged bmain (enter_nodetree t s) < untagged bmain s := by
          unfold untagged
          apply countP_lt_of_mem _ _ _ _ e he
          · simp [het, ht]
          · simp [het, ntTagged_enter_nodetree t s ht]
          · intro x _ hx
            simp only [decide_eq_true_eq] at hx ⊢
            exact fun h' => hx (NtExt_tagged_mono hext _ h')
        exact hnodes _ _ (by omega)

theorem untagged_le (bmain : Main) (s : BuilderState) :
    untagged bmain s ≤ bmain.nodetrees.length :=
  List.countP_le_length _


/-! ### Each node-tree is expanded once -/

theorem ntTagged_log (s : BuilderState) (c : Call) (u : Nat) :
    ntTagged (s.log c) u ↔ ntTagged s u := Iff.rfl

theorem ntTagged_enter_nodetree_iff (t u : Nat) (s : BuilderState) (h : ¬ ntTagged s t) :
    ntTagged (enter_nodetree t s) u ↔ ntTagged s u ∨ u = t := by
  unfold ntTagged
  rw [enter_nodetree_built_map t s h]
  simp

theorem expansions_enter_nodetree (t u : Nat) (s : BuilderState) (h : ¬ ntTagged s t) :
    expansions u (enter_nodetree t s) = expansions u s + (if u = t then 1 else 0) := by
  unfold expansions
  rw [enter_nodetree_trace t s h, List.count_append]
  by_cases hut : u = t
  · subst hut
    simp [List.count_cons]
  · have hne : ¬ t = u := fun e => hut e.symm
    simp [List.count_cons, hut, hne]

theorem nodetree_ops_enter_nodetree (t u : Nat) (s : BuilderState) :
    nodetree_ops u (enter_nodetree t s) = nodetree_ops u s + (if u = t then 1 else 0) := by
  unfold nodetree_ops
  rw [enter_nodetree_operations t s, List.count_append]
  by_cases hut : u = t
  · subst hut
    simp [List.count_cons]
  · have hne : ¬ t = u := fun e => hut e.symm
    simp [List.count_cons, hut, hne]

theorem NtInv_enter_nodetree (t : Nat) (s : BuilderState) (h : ¬ ntTagged s t)
    (hinv : NtInv s) : NtInv (enter_nodetree t s) := by
  intro u
  rw [expansions_enter_nodetree t u s h, nodetree_ops_enter_nodetree t u s]
  have hu := hinv u
  by_cases hut : u = t
  · subst hut
    have : ntTagged (enter_nodetree u s) u := (ntTagged_enter_nodetree_iff u u s h).2 (Or.inr rfl)
    simp [this, h] at hu ⊢
    exact hu
  · have hiff := ntTagged_enter_nodetree_iff t u s h
    by_cases hs : ntTagged s u
    · have : ntTagged (enter_nodetree t s) u := hiff.2 (Or.inl hs)
      simp [this, hs, hut] at hu ⊢
      exact hu
    · have : ¬ ntTagged (enter_nodetree t s) u := fun hc => by
        rcases hiff.1 hc with h1 | h1
        · exact hs h1
        · exact hut h1
      simp [this, hs, hut] at hu ⊢
      exact hu

theorem NtInv_log_true (t : Nat) (s : BuilderState) (hinv : NtInv s) :
    NtInv (s.log (Call.checkIsBuiltAndTag (ID.nodetree t) Tag.TAG_COMPLETE true)) := by
  intro u
  have hu := hinv u
  unfold expansions nodetree_ops at hu ⊢
  simp only [ntTagged_log]
  simpa [BuilderState.log, List.count_append, List.count_cons] using hu

/-- The agreement of trace, operations and tags on the node-trees is kept by a run of
`build_nodetree`. -/
theorem build_nodetree_NtInv (bmain : Main) (fuel t : Nat) (s s' : BuilderState)
    (h : build_nodetree bmain fuel t s = some s') (hinv : NtInv s) : NtInv s' :=
  build_nodetree_rel bmain (fun a b => NtInv a → NtInv b) (fun _ h => h)
    (fun _ _ _ h1 h2 h => h2 (h1 h)) (fun t s _ => NtInv_log_true t s)
    (fun t s ht => NtInv_enter_nodetree t s ht) fuel t s s' h hinv

/-- After a run of `build_nodetree` on `t`: `t` is tagged; a tree tagged by the run has
all the trees it references tagged; and a tree tagged by the run is reached from `t`. -/
theorem build_nodetree_closure (bmain : Main) :
    ∀ (fuel t : Nat) (s s' : BuilderState), build_nodetree bmain fuel t s = some s' →
      ntTagged s' t ∧
      (∀ u, ntTagged s' u → ntTagged s u ∨ ∀ g, references bmain u g → ntTagged s' g) ∧
      (∀ u, ntTagged s' u → ntTagged s u ∨ Reach bmain t u) := by
  intro fuel
  induction fuel with
  | zero => intro t s s' h; simp [build_nodetree_zero] at h
  | succ n ih =>
    have hnodes : ∀ (nodes : List bNode) (a b : BuilderState),
        build_nodetree_nodes bmain n nodes a = some b →
        (∀ g, (⟨some g⟩ : bNode) ∈ nodes → ntTagged b g) ∧
        (∀ u, ntTagged b u → ntTagged a u ∨ ∀ g, references bmain u g → ntTagged b g) ∧
        (∀ u, ntTagged b u → ntTagged a u ∨ ∃ g, (⟨some g⟩ : bNode) ∈ nodes ∧ Reach bmain g u) := by
      intro nodes
      induction nodes with
      | nil =>
        intro a b h
        simp [build_nodetree_nodes_nil] at h
        subst h
        exact ⟨fun g hg => by simp at hg, fun u hu => Or.inl hu, fun u hu => Or.inl hu⟩
      | cons x rest ihn =>
        intro a b h
        obtain ⟨g⟩ := x
        cases g with
        | none =>
          rw [build_nodetree_nodes_plain] at h
          obtain ⟨h1, h2, h3⟩ := ihn a b h
          refine ⟨fun g hg => h1 g (by simpa using hg), h2, fun u hu => ?_⟩
          rcases h3 u hu with h' | ⟨g, hg, hr⟩
          · exact Or.inl h'
          · exact Or.inr ⟨g, List.mem_cons_of_mem _ hg, hr⟩
        | some g =>
          rw [build_nodetree_nodes_group] at h
          cases hrun : build_nodetree bmain n g a with
          | none => simp [hrun] at h
          | some a1 =>
            simp [hrun] at h
            obtain ⟨t1, t2, t3⟩ := ih g a a1 hrun
            obtain ⟨h1, h2, h3⟩ := ihn a1 b h
            have hmono := build_nodetree_nodes_NtExt bmain n rest a1 b h
            refine ⟨fun g' hg' => ?_, fun u hu => ?_, fun u hu => ?_⟩
            · rcases List.mem_cons.mp hg' with he | hm
              · have : g' = g := by injection he with he; injection he
                subst this
                exact NtExt_tagged_mono hmono _ t1
              · exact h1 g' hm
            · rcases h2 u hu with h' | h'
              · rcases t2 u h' with h'' | h''
                · exact Or.inl h''
                · exact Or.inr fun g' hg' => NtExt_tagged_mono hmono _ (h'' g' hg')
              · exact Or.inr h'
            · rcases h3 u hu with h' | ⟨g', hg', hr⟩
              · rcases t3 u h' with h'' | h''
                · exact Or.inl h''
                · exact Or.inr ⟨g, List.mem_cons_self _ _, h''⟩
              · exact Or.inr ⟨g', List.mem_cons_of_mem _ hg', hr⟩
    intro t s s' h
    by_cases ht : ntTagged s t
    · rw [build_nodetree_succ_built bmain n t s ht] at h
      simp at h
      subst h
      exact ⟨ht, fun u hu => Or.inl hu, fun u hu => Or.inl hu⟩
    · rw [build_nodetree_succ_new bmain n t s ht] at h
      obtain ⟨h1, h2, h3⟩ := hnodes _ _ _ h
      have hmono := build_nodetree_nodes_NtExt bmain n _ _ _ h
      have hiff := fun u => ntTagged_enter_nodetree_iff t u s ht
      refine ⟨NtExt_tagged_mono hmono _ ((hiff t).2 (Or.inr rfl)), fun u hu => ?_, fun u hu => ?_⟩
      · rcases h2 u hu with h' | h'
        · rcases (hiff u).1 h' with h'' | h''
          · exact Or.inl h''
          · subst h''
            exact Or.inr fun g hg => h1 g hg
        · exact Or.inr h'
      · rcases h3 u hu with h' | ⟨g, hg, hr⟩
        · rcases (hiff u).1 h' with h'' | h''
          · exact Or.inl h''
          · subst h''
            exact Or.inr Relation.ReflTransGen.refl
        · exact Or.inr (Relation.ReflTransGen.head hg hr)

theorem build_scene_compositor_built (bmain : Main) (fuel : Nat) (scene : Scene)
    (s : BuilderState) (h : (scene.id, Tag.TAG_SCENE_COMPOSITOR) ∈ s.built_map) :
    build_scene_compositor bmain fuel scene s
      = some (s.log (Call.checkIsBuiltAndTag scene.id Tag.TAG_SCENE_COMPOSITOR true)) := by
  simp [build_scene_compositor, checkIsBuiltAndTag_built _ _ s h]

theorem build_scene_compositor_new_none (bmain : Main) (fuel : Nat) (scene : Scene)
    (s : BuilderState) (h : (scene.id, Tag.TAG_SCENE_COMPOSITOR) ∉ s.built_map)
    (hn : scene.nodetree = none) :
    build_scene_compositor bmain fuel scene s
      = some { s.log (Call.checkIsBuiltAndTag scene.id Tag.TAG_SCENE_COMPOSITOR false) with
                built_map := s.built_map ++ [(scene.id, Tag.TAG_SCENE_COMPOSITOR)] } := by
  simp [build_scene_compositor, checkIsBuiltAndTag_new _ _ s h, hn]

theorem build_scene_compositor_new_some (bmain : Main) (fuel : Nat) (scene : Scene)
    (s : BuilderState) (h : (scene.id, Tag.TAG_SCENE_COMPOSITOR) ∉ s.built_map)
    (T : Nat) (hn : scene.nodetree = some T) :
    build_scene_compositor bmain fuel scene s
      = build_nodetree bmain fuel T (compositor_entry scene s) := by
  simp [build_scene_compositor, checkIsBuiltAndTag_new _ _ s h, hn, compositor_entry,
    get_cow_datablock]

theorem build_scene_parameters_built (bmain : Main) (fuel : Nat) (scene : Scene)
    (s : BuilderState) (h : (scene.id, Tag.TAG_PARAMETERS) ∈ s.built_map) :
    build_scene_parameters bmain fuel scene s
      = some (s.log (Call.checkIsBuiltAndTag scene.id Tag.TAG_PARAMETERS true)) := by
  simp [build_scene_parameters, checkIsBuiltAndTag_built _ _ s h]

theorem build_scene_parameters_new (bmain : Main) (fuel : Nat) (scene : Scene)
    (s : BuilderState) (h : (scene.id, Tag.TAG_PARAMETERS) ∉ s.built_map) :
    build_scene_parameters bmain fuel scene s
      = (build_scene_compositor bmain fuel scene (parameters_entry scene s)).map
          (build_markers scene) := by
  simp only [build_scene_parameters, checkIsBuiltAndTag_new _ _ s h, parameters_entry,
    build_markers]
  cases build_scene_compositor bmain fuel scene _ <;> rfl

theorem build_markers_eq (scene : Scene) (s : BuilderState) :
    build_markers scene s
      = { s with trace := s.trace ++
            scene.markers.map (fun marker => Call.build_idproperties marker.prop) } := by
  unfold build_markers
  generalize scene.markers = l
  induction l generalizing s with
  | nil => simp
  | cons m rest ih =>
    rw [List.foldl_cons, ih]
    simp [build_idproperties, BuilderState.log]

/-! ### Tags and direct linkage are never lost -/

theorem Grows_refl (s : BuilderState) : Grows s s := ⟨fun _ h => h, fun _ h => h⟩

theorem Grows_trans {a b c : BuilderState} (h1 : Grows a b) (h2 : Grows b c) : Grows a c :=
  ⟨fun p hp => h2.1 p (h1.1 p hp), fun id hid => h2.2 id (h1.2 id hid)⟩

theorem Grows_of_fields (s s' : BuilderState) (l : List IDNode) (m : List (ID × Tag))
    (hid : s'.id_nodes = s.id_nodes ++ l) (hb : s'.built_map = s.built_map ++ m) :
    Grows s s' := by
  refine ⟨fun p hp => by rw [hb]; exact List.mem_append_left m hp, fun id h => ?_⟩
  unfold linked_state_of at h ⊢
  rw [hid, List.find?_append]
  cases hf : s.id_nodes.find? (fun n => decide (n.id_orig = id)) with
  | none => simp [hf] at h
  | some n => simpa [hf] using h

theorem Grows_log (s : BuilderState) (c : Call) : Grows s (s.log c) :=
  Grows_of_fields s _ [] [] (by simp) (by simp)

theorem Grows_checkIsBuiltAndTag (id : ID) (tag : Tag) (s : BuilderState) :
    Grows s (checkIsBuiltAndTag id tag s).2 := by
  unfold checkIsBuiltAndTag
  split
  · exact Grows_log s _
  · exact Grows_of_fields s _ [] [(id, tag)] (by simp) (by simp)

theorem Grows_add_id_node (id : ID) (s : BuilderState) : Grows s (add_id_node id s).2 := by
  cases hf : find_id_node id s.id_nodes with
  | some i =>
    exact Grows_of_fields s _ [] [] (by rw [add_id_node_id_nodes, hf]; simp) (by simp)
  | none =>
    exact Grows_of_fields s _ [⟨id, eDepsNode_LinkedState.DEG_ID_LINKED_INDIRECTLY⟩] []
      (by rw [add_id_node_id_nodes, hf]) (by simp)

theorem Grows_add_operation_node (id : ID) (type : NodeType) (opcode : OperationCode)
    (ev : Option EvalCallback) (s : BuilderState) :
    Grows s (add_operation_node id type opcode ev s) := by
  refine Grows_trans (Grows_add_id_node id s) ?_
  exact Grows_of_fields _ _ [] [] (by simp [add_operation_node_id_nodes]) (by simp)

theorem NtExt_grows {s s' : BuilderState} (h : NtExt s s') : Grows s s' := by
  obtain ⟨l, hl, _⟩ := h.id_nodes_ext
  obtain ⟨m, hm, _⟩ := h.built_map_ext
  exact Grows_of_fields s s' l m hl hm

theorem find_direct_set_at (id : ID) (state : eDepsNode_LinkedState) :
    ∀ (l : List IDNode) (i : Nat),
      (l.find? (fun n => decide (n.id_orig = id))).map (·.linked_state)
        = some eDepsNode_LinkedState.DEG_ID_LINKED_DIRECTLY →
      ((promote_linked_state_at state i l).find? (fun n => decide (n.id_orig = id))).map
        (·.linked_state) = some eDepsNode_LinkedState.DEG_ID_LINKED_DIRECTLY := by
  intro l
  induction l with
  | nil => intro i h; simp at h
  | cons n rest ih =>
    intro i h
    cases i with
    | zero =>
      by_cases hn : n.id_orig = id
      · simp [promote_linked_state_at, List.find?_cons, hn] at h ⊢
        simp [h, promote]
      · simpa [promote_linked_state_at, List.find?_cons, hn] using h
    | succ i =>
      by_cases hn : n.id_orig = id
      · simpa [promote_linked_state_at, List.find?_cons, hn] using h
      · simp only [promote_linked_state_at, List.find?_cons, hn, decide_False] at h ⊢
        exact ih i h

theorem Grows_build_object (base_index : Int) (object : Nat)
    (linked_state : eDepsNode_LinkedState) (is_visible : Bool) (s : BuilderState) :
    Grows s (build_object base_index object linked_state is_visible s) := by
  refine Grows_trans (Grows_log s (Call.build_object base_index object linked_state is_visible)) ?_
  refine Grows_trans (Grows_add_id_node (ID.object object) _) ?_
  refine ⟨fun p hp => hp, fun id h => ?_⟩
  exact find_direct_set_at id linked_state _ _ h

theorem build_nodetree_Grows (bmain : Main) (fuel t : Nat) (s s' : BuilderState)
    (h : build_nodetree bmain fuel t s = some s') : Grows s s' :=
  NtExt_grows (build_nodetree_NtExt bmain fuel t s s' h)

theorem Grows_compositor_entry (scene : Scene) (s : BuilderState) :
    Grows s (compositor_entry scene s) :=
  Grows_trans (Grows_checkIsBuiltAndTag scene.id Tag.TAG_SCENE_COMPOSITOR s)
    (Grows_trans (Grows_log _ (Call.get_cow_datablock scene.id))
      (Grows_add_operation_node _ _ _ _ _))

theorem Grows_parameters_entry (scene : Scene) (s : BuilderState) :
    Grows s (parameters_entry scene s) :=
  Grows_trans (Grows_checkIsBuiltAndTag scene.id Tag.TAG_PARAMETERS s)
    (Grows_trans (Grows_log _ (Call.build_parameters scene.id))
      (Grows_trans (Grows_log _ (Call.build_idproperties scene.properties))
        (Grows_add_operation_node _ _ _ _ _)))

theorem Grows_build_markers (scene : Scene) (s : BuilderState) :
    Grows s (build_markers scene s) := by
  rw [build_markers_eq]
  exact Grows_of_fields s _ [] [] (by simp) (by simp)

theorem build_scene_compositor_Grows (bmain : Main) (fuel : Nat) (scene : Scene)
    (s s' : BuilderState) (h : build_scene_compositor bmain fuel scene s = some s') :
    Grows s s' := by
  by_cases hb : (scene.id, Tag.TAG_SCENE_COMPOSITOR) ∈ s.built_map
  · rw [build_scene_compositor_built bmain fuel scene s hb] at h
    simp at h
    subst h
    exact Grows_log s _
  · cases hn : scene.nodetree with
    | none =>
      rw [build_scene_compositor_new_none bmain fuel scene s hb hn] at h
      simp at h
      subst h
      exact Grows_of_fields s _ [] [(scene.id, Tag.TAG_SCENE_COMPOSITOR)] (by simp) (by simp)
    | some T =>
      rw [build_scene_compositor_new_some bmain fuel scene s hb T hn] at h
      exact Grows_trans (Grows_compositor_entry scene s) (build_nodetree_Grows bmain fuel T _ _ h)

theorem build_scene_parameters_Grows (bmain : Main) (fuel : Nat) (scene : Scene)
    (s s' : BuilderState) (h : build_scene_parameters bmain fuel scene s = some s') :
    Grows s s' := by
  by_cases hb : (scene.id, Tag.TAG_PARAMETERS) ∈ s.built_map
  · rw [build_scene_parameters_built bmain fuel scene s hb] at h
    simp at h
    subst h
    exact Grows_log s _
  · rw [build_scene_parameters_new bmain fuel scene s hb] at h
    cases hc : build_scene_compositor bmain fuel scene (parameters_entry scene s) with
    | none => simp [hc] at h
    | some s1 =>
      simp [hc] at h
      subst h
      exact Grows_trans (Grows_parameters_entry scene s)
        (Grows_trans (build_scene_compositor_Grows bmain fuel scene _ _ hc)
          (Grows_build_markers scene s1))

/-! ### The scene functions return -/

theorem build_scene_compositor_returns (bmain : Main) (fuel : Nat) (scene : Scene)
    (s : BuilderState) (hfuel : bmain.nodetrees.length < fuel) :
    ∃ s', build_scene_compositor bmain fuel scene s = some s' := by
  by_cases hb : (scene.id, Tag.TAG_SCENE_COMPOSITOR) ∈ s.built_map
  · exact ⟨_, build_scene_compositor_built bmain fuel scene s hb⟩
  · cases hn : scene.nodetree with
    | none => exact ⟨_, build_scene_compositor_new_none bmain fuel scene s hb hn⟩
    | some T =>
      rw [build_scene_compositor_new_some bmain fuel scene s hb T hn]
      exact build_nodetree_returns bmain fuel T _
        (Nat.lt_of_le_of_lt (untagged_le bmain _) hfuel)

theorem build_scene_parameters_returns (bmain : Main) (fuel : Nat) (scene : Scene)
    (s : BuilderState) (hfuel : bmain.nodetrees.length < fuel) :
    ∃ s', build_scene_parameters bmain fuel scene s = some s' := by
  by_cases hb : (scene.id, Tag.TAG_PARAMETERS) ∈ s.built_map
  · exact ⟨_, build_scene_parameters_built bmain fuel scene s hb⟩
  · rw [build_scene_parameters_new bmain fuel scene s hb]
    obtain ⟨s1, h1⟩ := build_scene_compositor_returns bmain fuel scene
      (parameters_entry scene s) hfuel
    exact ⟨_, by rw [h1]; rfl⟩

theorem build_scene_render_eq (bits : SceModeBits) (bmain : Main) (fuel : Nat)
    (scene : Scene) (view_layer : Nat) (s : BuilderState) :
    build_scene_render bits bmain fuel scene view_layer s
      = (build_scene_parameters bmain fuel scene (render_entry scene view_layer s)).bind
          (fun s1 =>
            (if scene.r.scemode &&& bits.R_DOCOMP != 0 then
              build_scene_compositor bmain fuel scene (build_scene_audio scene s1)
            else some (build_scene_audio scene s1)).map
              (fun s2 => render_camera scene (render_sequencer bits scene view_layer s2))) := by
  unfold build_scene_render render_entry render_camera render_sequencer
  simp only []
  cases build_scene_parameters bmain fuel scene _ with
  | none => rfl
  | some s1 =>
    simp only [Option.bind]
    split <;> simp_all

theorem checkIsBuiltAndTag_marks (id : ID) (tag : Tag) (s : BuilderState) :
    (id, tag) ∈ (checkIsBuiltAndTag id tag s).2.built_map := by
  unfold checkIsBuiltAndTag
  split
  · assumption
  · simp

theorem checkIsBuiltAndTag_mem (id : ID) (tag : Tag) (s : BuilderState) (p : ID × Tag) :
    p ∈ (checkIsBuiltAndTag id tag s).2.built_map ↔ p ∈ s.built_map ∨ p = (id, tag) := by
  unfold checkIsBuiltAndTag
  split
  · rename_i h
    constructor
    · exact fun hp => Or.inl hp
    · rintro (hp | rfl)
      · exact hp
      · exact h
  · simp

theorem run_checks_mem (pairs : List (ID × Tag)) (s : BuilderState) (p : ID × Tag) :
    p ∈ (run_checks pairs s).built_map ↔ p ∈ s.built_map ∨ p ∈ pairs := by
  unfold run_checks
  induction pairs generalizing s with
  | nil => simp
  | cons q rest ih =>
    rw [List.foldl_cons, ih, checkIsBuiltAndTag_mem]
    simp only [List.mem_cons]
    constructor
    · rintro ((h | h) | h)
      · exact Or.inl h
      · exact Or.inr (Or.inl h)
      · exact Or.inr (Or.inr h)
    · rintro (h | h | h)
      · exact Or.inl (Or.inl h)
      · exact Or.inl (Or.inr h)
      · exact Or.inr h

theorem checkIsBuiltAndTag_fst (id : ID) (tag : Tag) (s : BuilderState) :
    (checkIsBuiltAndTag id tag s).1 = decide ((id, tag) ∈ s.built_map) := by
  unfold checkIsBuiltAndTag
  split <;> simp [*]

theorem TagInv_checkIsBuiltAndTag (id : ID) (tag : Tag) (s : BuilderState) (h : TagInv s) :
    TagInv (checkIsBuiltAndTag id tag s).2 := by
  intro id2 tag2
  have h2 := h id2 tag2
  unfold false_checks at h2 ⊢
  by_cases hm : (id, tag) ∈ s.built_map
  · rw [checkIsBuiltAndTag_built id tag s hm]
    simpa [List.count_append, List.count_cons] using h2
  · rw [checkIsBuiltAndTag_new id tag s hm]
    by_cases he : (id2, tag2) = (id, tag)
    · have hm2 : (id2, tag2) ∉ s.built_map := he ▸ hm
      simp only [hm2, if_false] at h2
      obtain ⟨rfl, rfl⟩ := Prod.mk.inj he
      simp [List.count_append, List.count_cons, h2]
    · have hne : ¬ (id = id2 ∧ tag = tag2) := fun hc => he (by rw [hc.1, hc.2])
      have hne2 : ¬ (id2 = id ∧ tag2 = tag) := fun hc => he (by rw [hc.1, hc.2])
      simp only [log_trace, log_built_map, List.count_append, List.mem_append,
        List.mem_singleton, Prod.mk.injEq, hne2, or_false]
      simpa [List.count_cons, hne] using h2

theorem TagInv_fresh : TagInv BuilderState.fresh := by
  intro id tag
  simp [false_checks, BuilderState.fresh]

theorem TagInv_run_checks (pairs : List (ID × Tag)) (s : BuilderState) (h : TagInv s) :
    TagInv (run_checks pairs s) := by
  unfold run_checks
  induction pairs generalizing s with
  | nil => exact h
  | cons q rest ih =>
    rw [List.foldl_cons]
    exact ih _ (TagInv_checkIsBuiltAndTag q.1 q.2 s h)

theorem build_scene_parameters_marks (bmain : Main) (fuel : Nat) (scene : Scene)
    (s s' : BuilderState) (h : build_scene_parameters bmain fuel scene s = some s') :
    (scene.id, Tag.TAG_PARAMETERS) ∈ s'.built_map := by
  by_cases hb : (scene.id, Tag.TAG_PARAMETERS) ∈ s.built_map
  · exact (build_scene_parameters_Grows bmain fuel scene s s' h).1 _ hb
  · rw [build_scene_parameters_new bmain fuel scene s hb] at h
    cases hc : build_scene_compositor bmain fuel scene (parameters_entry scene s) with
    | none => simp [hc] at h
    | some s1 =>
      simp [hc] at h
      subst h
      have h0 : (scene.id, Tag.TAG_PARAMETERS) ∈ (parameters_entry scene s).built_map := by
        simp [parameters_entry, build_parameters, build_idproperties,
          checkIsBuiltAndTag_marks]
      exact (Grows_build_markers scene s1).1 _
        ((build_scene_compositor_Grows bmain fuel scene _ _ hc).1 _ h0)

theorem find_id_node_add_id_node (id : ID) (s : BuilderState) :
    find_id_node id (add_id_node id s).2.id_nodes = some (add_id_node id s).1 := by
  have key : ∀ l : List IDNode, find_id_node id l = none →
      find_id_node id (l ++ [⟨id, eDepsNode_LinkedState.DEG_ID_LINKED_INDIRECTLY⟩])
        = some l.length := by
    intro l
    induction l with
    | nil => intro _; simp [find_id_node]
    | cons n rest ih =>
      intro h
      by_cases hn : n.id_orig = id
      · simp [find_id_node, hn] at h
      · simp only [find_id_node, hn, if_false, Option.map_eq_none'] at h
        simp [find_id_node, hn, ih h]
  unfold add_id_node
  simp only [log_id_nodes]
  cases hf : find_id_node id s.id_nodes with
  | some i => simpa using hf
  | none => simpa using key _ hf

theorem linked_state_set_at (id : ID) (state : eDepsNode_LinkedState) :
    ∀ (l : List IDNode) (i : Nat), find_id_node id l = some i →
      ((set_linked_state_at state i l).find? (fun n => decide (n.id_orig = id))).map
        (·.linked_state) = some state := by
  intro l
  induction l with
  | nil => intro i h; simp [find_id_node] at h
  | cons n rest ih =>
    intro i h
    by_cases hn : n.id_orig = id
    · simp only [find_id_node, hn, if_true, Option.some.injEq] at h
      subst h
      simp [set_linked_state_at, hn]
    · simp only [find_id_node, hn, if_false, Option.map_eq_some'] at h
      obtain ⟨j, hj, rfl⟩ := h
      simp only [set_linked_state_at, List.find?_cons, hn, decide_False]
      exact ih j hj

theorem linked_state_of_render_entry (scene : Scene) (view_layer : Nat) (s : BuilderState) :
    linked_state_of scene.id (render_entry scene view_layer s)
      = some eDepsNode_LinkedState.DEG_ID_LINKED_DIRECTLY := by
  unfold linked_state_of render_entry build_animdata add_time_source set_linked_state
  simp only [log_id_nodes]
  exact linked_state_set_at scene.id _ _ _ (find_id_node_add_id_node scene.id _)

theorem build_object_trace (base_index : Int) (object : Nat)
    (linked_state : eDepsNode_LinkedState) (is_visible : Bool) (s : BuilderState) :
    (build_object base_index object linked_state is_visible s).trace =
      s.trace ++ [Call.build_object base_index object linked_state is_visible,
        Call.add_id_node (ID.object object)] := by
  unfold build_object
  simp

theorem build_object_operations (base_index : Int) (object : Nat)
    (linked_state : eDepsNode_LinkedState) (is_visible : Bool) (s : BuilderState) :
    (build_object base_index object linked_state is_visible s).operations = s.operations := by
  unfold build_object
  simp

theorem build_object_built_map (base_index : Int) (object : Nat)
    (linked_state : eDepsNode_LinkedState) (is_visible : Bool) (s : BuilderState) :
    (build_object base_index object linked_state is_visible s).built_map = s.built_map := by
  unfold build_object
  simp

/-- The builds of a list of speaker objects add the calls of `speaker_calls`, and no
operation and no tag. -/
theorem speakers_foldl (objects : List Nat) :
    ∀ s : BuilderState,
      (objects.foldl
          (fun s object =>
            build_object (-1) object eDepsNode_LinkedState.DEG_ID_LINKED_INDIRECTLY true s)
          s).trace = s.trace ++ speaker_calls objects ∧
      (objects.foldl
          (fun s object =>
            build_object (-1) object eDepsNode_LinkedState.DEG_ID_LINKED_INDIRECTLY true s)
          s).operations = s.operations ∧
      (objects.foldl
          (fun s object =>
            build_object (-1) object eDepsNode_LinkedState.DEG_ID_LINKED_INDIRECTLY true s)
          s).built_map = s.built_map ∧
      Grows s (objects.foldl
          (fun s object =>
            build_object (-1) object eDepsNode_LinkedState.DEG_ID_LINKED_INDIRECTLY true s)
          s) := by
  induction objects with
  | nil => intro s; exact ⟨by simp [speaker_calls], rfl, rfl, Grows_refl s⟩
  | cons object rest ih =>
    intro s
    obtain ⟨h1, h2, h3, h4⟩ := ih
      (build_object (-1) object eDepsNode_LinkedState.DEG_ID_LINKED_INDIRECTLY true s)
    simp only [List.foldl_cons]
    refine ⟨?_, ?_, ?_, Grows_trans (Grows_build_object _ _ _ _ s) h4⟩
    · rw [h1, build_object_trace]
      simp [speaker_calls]
    · rw [h2, build_object_operations]
    · rw [h3, build_object_built_map]

theorem build_scene_speakers_trace (scene : Scene) (view_layer : Nat) (s : BuilderState) :
    (build_scene_speakers scene view_layer s).trace =
      s.trace ++ Call.build_scene_speakers scene.addr view_layer ::
        speaker_calls scene.speakers := by
  unfold build_scene_speakers
  rw [(speakers_foldl scene.speakers _).1]
  simp

theorem build_scene_speakers_operations (scene : Scene) (view_layer : Nat)
    (s : BuilderState) :
    (build_scene_speakers scene view_layer s).operations = s.operations := by
  unfold build_scene_speakers
  rw [(speakers_foldl scene.speakers _).2.1]
  simp

theorem build_scene_speakers_built_map (scene : Scene) (view_layer : Nat)
    (s : BuilderState) :
    (build_scene_speakers scene view_layer s).built_map = s.built_map := by
  unfold build_scene_speakers
  rw [(speakers_foldl scene.speakers _).2.2.1]
  simp

theorem Grows_build_scene_speakers (scene : Scene) (view_layer : Nat) (s : BuilderState) :
    Grows s (build_scene_speakers scene view_layer s) := by
  unfold build_scene_speakers
  exact Grows_trans (Grows_log s _) (speakers_foldl scene.speakers _).2.2.2

/-- A call of the builds of the speaker objects is an object build or the request for
the ID node of an object. -/
theorem mem_speaker_calls (objects : List Nat) :
    ∀ c ∈ speaker_calls objects,
      ∃ object,
        c = Call.build_object (-1) object eDepsNode_LinkedState.DEG_ID_LINKED_INDIRECTLY
          true ∨ c = Call.add_id_node (ID.object object) := by
  induction objects with
  | nil => intro c hc; simp [speaker_calls] at hc
  | cons object rest ih =>
    intro c hc
    simp only [speaker_calls, List.mem_cons] at hc
    rcases hc with rfl | rfl | hc
    · exact ⟨object, Or.inl rfl⟩
    · exact ⟨object, Or.inr rfl⟩
    · exact ih c hc

theorem Grows_render_sequencer (bits : SceModeBits) (scene : Scene) (view_layer : Nat)
    (s : BuilderState) : Grows s (render_sequencer bits scene view_layer s) := by
  unfold render_sequencer
  split
  · exact Grows_trans (Grows_log s _) (Grows_build_scene_speakers scene view_layer _)
  · exact Grows_refl s

theorem Grows_render_camera (scene : Scene) (s : BuilderState) :
    Grows s (render_camera scene s) := by
  unfold render_camera
  split
  · exact Grows_build_object _ _ _ _ s
  · exact Grows_refl s

/-- The part of `build_scene_render` after `render_entry` returns, with enough fuel, a
state that comes later in the pass. -/
theorem build_scene_render_returns (bits : SceModeBits) (bmain : Main) (fuel : Nat)
    (scene : Scene) (view_layer : Nat) (s : BuilderState)
    (hfuel : bmain.nodetrees.length < fuel) :
    ∃ s', build_scene_render bits bmain fuel scene view_layer s = some s' ∧
      Grows (render_entry scene view_layer s) s' := by
  rw [build_scene_render_eq]
  obtain ⟨s1, h1⟩ := build_scene_parameters_returns bmain fuel scene
    (render_entry scene view_layer s) hfuel
  have g1 := build_scene_parameters_Grows bmain fuel scene _ _ h1
  have ga : Grows s1 (build_scene_audio scene s1) := Grows_log s1 _
  rw [h1]
  simp only [Option.bind]
  by_cases hc : (scene.r.scemode &&& bits.R_DOCOMP != 0) = true
  · obtain ⟨s2, h2⟩ := build_scene_compositor_returns bmain fuel scene
      (build_scene_audio scene s1) hfuel
    have g2 := build_scene_compositor_Grows bmain fuel scene _ _ h2
    refine ⟨_, by rw [if_pos hc, h2]; rfl, ?_⟩
    exact Grows_trans g1 (Grows_trans ga (Grows_trans g2
      (Grows_trans (Grows_render_sequencer bits scene view_layer s2) (Grows_render_camera scene _))))
  · refine ⟨_, by rw [if_neg hc]; rfl, ?_⟩
    exact Grows_trans g1 (Grows_trans ga
      (Grows_trans (Grows_render_sequencer bits scene view_layer _) (Grows_render_camera scene _)))

/-! ### What a node-tree run leaves alone, and what the scene steps leave alone -/

theorem NtExt_compositor_ops {s s' : BuilderState} (h : NtExt s s') (scene : Scene) :
    compositor_ops scene s' = compositor_ops scene s := by
  obtain ⟨l, e, hl⟩ := h.operations_ext
  unfold compositor_ops
  rw [e, List.countP_append]
  have : l.countP (fun o => decide (o.owner = scene.id ∧ o.type = NodeType.SHADING ∧
      o.opcode = OperationCode.COMPOSITOR_EVAL)) = 0 := by
    rw [List.countP_eq_zero]
    intro o ho
    have := hl o ho
    simp only [decide_eq_true_eq, not_and]
    intro hown
    rw [hown] at this
    simp [Scene.id, ID.isNodetree] at this
  omega

theorem NtExt_count_trace {s s' : BuilderState} (h : NtExt s s') (c : Call)
    (hc : c.isNodetreeCall = false) : s'.trace.count c = s.trace.count c := by
  obtain ⟨l, e, hl⟩ := h.trace_ext
  rw [e, List.count_append]
  have : l.count c = 0 := by
    rw [List.count_eq_zero]
    intro hm
    rw [hl c hm] at hc
    exact Bool.noConfusion hc
  omega

theorem NtExt_mem_built_map {s s' : BuilderState} (h : NtExt s s') (p : ID × Tag)
    (hp : p.1.isNodetree = false) : p ∈ s'.built_map ↔ p ∈ s.built_map := by
  obtain ⟨l, e, hl⟩ := h.built_map_ext
  rw [e, List.mem_append]
  constructor
  · rintro (h1 | h1)
    · exact h1
    · rw [hl p h1] at hp
      exact Bool.noConfusion hp
  · exact Or.inl

@[simp] theorem build_markers_operations (scene : Scene) (s : BuilderState) :
    (build_markers scene s).operations = s.operations := by rw [build_markers_eq]
@[simp] theorem build_markers_built_map (scene : Scene) (s : BuilderState) :
    (build_markers scene s).built_map = s.built_map := by rw [build_markers_eq]
@[simp] theorem build_markers_id_nodes (scene : Scene) (s : BuilderState) :
    (build_markers scene s).id_nodes = s.id_nodes := by rw [build_markers_eq]
@[simp] theorem build_markers_components (scene : Scene) (s : BuilderState) :
    (build_markers scene s).components = s.components := by rw [build_markers_eq]
@[simp] theorem build_markers_trace (scene : Scene) (s : BuilderState) :
    (build_markers scene s).trace
      = s.trace ++ scene.markers.map (fun marker => Call.build_idproperties marker.prop) := by
  rw [build_markers_eq]

theorem count_markers (markers : List TimeMarker) (c : Call)
    (hc : ∀ p, c ≠ Call.build_idproperties p) :
    (markers.map (fun marker => Call.build_idproperties marker.prop)).count c = 0 := by
  rw [List.count_eq_zero]
  intro hm
  obtain ⟨m, _, hm2⟩ := List.mem_map.mp hm
  exact hc m.prop hm2.symm

/-- The run of `build_scene_compositor` for a scene that is not yet built and has a
node-tree: with enough fuel it returns; it extends the state at the call of
`build_nodetree` by node-tree material only and tags the tree of the scene. -/
theorem build_scene_compositor_run (bmain : Main) (fuel : Nat) (scene : Scene)
    (s : BuilderState) (T : Nat) (hfuel : bmain.nodetrees.length < fuel)
    (hb : (scene.id, Tag.TAG_SCENE_COMPOSITOR) ∉ s.built_map)
    (hn : scene.nodetree = some T) :
    ∃ s', build_scene_compositor bmain fuel scene s = some s' ∧
      build_nodetree bmain fuel T (compositor_entry scene s) = some s' ∧
      NtExt (compositor_entry scene s) s' ∧ ntTagged s' T ∧
      (NtInv (compositor_entry scene s) → NtInv s') := by
  rw [build_scene_compositor_new_some bmain fuel scene s hb T hn]
  obtain ⟨s', h⟩ := build_nodetree_returns bmain fuel T (compositor_entry scene s)
    (Nat.lt_of_le_of_lt (untagged_le bmain _) hfuel)
  exact ⟨s', h, h, build_nodetree_NtExt bmain fuel T _ _ h,
    (build_nodetree_closure bmain fuel T _ _ h).1,
    build_nodetree_NtInv bmain fuel T _ _ h⟩

theorem NtInv_of_none (s : BuilderState) (h1 : ∀ c ∈ s.trace, c.isNodetreeCall = false)
    (h2 : ∀ o ∈ s.operations, o.owner.isNodetree = false)
    (h3 : ∀ p ∈ s.built_map, p.1.isNodetree = false) : NtInv s := by
  intro u
  have e1 : expansions u s = 0 := by
    unfold expansions
    rw [List.count_eq_zero]
    intro hm
    have := h1 _ hm
    simp [Call.isNodetreeCall, ID.isNodetree] at this
  have e2 : nodetree_ops u s = 0 := by
    unfold nodetree_ops
    rw [List.count_eq_zero]
    intro hm
    have := h2 _ hm
    simp [ID.isNodetree] at this
  have e3 : ¬ ntTagged s u := by
    intro hm
    have := h3 _ hm
    simp [ID.isNodetree] at this
  simp [e1, e2, e3]

theorem render_tail_trace (bits : SceModeBits) (scene : Scene) (view_layer : Nat)
    (s : BuilderState) :
    (render_camera scene (render_sequencer bits scene view_layer s)).trace
      = s.trace ++ render_tail bits scene view_layer := by
  unfold render_camera render_sequencer render_tail
  split <;> split <;>
    simp [build_object_trace, build_scene_speakers_trace, build_scene_sequencer]

theorem render_tail_operations (bits : SceModeBits) (scene : Scene) (view_layer : Nat)
    (s : BuilderState) :
    (render_camera scene (render_sequencer bits scene view_layer s)).operations
      = s.operations := by
  unfold render_camera render_sequencer
  split <;> split <;>
    simp [build_object_operations, build_scene_speakers_operations, build_scene_sequencer]

theorem render_tail_built_map (bits : SceModeBits) (scene : Scene) (view_layer : Nat)
    (s : BuilderState) :
    (render_camera scene (render_sequencer bits scene view_layer s)).built_map
      = s.built_map := by
  unfold render_camera render_sequencer
  split <;> split <;>
    simp [build_object_built_map, build_scene_speakers_built_map, build_scene_sequencer]

theorem count_render_tail (bits : SceModeBits) (scene : Scene) (view_layer : Nat) (c : Call)
    (h1 : ∀ a, c ≠ Call.build_scene_sequencer a) (h2 : ∀ a v, c ≠ Call.build_scene_speakers a v)
    (h3 : ∀ b o l v, c ≠ Call.build_object b o l v) (h4 : ∀ o, c ≠ Call.add_id_node (ID.object o)) :
    (render_tail bits scene view_layer).count c = 0 := by
  rw [List.count_eq_zero]
  unfold render_tail
  intro hm
  rcases List.mem_append.mp hm with hm | hm
  · split at hm
    · simp only [List.mem_append, List.mem_cons, List.mem_singleton, List.not_mem_nil,
        or_false] at hm
      rcases hm with (hm | hm) | hm
      · exact h1 _ hm
      · exact h2 _ _ hm
      · obtain ⟨object, h | h⟩ := mem_speaker_calls _ c hm
        · exact h3 _ _ _ _ h
        · exact h4 _ h
    · simp at hm
  · split at hm
    · simp only [List.mem_cons, List.mem_singleton, List.not_mem_nil, or_false] at hm
      rcases hm with hm | hm
      · exact h3 _ _ _ _ hm
      · exact h4 _ hm
    · simp at hm

theorem render_tail_not_nodetree (bits : SceModeBits) (scene : Scene) (view_layer : Nat) :
    ∀ c ∈ render_tail bits scene view_layer, c.isNodetreeCall = false := by
  intro c h
  unfold render_tail at h
  rcases List.mem_append.mp h with h | h
  · split at h
    · simp only [List.mem_append, List.mem_cons, List.mem_singleton, List.not_mem_nil,
        or_false] at h
      rcases h with (rfl | rfl) | h
      · rfl
      · rfl
      · obtain ⟨object, rfl | rfl⟩ := mem_speaker_calls _ c h <;> rfl
    · simp at h
  · split at h
    · simp only [List.mem_cons, List.mem_singleton, List.not_mem_nil, or_false] at h
      rcases h with rfl | rfl <;> rfl
    · simp at h

theorem markers_not_nodetree (markers : List TimeMarker) :
    ∀ c ∈ markers.map (fun marker => Call.build_idproperties marker.prop),
      c.isNodetreeCall = false := by
  intro c h
  obtain ⟨m, _, rfl⟩ := List.mem_map.mp h
  rfl

theorem render_fresh_entry_not_nodetree (scene : Scene) (view_layer : Nat) :
    ∀ c ∈ (compositor_entry scene (parameters_entry scene
      (render_entry scene view_layer BuilderState.fresh))).trace, c.isNodetreeCall = false := by
  intro c hc
  simp [compositor_entry, get_cow_datablock, parameters_entry, checkIsBuiltAndTag,
    build_parameters, build_idproperties, render_entry, build_animdata, add_time_source,
    set_linked_state, BuilderState.fresh, Scene.id] at hc
  rcases hc with rfl | rfl | rfl | rfl | rfl | rfl | rfl | rfl | rfl | rfl | rfl | rfl <;> rfl

theorem parameters_entry_built_map (scene : Scene) (s : BuilderState)
    (hp : (scene.id, Tag.TAG_PARAMETERS) ∉ s.built_map) :
    (parameters_entry scene s).built_map = s.built_map ++ [(scene.id, Tag.TAG_PARAMETERS)] := by
  simp [parameters_entry, build_parameters, build_idproperties,
    checkIsBuiltAndTag_new _ _ s hp]

theorem compositor_entry_built_map (scene : Scene) (s : BuilderState)
    (hp : (scene.id, Tag.TAG_SCENE_COMPOSITOR) ∉ s.built_map) :
    (compositor_entry scene s).built_map
      = s.built_map ++ [(scene.id, Tag.TAG_SCENE_COMPOSITOR)] := by
  simp [compositor_entry, get_cow_datablock, checkIsBuiltAndTag_new _ _ s hp]

/-- The run of `build_scene_parameters` for a scene with a node-tree when neither the
parameters nor the compositor of the scene are built yet. -/
theorem build_scene_parameters_run (bmain : Main) (fuel : Nat) (scene : Scene)
    (s : BuilderState) (T : Nat) (hfuel : bmain.nodetrees.length < fuel)
    (hp : (scene.id, Tag.TAG_PARAMETERS) ∉ s.built_map)
    (hc : (scene.id, Tag.TAG_SCENE_COMPOSITOR) ∉ s.built_map)
    (hn : scene.nodetree = some T) :
    ∃ s1, build_scene_parameters bmain fuel scene s = some (build_markers scene s1) ∧
      build_nodetree bmain fuel T (compositor_entry scene (parameters_entry scene s))
        = some s1 ∧
      NtExt (compositor_entry scene (parameters_entry scene s)) s1 ∧ ntTagged s1 T ∧
      (NtInv (compositor_entry scene (parameters_entry scene s)) → NtInv s1) := by
  have hc2 : (scene.id, Tag.TAG_SCENE_COMPOSITOR) ∉ (parameters_entry scene s).built_map := by
    rw [parameters_entry_built_map scene s hp]
    simp [hc]
  obtain ⟨s1, h1, hnt, hext, htag, hinv⟩ := build_scene_compositor_run bmain fuel scene
    (parameters_entry scene s) T hfuel hc2 hn
  refine ⟨s1, ?_, hnt, hext, htag, hinv⟩
  rw [build_scene_parameters_new bmain fuel scene s hp, h1]
  rfl

theorem render_entry_built_map (scene : Scene) (view_layer : Nat) (s : BuilderState) :
    (render_entry scene view_layer s).built_map = s.built_map := by
  simp [render_entry, build_animdata, add_time_source, set_linked_state]

theorem NtInv_render_fresh (scene : Scene) (view_layer : Nat) :
    NtInv (compositor_entry scene (parameters_entry scene
      (render_entry scene view_layer BuilderState.fresh))) := by
  apply NtInv_of_none
  · intro c hc
    simp [compositor_entry, get_cow_datablock, parameters_entry, checkIsBuiltAndTag,
      build_parameters, build_idproperties, render_entry, build_animdata, add_time_source,
      set_linked_state, BuilderState.fresh, Scene.id] at hc
    rcases hc with rfl | rfl | rfl | rfl | rfl | rfl | rfl | rfl | rfl | rfl | rfl | rfl <;> rfl
  · intro o ho
    simp [compositor_entry, get_cow_datablock, parameters_entry, checkIsBuiltAndTag,
      build_parameters, build_idproperties, render_entry, build_animdata, add_time_source,
      set_linked_state, BuilderState.fresh, Scene.id] at ho
    rcases ho with rfl | rfl <;> rfl
  · intro p hp
    simp [compositor_entry, get_cow_datablock, parameters_entry, checkIsBuiltAndTag,
      build_parameters, build_idproperties, render_entry, build_animdata, add_time_source,
      set_linked_state, BuilderState.fresh, Scene.id] at hp
    rcases hp with rfl | rfl <;> rfl

/-- The render of a scene with a node-tree on a fresh pass, in terms of the one run of
the node-tree builder it contains. -/
theorem build_scene_render_fresh_run (bits : SceModeBits) (bmain : Main) (fuel : Nat)
    (scene : Scene) (view_layer : Nat) (T : Nat) (hfuel : bmain.nodetrees.length < fuel)
    (hn : scene.nodetree = some T) :
    ∃ s1 s', build_scene_render bits bmain fuel scene view_layer BuilderState.fresh = some s' ∧
      build_nodetree bmain fuel T (compositor_entry scene (parameters_entry scene
        (render_entry scene view_layer BuilderState.fresh))) = some s1 ∧
      NtExt (compositor_entry scene (parameters_entry scene
        (render_entry scene view_layer BuilderState.fresh))) s1 ∧
      ntTagged s1 T ∧ NtInv s1 ∧
      s'.operations = s1.operations ∧ s'.built_map = s1.built_map ∧
      s'.trace = s1.trace ++
        scene.markers.map (fun marker => Call.build_idproperties marker.prop) ++
        [Call.build_scene_audio scene.addr] ++
        (if scene.r.scemode &&& bits.R_DOCOMP != 0 then
          [Call.checkIsBuiltAndTag scene.id Tag.TAG_SCENE_COMPOSITOR true] else []) ++
        render_tail bits scene view_layer := by
  obtain ⟨s1, h1, hnt, hext, htag, hinv⟩ := build_scene_parameters_run bmain fuel scene
    (render_entry scene view_layer BuilderState.fresh) T hfuel
    (by rw [render_entry_built_map]; simp [BuilderState.fresh])
    (by rw [render_entry_built_map]; simp [BuilderState.fresh]) hn
  have hmark : (scene.id, Tag.TAG_SCENE_COMPOSITOR) ∈
      (build_scene_audio scene (build_markers scene s1)).built_map := by
    simp only [build_scene_audio, log_built_map, build_markers_built_map]
    apply NtExt_tagged_mono hext
    rw [compositor_entry_built_map]
    · simp
    · rw [parameters_entry_built_map]
      · rw [render_entry_built_map]; simp [BuilderState.fresh]
      · rw [render_entry_built_map]; simp [BuilderState.fresh]
  refine ⟨s1, render_camera scene (render_sequencer bits scene view_layer
      (if scene.r.scemode &&& bits.R_DOCOMP != 0 then
        (build_scene_audio scene (build_markers scene s1)).log
          (Call.checkIsBuiltAndTag scene.id Tag.TAG_SCENE_COMPOSITOR true)
      else build_scene_audio scene (build_markers scene s1))),
    ?_, hnt, hext, htag, hinv (NtInv_render_fresh scene view_layer), ?_, ?_, ?_⟩
  · rw [build_scene_render_eq, h1]
    simp only [Option.bind]
    rw [build_scene_compositor_built bmain fuel scene _ hmark]
    split <;> rfl
  · rw [render_tail_operations]
    split <;> simp [build_scene_audio]
  · rw [render_tail_built_map]
    split <;> simp [build_scene_audio]
  · rw [render_tail_trace]
    split <;> simp [build_scene_audio]


theorem expansions_eq_one (s : BuilderState) (T : Nat) (hinv : NtInv s) (ht : ntTagged s T) :
    expansions T s = 1 ∧ nodetree_ops T s = 1 := by
  have := hinv T
  simpa [ht] using this

/-- The render of a scene without node-tree and without the compositing bit on a fresh
pass. -/
theorem build_scene_render_fresh_none (bits : SceModeBits) (bmain : Main) (fuel : Nat)
    (scene : Scene) (view_layer : Nat) (hn : scene.nodetree = none)
    (hcomp : scene.r.scemode &&& bits.R_DOCOMP = 0) :
    build_scene_render bits bmain fuel scene view_layer BuilderState.fresh
      = some (render_camera scene (render_sequencer bits scene view_layer
          (build_scene_audio scene (build_markers scene
            { scene_ := some scene.addr, view_layer_ := some view_layer,
              id_nodes := [⟨scene.id, eDepsNode_LinkedState.DEG_ID_LINKED_DIRECTLY⟩],
              components := [⟨scene.id, NodeType.PARAMETERS⟩],
              operations := [⟨scene.id, NodeType.PARAMETERS, OperationCode.SCENE_EVAL, none⟩],
              time_source := true,
              built_map := [(scene.id, Tag.TAG_PARAMETERS), (scene.id, Tag.TAG_SCENE_COMPOSITOR)],
              trace := [Call.add_id_node scene.id, Call.add_time_source,
                Call.build_animdata scene.id,
                Call.checkIsBuiltAndTag scene.id Tag.TAG_PARAMETERS false,
                Call.build_parameters scene.id, Call.build_idproperties scene.properties,
                Call.add_operation_node scene.id NodeType.PARAMETERS OperationCode.SCENE_EVAL,
                Call.add_id_node scene.id,
                Call.checkIsBuiltAndTag scene.id Tag.TAG_SCENE_COMPOSITOR false] })))) := by
  have hc : ¬ ((scene.r.scemode &&& bits.R_DOCOMP != 0) = true) := by simp [hcomp]
  rw [build_scene_render_eq,
    build_scene_parameters_new bmain fuel scene _
      (by rw [render_entry_built_map]; simp [BuilderState.fresh]),
    build_scene_compositor_new_none bmain fuel scene _
      (by rw [parameters_entry_built_map scene _
            (by rw [render_entry_built_map]; simp [BuilderState.fresh]),
          render_entry_built_map]; simp [BuilderState.fresh]) hn]
  simp only [Option.map, Option.bind, if_neg hc]
  congr 5
  simp [parameters_entry, checkIsBuiltAndTag, build_parameters, build_idproperties,
    render_entry, build_animdata, add_time_source, set_linked_state, BuilderState.fresh,
    BuilderState.log, add_operation_node, add_id_node, add_component_node, find_id_node,
    set_linked_state_at, Scene.id]


theorem find_id_node_eq_none (id : ID) (l : List IDNode) :
    find_id_node id l = none ↔ id ∉ l.map (·.id_orig) := by
  induction l with
  | nil => simp [find_id_node]
  | cons n rest ih =>
    by_cases hn : n.id_orig = id
    · simp [find_id_node, hn]
    · have hn2 : ¬ id = n.id_orig := fun e => hn e.symm
      simp [find_id_node, hn, hn2, ih]

/-- The position `find_id_node` returns depends on the entities of the registry only,
and is not moved by nodes added behind. -/
theorem find_id_node_of_map_append (id : ID) (i : Nat) :
    ∀ (l l2 : List IDNode) (k : List ID), find_id_node id l = some i →
      l2.map (·.id_orig) = l.map (·.id_orig) ++ k → find_id_node id l2 = some i := by
  intro l
  induction l generalizing i with
  | nil => intro l2 k h; simp [find_id_node] at h
  | cons n rest ih =>
    intro l2 k h hm
    cases l2 with
    | nil => simp at hm
    | cons n2 rest2 =>
      simp only [List.map_cons, List.cons_append, List.cons.injEq] at hm
      obtain ⟨h1, h2⟩ := hm
      by_cases hn : n.id_orig = id
      · simp only [find_id_node, hn, if_true, Option.some.injEq] at h
        subst h
        simp [find_id_node, h1, hn]
      · simp only [find_id_node, hn, if_false, Option.map_eq_some'] at h
        obtain ⟨j, hj, rfl⟩ := h
        simp [find_id_node, h1, hn, ih j rest2 k hj h2]

theorem add_id_node_fst_of_found (id : ID) (s : BuilderState) (i : Nat)
    (h : find_id_node id s.id_nodes = some i) :
    add_id_node id s = (i, s.log (Call.add_id_node id)) := by
  simp [add_id_node, h]

theorem add_id_node_length (id : ID) (s : BuilderState) :
    s.id_nodes.length ≤ (add_id_node id s).2.id_nodes.length := by
  rw [add_id_node_id_nodes]
  split <;> simp

theorem add_id_node_nodup (id : ID) (s : BuilderState)
    (h : (s.id_nodes.map (·.id_orig)).Nodup) :
    ((add_id_node id s).2.id_nodes.map (·.id_orig)).Nodup := by
  rw [add_id_node_id_nodes]
  cases hf : find_id_node id s.id_nodes with
  | some i => simpa using h
  | none =>
    have hnot := (find_id_node_eq_none id s.id_nodes).1 hf
    simp only [List.map_append, List.map_cons, List.map_nil]
    rw [List.nodup_append]
    refine ⟨h, by simp, ?_⟩
    intro a ha hb
    simp only [List.mem_singleton] at hb
    subst hb
    exact hnot ha

/-! ### The steps of the render before the sequencer and the camera -/

theorem RegistryGrows_refl (s : BuilderState) : RegistryGrows s s := ⟨[], by simp⟩

theorem RegistryGrows_trans {a b c : BuilderState} (h1 : RegistryGrows a b)
    (h2 : RegistryGrows b c) : RegistryGrows a c := by
  obtain ⟨k1, e1⟩ := h1
  obtain ⟨k2, e2⟩ := h2
  exact ⟨k1 ++ k2, by rw [e2, e1, List.append_assoc]⟩

theorem Quiet_refl (s : BuilderState) : Quiet s s :=
  ⟨RegistryGrows_refl s, [], by simp⟩

theorem Quiet_trans {a b c : BuilderState} (h1 : Quiet a b) (h2 : Quiet b c) : Quiet a c := by
  obtain ⟨r1, l1, e1, p1⟩ := h1
  obtain ⟨r2, l2, e2, p2⟩ := h2
  refine ⟨RegistryGrows_trans r1 r2, l1 ++ l2, by rw [e2, e1, List.append_assoc], ?_⟩
  intro c hc
  rcases List.mem_append.mp hc with h | h
  · exact p1 c h
  · exact p2 c h

theorem Quiet_of_fields (s t : BuilderState) (k : List IDNode) (l : List Call)
    (hid : t.id_nodes = s.id_nodes ++ k) (htr : t.trace = s.trace ++ l)
    (hl : ∀ c ∈ l, c.notSequencer = true ∧ c.notObject = true) : Quiet s t :=
  ⟨⟨k.map (·.id_orig), by rw [hid, List.map_append]⟩, l, htr, hl⟩

theorem Quiet_log (s : BuilderState) (c : Call) (h1 : c.notSequencer = true)
    (h2 : c.notObject = true) : Quiet s (s.log c) :=
  Quiet_of_fields s _ [] [c] (by simp) (by simp) (by simp [h1, h2])

theorem Quiet_checkIsBuiltAndTag (id : ID) (tag : Tag) (s : BuilderState) :
    Quiet s (checkIsBuiltAndTag id tag s).2 := by
  unfold checkIsBuiltAndTag
  split
  · exact Quiet_log s _ rfl rfl
  · exact Quiet_of_fields s _ [] [Call.checkIsBuiltAndTag id tag false] (by simp) (by simp)
      (by simp [Call.notSequencer, Call.notObject])

theorem Quiet_add_id_node (id : ID) (s : BuilderState) : Quiet s (add_id_node id s).2 := by
  cases hf : find_id_node id s.id_nodes with
  | some i =>
    exact Quiet_of_fields s _ [] [Call.add_id_node id] (by rw [add_id_node_id_nodes, hf]; simp)
      (by simp) (by simp [Call.notSequencer, Call.notObject])
  | none =>
    exact Quiet_of_fields s _ [⟨id, eDepsNode_LinkedState.DEG_ID_LINKED_INDIRECTLY⟩]
      [Call.add_id_node id] (by rw [add_id_node_id_nodes, hf]) (by simp)
      (by simp [Call.notSequencer, Call.notObject])

theorem Quiet_add_operation_node (id : ID) (type : NodeType) (opcode : OperationCode)
    (ev : Option EvalCallback) (s : BuilderState) :
    Quiet s (add_operation_node id type opcode ev s) := by
  refine Quiet_trans (Quiet_log s (Call.add_operation_node id type opcode) rfl rfl) ?_
  refine Quiet_trans (Quiet_add_id_node id _) ?_
  exact Quiet_of_fields _ _ [] [] (by simp [add_operation_node, add_operation_node_id_nodes])
    (by simp [add_operation_node]) (by simp)

theorem NtExt_Quiet {s t : BuilderState} (h : NtExt s t) : Quiet s t := by
  obtain ⟨k, hk, _⟩ := h.id_nodes_ext
  obtain ⟨l, hl, hp⟩ := h.trace_ext
  refine Quiet_of_fields s t k l hk hl ?_
  intro c hc
  have := hp c hc
  cases c <;> simp_all [Call.isNodetreeCall, Call.notSequencer, Call.notObject]

theorem map_id_orig_set_linked_state_at (state : eDepsNode_LinkedState) (i : Nat)
    (l : List IDNode) :
    (set_linked_state_at state i l).map (·.id_orig) = l.map (·.id_orig) := by
  induction l generalizing i with
  | nil => cases i <;> rfl
  | cons n rest ih =>
    cases i with
    | zero => rfl
    | succ i => simp [set_linked_state_at, ih]

theorem map_id_orig_promote_linked_state_at (state : eDepsNode_LinkedState) (i : Nat)
    (l : List IDNode) :
    (promote_linked_state_at state i l).map (·.id_orig) = l.map (·.id_orig) := by
  induction l generalizing i with
  | nil => cases i <;> rfl
  | cons n rest ih =>
    cases i with
    | zero => rfl
    | succ i => simp [promote_linked_state_at, ih]

theorem Quiet_render_entry (scene : Scene) (view_layer : Nat) (s : BuilderState) :
    Quiet s (render_entry scene view_layer s) := by
  have h0 : Quiet s { s with scene_ := some scene.addr, view_layer_ := some view_layer } :=
    Quiet_of_fields _ _ [] [] (by simp) (by simp) (by simp)
  refine Quiet_trans h0 (Quiet_trans (Quiet_add_id_node scene.id _) ?_)
  refine ⟨⟨[], ?_⟩, [Call.add_time_source, Call.build_animdata scene.id], ?_, ?_⟩
  · simp [render_entry, build_animdata, add_time_source, set_linked_state,
      map_id_orig_set_linked_state_at]
  · simp [render_entry, build_animdata, add_time_source, set_linked_state]
  · simp [Call.notSequencer, Call.notObject]

theorem build_scene_compositor_Quiet (bmain : Main) (fuel : Nat) (scene : Scene)
    (s s' : BuilderState) (h : build_scene_compositor bmain fuel scene s = some s') :
    Quiet s s' := by
  by_cases hb : (scene.id, Tag.TAG_SCENE_COMPOSITOR) ∈ s.built_map
  · rw [build_scene_compositor_built bmain fuel scene s hb] at h
    simp at h
    subst h
    exact Quiet_log s _ rfl rfl
  · cases hn : scene.nodetree with
    | none =>
      rw [build_scene_compositor_new_none bmain fuel scene s hb hn] at h
      simp at h
      subst h
      exact Quiet_of_fields s _ []
        [Call.checkIsBuiltAndTag scene.id Tag.TAG_SCENE_COMPOSITOR false] (by simp) (by simp)
        (by simp [Call.notSequencer, Call.notObject])
    | some T =>
      rw [build_scene_compositor_new_some bmain fuel scene s hb T hn] at h
      refine Quiet_trans ?_ (NtExt_Quiet (build_nodetree_NtExt bmain fuel T _ _ h))
      exact Quiet_trans (Quiet_checkIsBuiltAndTag scene.id Tag.TAG_SCENE_COMPOSITOR s)
        (Quiet_trans (Quiet_log _ (Call.get_cow_datablock scene.id) rfl rfl)
          (Quiet_add_operation_node _ _ _ _ _))

theorem Quiet_build_markers (scene : Scene) (s : BuilderState) :
    Quiet s (build_markers scene s) := by
  refine Quiet_of_fields s _ []
    (scene.markers.map (fun marker => Call.build_idproperties marker.prop)) (by simp)
    (by simp) ?_
  intro c hc
  obtain ⟨m, _, rfl⟩ := List.mem_map.mp hc
  exact ⟨rfl, rfl⟩

theorem build_scene_parameters_Quiet (bmain : Main) (fuel : Nat) (scene : Scene)
    (s s' : BuilderState) (h : build_scene_parameters bmain fuel scene s = some s') :
    Quiet s s' := by
  by_cases hb : (scene.id, Tag.TAG_PARAMETERS) ∈ s.built_map
  · rw [build_scene_parameters_built bmain fuel scene s hb] at h
    simp at h
    subst h
    exact Quiet_log s _ rfl rfl
  · rw [build_scene_parameters_new bmain fuel scene s hb] at h
    cases hc : build_scene_compositor bmain fuel scene (parameters_entry scene s) with
    | none => simp [hc] at h
    | some s1 =>
      simp [hc] at h
      subst h
      have he : Quiet s (parameters_entry scene s) :=
        Quiet_trans (Quiet_checkIsBuiltAndTag scene.id Tag.TAG_PARAMETERS s)
          (Quiet_trans (Quiet_log _ (Call.build_parameters scene.id) rfl rfl)
            (Quiet_trans (Quiet_log _ (Call.build_idproperties scene.properties) rfl rfl)
              (Quiet_add_operation_node _ _ _ _ _)))
      exact Quiet_trans he (Quiet_trans (build_scene_compositor_Quiet bmain fuel scene _ _ hc)
        (Quiet_build_markers scene s1))

theorem render_tail_eq (bits : SceModeBits) (scene : Scene) (view_layer : Nat) :
    render_tail bits scene view_layer
      = sequencer_calls bits scene view_layer ++ camera_calls scene := rfl

/-- The render, from any state: with enough fuel it returns, and its calls are those of
the steps before the sequencer, none of which is a sequencer, speakers or object build,
followed by the calls of the sequencer step and then those of the camera step. -/
theorem build_scene_render_calls (bits : SceModeBits) (bmain : Main) (fuel : Nat)
    (scene : Scene) (view_layer : Nat) (s : BuilderState)
    (hfuel : bmain.nodetrees.length < fuel) :
    ∃ s2 s', build_scene_render bits bmain fuel scene view_layer s = some s' ∧
      s' = render_camera scene (render_sequencer bits scene view_layer s2) ∧
      Quiet s s2 := by
  rw [build_scene_render_eq]
  obtain ⟨s1, h1⟩ := build_scene_parameters_returns bmain fuel scene
    (render_entry scene view_layer s) hfuel
  have q1 := Quiet_trans (Quiet_render_entry scene view_layer s)
    (build_scene_parameters_Quiet bmain fuel scene _ _ h1)
  have qa : Quiet s1 (build_scene_audio scene s1) := Quiet_log s1 _ rfl rfl
  rw [h1]
  simp only [Option.bind]
  by_cases hc : (scene.r.scemode &&& bits.R_DOCOMP != 0) = true
  · obtain ⟨s2, h2⟩ := build_scene_compositor_returns bmain fuel scene
      (build_scene_audio scene s1) hfuel
    have q2 := build_scene_compositor_Quiet bmain fuel scene _ _ h2
    exact ⟨s2, _, by rw [if_pos hc, h2]; rfl, rfl, Quiet_trans q1 (Quiet_trans qa q2)⟩
  · exact ⟨_, _, by rw [if_neg hc]; rfl, rfl, Quiet_trans q1 qa⟩

theorem render_sequencer_trace (bits : SceModeBits) (scene : Scene) (view_layer : Nat)
    (s : BuilderState) :
    (render_sequencer bits scene view_layer s).trace
      = s.trace ++ sequencer_calls bits scene view_layer := by
  unfold render_sequencer sequencer_calls
  split <;> simp [build_scene_speakers_trace, build_scene_sequencer]

theorem render_camera_trace (scene : Scene) (s : BuilderState) :
    (render_camera scene s).trace = s.trace ++ camera_calls scene := by
  unfold render_camera camera_calls build_object
  cases scene.camera <;> simp

theorem camera_calls_notSequencer (scene : Scene) :
    ∀ c ∈ camera_calls scene, c.notSequencer = true := by
  intro c hc
  unfold camera_calls at hc
  split at hc
  · simp only [List.mem_cons, List.mem_singleton, List.not_mem_nil, or_false] at hc
    rcases hc with rfl | rfl <;> rfl
  · simp at hc

theorem speaker_calls_notSequencer (objects : List Nat) :
    ∀ c ∈ speaker_calls objects, c.notSequencer = true := by
  intro c hc
  obtain ⟨object, rfl | rfl⟩ := mem_speaker_calls objects c hc <;> rfl

theorem RegistryGrows_build_object (base_index : Int) (object : Nat)
    (linked_state : eDepsNode_LinkedState) (is_visible : Bool) (s : BuilderState) :
    RegistryGrows s (build_object base_index object linked_state is_visible s) := by
  have h := (Quiet_add_id_node (ID.object object)
    (s.log (Call.build_object base_index object linked_state is_visible))).1
  obtain ⟨k, hk⟩ := h
  exact ⟨k, by
    simp only [build_object, map_id_orig_promote_linked_state_at]
    simpa using hk⟩

theorem RegistryGrows_render_tail (bits : SceModeBits) (scene : Scene) (view_layer : Nat)
    (s : BuilderState) :
    RegistryGrows s (render_camera scene (render_sequencer bits scene view_layer s)) := by
  have hfold : ∀ (objects : List Nat) (t : BuilderState),
      RegistryGrows t (objects.foldl
        (fun s object =>
          build_object (-1) object eDepsNode_LinkedState.DEG_ID_LINKED_INDIRECTLY true s)
        t) := by
    intro objects
    induction objects with
    | nil => intro t; exact RegistryGrows_refl t
    | cons object rest ih =>
      intro t
      exact RegistryGrows_trans (RegistryGrows_build_object _ _ _ _ t) (ih _)
  have h1 : RegistryGrows s (render_sequencer bits scene view_layer s) := by
    unfold render_sequencer build_scene_speakers build_scene_sequencer
    split
    · exact RegistryGrows_trans ⟨[], by simp⟩ (hfold _ _)
    · exact RegistryGrows_refl s
  refine RegistryGrows_trans h1 ?_
  unfold render_camera
  split
  · exact RegistryGrows_build_object _ _ _ _ _
  · exact RegistryGrows_refl _

/-- The registry after a render extends the registry before it. -/
theorem build_scene_render_RegistryGrows (bits : SceModeBits) (bmain : Main) (fuel : Nat)
    (scene : Scene) (view_layer : Nat) (s s' : BuilderState)
    (hfuel : bmain.nodetrees.length < fuel)
    (h : build_scene_render bits bmain fuel scene view_layer s = some s') :
    RegistryGrows s s' := by
  obtain ⟨s2, s'', hrun, hs', hq, _⟩ :=
    build_scene_render_calls bits bmain fuel scene view_layer s hfuel
  rw [h] at hrun
  injection hrun with hrun
  rw [hrun, hs']
  exact RegistryGrows_trans hq (RegistryGrows_render_tail bits scene view_layer s2)

/-! ## The claims -/

/-- C1: for every scene with compositing enabled (R_DOCOMP set) and a non-null
node-tree, `build_scene_render` on a fresh build pass returns and adds exactly one
(scene, SHADING, COMPOSITOR_EVAL) operation (one operation in the graph, one
`add_operation_node` call), reaches the call of `build_nodetree` on the scene's tree
once (one `get_cow_datablock` call, which line 89 makes right before it) so that the
tree is expanded exactly once and has one shading operation, although
`build_scene_compositor` is entered twice: its tag check ran once with result `false`
(from `build_scene_parameters`) and once with result `true` (from
`build_scene_render`).  All the node-tree building of the render is one run of
`build_nodetree` on the scene's tree: no call of the node-tree builder was made before
that run started or after it ended. -/
theorem build_scene_render_compositor_once (bits : SceModeBits) (bmain : Main) (fuel : Nat)
    (scene : Scene) (view_layer : Nat) (T : Nat) (hfuel : bmain.nodetrees.length < fuel)
    (hcomp : scene.r.scemode &&& bits.R_DOCOMP ≠ 0) (hn : scene.nodetree = some T) :
    ∃ s', build_scene_render bits bmain fuel scene view_layer BuilderState.fresh = some s' ∧
      compositor_ops scene s' = 1 ∧
      s'.trace.count
        (Call.add_operation_node scene.id NodeType.SHADING OperationCode.COMPOSITOR_EVAL) = 1 ∧
      s'.trace.count (Call.get_cow_datablock scene.id) = 1 ∧
      expansions T s' = 1 ∧ nodetree_ops T s' = 1 ∧
      s'.trace.count (Call.checkIsBuiltAndTag scene.id Tag.TAG_SCENE_COMPOSITOR false) = 1 ∧
      s'.trace.count (Call.checkIsBuiltAndTag scene.id Tag.TAG_SCENE_COMPOSITOR true) = 1 ∧
      ∃ s0 s1 rest, build_nodetree bmain fuel T s0 = some s1 ∧
        s'.trace = s1.trace ++ rest ∧
        (∀ c ∈ s0.trace, c.isNodetreeCall = false) ∧
        (∀ c ∈ rest, c.isNodetreeCall = false) := by
  obtain ⟨s1, s', hrun, hnt, hext, htag, hinv, hops, _, htrace⟩ :=
    build_scene_render_fresh_run bits bmain fuel scene view_layer T hfuel hn
  have hc : (scene.r.scemode &&& bits.R_DOCOMP != 0) = true := by simpa using hcomp
  rw [if_pos hc] at htrace
  obtain ⟨he, ho⟩ := expansions_eq_one s1 T hinv htag
  refine ⟨s', hrun, ?_, ?_, ?_, ?_, ?_, ?_, ?_, ?_⟩
  · unfold compositor_ops
    rw [hops]
    have := NtExt_compositor_ops hext scene
    unfold compositor_ops at this
    rw [this]
    simp [compositor_entry, get_cow_datablock, parameters_entry, checkIsBuiltAndTag,
      build_parameters, build_idproperties, render_entry, build_animdata, add_time_source,
      set_linked_state, BuilderState.fresh, Scene.id]
  · rw [htrace]
    simp only [List.count_append]
    rw [NtExt_count_trace hext (Call.add_operation_node scene.id NodeType.SHADING OperationCode.COMPOSITOR_EVAL) rfl, count_markers _ _ (by simp),
      count_render_tail _ _ _ _ (by simp) (by simp) (by simp) (by simp)]
    simp [compositor_entry, get_cow_datablock, parameters_entry, checkIsBuiltAndTag,
      build_parameters, build_idproperties, render_entry, build_animdata, add_time_source,
      set_linked_state, BuilderState.fresh, Scene.id, List.count_cons]
  · rw [htrace]
    simp only [List.count_append]
    rw [NtExt_count_trace hext (Call.get_cow_datablock scene.id) rfl, count_markers _ _ (by simp),
      count_render_tail _ _ _ _ (by simp) (by simp) (by simp) (by simp)]
    simp [compositor_entry, get_cow_datablock, parameters_entry, checkIsBuiltAndTag,
      build_parameters, build_idproperties, render_entry, build_animdata, add_time_source,
      set_linked_state, BuilderState.fresh, Scene.id, List.count_cons]
  · unfold expansions at he ⊢
    rw [htrace]
    simp only [List.count_append]
    rw [he, count_markers _ _ (by simp),
      count_render_tail _ _ _ _ (by simp) (by simp) (by simp) (by simp)]
    simp [List.count_cons, Scene.id]
  · unfold nodetree_ops at ho ⊢
    rw [hops, ho]
  · rw [htrace]
    simp only [List.count_append]
    rw [NtExt_count_trace hext (Call.checkIsBuiltAndTag scene.id Tag.TAG_SCENE_COMPOSITOR false) rfl, count_markers _ _ (by simp),
      count_render_tail _ _ _ _ (by simp) (by simp) (by simp) (by simp)]
    simp [compositor_entry, get_cow_datablock, parameters_entry, checkIsBuiltAndTag,
      build_parameters, build_idproperties, render_entry, build_animdata, add_time_source,
      set_linked_state, BuilderState.fresh, Scene.id, List.count_cons]
  · rw [htrace]
    simp only [List.count_append]
    rw [NtExt_count_trace hext (Call.checkIsBuiltAndTag scene.id Tag.TAG_SCENE_COMPOSITOR true) rfl, count_markers _ _ (by simp),
      count_render_tail _ _ _ _ (by simp) (by simp) (by simp) (by simp)]
    simp [compositor_entry, get_cow_datablock, parameters_entry, checkIsBuiltAndTag,
      build_parameters, build_idproperties, render_entry, build_animdata, add_time_source,
      set_linked_state, BuilderState.fresh, Scene.id, List.count_cons]
  · refine ⟨_, s1,
      scene.markers.map (fun marker => Call.build_idproperties marker.prop) ++
        ([Call.build_scene_audio scene.addr] ++
          ([Call.checkIsBuiltAndTag scene.id Tag.TAG_SCENE_COMPOSITOR true] ++
            render_tail bits scene view_layer)),
      hnt, by rw [htrace]; simp only [List.append_assoc],
      render_fresh_entry_not_nodetree scene view_layer, ?_⟩
    intro c hc
    simp only [List.mem_append, List.mem_singleton] at hc
    rcases hc with hc | rfl | rfl | hc
    · exact markers_not_nodetree _ c hc
    · rfl
    · rfl
    · exact render_tail_not_nodetree bits scene view_layer c hc

/-- Witness of C1: the scene with compositing requested, whose node-tree is one of two
node-trees that reference each other. -/
theorem build_scene_render_compositor_once_witness :
    cyclic_bmain.nodetrees.length < 3 ∧
    scene_comp.r.scemode &&& sample_bits.R_DOCOMP ≠ 0 ∧
    scene_comp.nodetree = some 10 ∧
    ∃ s', build_scene_render sample_bits cyclic_bmain 3 scene_comp 0 BuilderState.fresh
        = some s' ∧
      compositor_ops scene_comp s' = 1 ∧
      s'.trace.count (Call.add_operation_node scene_comp.id NodeType.SHADING
        OperationCode.COMPOSITOR_EVAL) = 1 ∧
      s'.trace.count (Call.get_cow_datablock scene_comp.id) = 1 ∧
      expansions 10 s' = 1 ∧ nodetree_ops 10 s' = 1 ∧
      s'.trace.count
        (Call.checkIsBuiltAndTag scene_comp.id Tag.TAG_SCENE_COMPOSITOR false) = 1 ∧
      s'.trace.count
        (Call.checkIsBuiltAndTag scene_comp.id Tag.TAG_SCENE_COMPOSITOR true) = 1 ∧
      ∃ s0 s1 rest, build_nodetree cyclic_bmain 3 10 s0 = some s1 ∧
        s'.trace = s1.trace ++ rest ∧
        (∀ c ∈ s0.trace, c.isNodetreeCall = false) ∧
        (∀ c ∈ rest, c.isNodetreeCall = false) :=
  ⟨by decide, by decide, rfl,
    build_scene_render_compositor_once sample_bits cyclic_bmain 3 scene_comp 0 10
      (by decide) (by decide) rfl⟩

/-- C2: within one build pass, for every entity `E` and tag `T`, the first call
`checkIsBuiltAndTag E T` (no earlier call of the pass was for this pair) returns
`false` and marks the pair, and a later call with the same pair returns `true`,
whatever calls happen in between; over the whole pass the check on the pair returned
`false` exactly once. -/
theorem checkIsBuiltAndTag_false_exactly_once (before between : List (ID × Tag)) (E : ID)
    (T : Tag) (h : (E, T) ∉ before) :
    (checkIsBuiltAndTag E T (run_checks before BuilderState.fresh)).1 = false ∧
    (E, T) ∈ (checkIsBuiltAndTag E T (run_checks before BuilderState.fresh)).2.built_map ∧
    (checkIsBuiltAndTag E T
      (run_checks between
        (checkIsBuiltAndTag E T (run_checks before BuilderState.fresh)).2)).1 = true ∧
    false_checks E T (checkIsBuiltAndTag E T
      (run_checks between
        (checkIsBuiltAndTag E T (run_checks before BuilderState.fresh)).2)).2 = 1 := by
  have hmark := checkIsBuiltAndTag_marks E T (run_checks before BuilderState.fresh)
  have hlater : (E, T) ∈ (run_checks between
      (checkIsBuiltAndTag E T (run_checks before BuilderState.fresh)).2).built_map :=
    (run_checks_mem _ _ _).2 (Or.inl hmark)
  refine ⟨?_, hmark, ?_, ?_⟩
  · rw [checkIsBuiltAndTag_fst]
    simp [run_checks_mem, h, BuilderState.fresh]
  · rw [checkIsBuiltAndTag_fst]
    simp [hlater]
  · have hinv := TagInv_checkIsBuiltAndTag E T _
      (TagInv_run_checks between _
        (TagInv_checkIsBuiltAndTag E T _ (TagInv_run_checks before _ TagInv_fresh)))
    rw [hinv E T]
    simp [checkIsBuiltAndTag_marks]

/-- Witness of C2: the pair (scene 1, scene compositor) checked after a check on another
pair, with three checks in between, one of them on the same pair. -/
theorem checkIsBuiltAndTag_false_exactly_once_witness :
    (ID.scene 1, Tag.TAG_SCENE_COMPOSITOR) ∉ [(ID.scene 1, Tag.TAG_PARAMETERS)] ∧
    (checkIsBuiltAndTag (ID.scene 1) Tag.TAG_SCENE_COMPOSITOR
      (run_checks [(ID.scene 1, Tag.TAG_PARAMETERS)] BuilderState.fresh)).1 = false ∧
    (ID.scene 1, Tag.TAG_SCENE_COMPOSITOR) ∈
      (checkIsBuiltAndTag (ID.scene 1) Tag.TAG_SCENE_COMPOSITOR
        (run_checks [(ID.scene 1, Tag.TAG_PARAMETERS)] BuilderState.fresh)).2.built_map ∧
    (checkIsBuiltAndTag (ID.scene 1) Tag.TAG_SCENE_COMPOSITOR
      (run_checks [(ID.scene 1, Tag.TAG_PARAMETERS), (ID.scene 1, Tag.TAG_SCENE_COMPOSITOR),
          (ID.nodetree 10, Tag.TAG_COMPLETE)]
        (checkIsBuiltAndTag (ID.scene 1) Tag.TAG_SCENE_COMPOSITOR
          (run_checks [(ID.scene 1, Tag.TAG_PARAMETERS)] BuilderState.fresh)).2)).1 = true ∧
    false_checks (ID.scene 1) Tag.TAG_SCENE_COMPOSITOR
      (checkIsBuiltAndTag (ID.scene 1) Tag.TAG_SCENE_COMPOSITOR
        (run_checks [(ID.scene 1, Tag.TAG_PARAMETERS), (ID.scene 1, Tag.TAG_SCENE_COMPOSITOR),
            (ID.nodetree 10, Tag.TAG_COMPLETE)]
          (checkIsBuiltAndTag (ID.scene 1) Tag.TAG_SCENE_COMPOSITOR
            (run_checks [(ID.scene 1, Tag.TAG_PARAMETERS)] BuilderState.fresh)).2)).2 = 1 :=
  ⟨by decide,
    checkIsBuiltAndTag_false_exactly_once [(ID.scene 1, Tag.TAG_PARAMETERS)]
      [(ID.scene 1, Tag.TAG_PARAMETERS), (ID.scene 1, Tag.TAG_SCENE_COMPOSITOR),
        (ID.nodetree 10, Tag.TAG_COMPLETE)]
      (ID.scene 1) Tag.TAG_SCENE_COMPOSITOR (by decide)⟩

/-- C3: `build_scene_parameters` is idempotent: for every builder state and every
scene the first call returns, and a second call in the same pass returns and leaves the
graph (ID nodes, components, operations, time source) and the build-tag map exactly as
the first call left them. -/
theorem build_scene_parameters_idempotent (bmain : Main) (fuel : Nat) (scene : Scene)
    (s : BuilderState) (hfuel : bmain.nodetrees.length < fuel) :
    ∃ s1 s2, build_scene_parameters bmain fuel scene s = some s1 ∧
      build_scene_parameters bmain fuel scene s1 = some s2 ∧
      s2.id_nodes = s1.id_nodes ∧ s2.components = s1.components ∧
      s2.operations = s1.operations ∧ s2.time_source = s1.time_source ∧
      s2.built_map = s1.built_map := by
  obtain ⟨s1, h1⟩ := build_scene_parameters_returns bmain fuel scene s hfuel
  have hm := build_scene_parameters_marks bmain fuel scene s s1 h1
  exact ⟨s1, _, h1, build_scene_parameters_built bmain fuel scene s1 hm,
    rfl, rfl, rfl, rfl, rfl⟩

/-- Witness of C3: the scene with a node-tree in the database of two node-trees that
reference each other, on a fresh pass. -/
theorem build_scene_parameters_idempotent_witness :
    cyclic_bmain.nodetrees.length < 3 ∧
    ∃ s1 s2, build_scene_parameters cyclic_bmain 3 scene_comp BuilderState.fresh = some s1 ∧
      build_scene_parameters cyclic_bmain 3 scene_comp s1 = some s2 ∧
      s2.id_nodes = s1.id_nodes ∧ s2.components = s1.components ∧
      s2.operations = s1.operations ∧ s2.time_source = s1.time_source ∧
      s2.built_map = s1.built_map :=
  ⟨by decide,
    build_scene_parameters_idempotent cyclic_bmain 3 scene_comp BuilderState.fresh (by decide)⟩

/-- C4, as stated, fails: the scene below has R_DOCOMP clear, and after
`build_scene_render` on a fresh pass it has one SHADING/COMPOSITOR_EVAL operation and
its node-tree (at address 10) was expanded. -/
theorem build_scene_render_without_compositing_counterexample :
    scene_nocomp.r.scemode &&& sample_bits.R_DOCOMP = 0 ∧
    (build_scene_render sample_bits cyclic_bmain 3 scene_nocomp 0 BuilderState.fresh).map
      (fun s' => (compositor_ops scene_nocomp s', expansions 10 s')) = some (1, 1) := by
  decide

/-- C4, amended: `build_scene_render` itself enters `build_scene_compositor` only if
R_DOCOMP is set.  For every scene whose R_DOCOMP flag is clear, `build_scene_render` on
a fresh pass returns, and `build_scene_compositor` was entered once only (from
`build_scene_parameters`: one tag check with result `false`, none with result `true`);
if the node-tree is null the scene has no SHADING/COMPOSITOR_EVAL operation and no call
of the node-tree builder was made; if the scene has a node-tree it has exactly one such
operation and the tree was expanded exactly once. -/
theorem build_scene_render_without_compositing (bits : SceModeBits) (bmain : Main)
    (fuel : Nat) (scene : Scene) (view_layer : Nat) (hfuel : bmain.nodetrees.length < fuel)
    (hcomp : scene.r.scemode &&& bits.R_DOCOMP = 0) :
    ∃ s', build_scene_render bits bmain fuel scene view_layer BuilderState.fresh = some s' ∧
      s'.trace.count (Call.checkIsBuiltAndTag scene.id Tag.TAG_SCENE_COMPOSITOR false) = 1 ∧
      s'.trace.count (Call.checkIsBuiltAndTag scene.id Tag.TAG_SCENE_COMPOSITOR true) = 0 ∧
      (scene.nodetree = none →
        compositor_ops scene s' = 0 ∧ ∀ c ∈ s'.trace, c.isNodetreeCall = false) ∧
      (∀ T, scene.nodetree = some T →
        compositor_ops scene s' = 1 ∧ expansions T s' = 1 ∧ nodetree_ops T s' = 1) := by
  have hc : ¬ ((scene.r.scemode &&& bits.R_DOCOMP != 0) = true) := by simp [hcomp]
  cases hn : scene.nodetree with
  | none =>
    refine ⟨_, build_scene_render_fresh_none bits bmain fuel scene view_layer hn hcomp,
      ?_, ?_, ?_, ?_⟩
    · rw [render_tail_trace, List.count_append,
        count_render_tail _ _ _ _ (by simp) (by simp) (by simp) (by simp)]
      simp [build_scene_audio, List.count_append, count_markers, List.count_cons, Scene.id]
    · rw [render_tail_trace, List.count_append,
        count_render_tail _ _ _ _ (by simp) (by simp) (by simp) (by simp)]
      simp [build_scene_audio, List.count_append, count_markers, List.count_cons, Scene.id]
    · intro _
      constructor
      · unfold compositor_ops
        rw [render_tail_operations]
        simp [build_scene_audio]
      · intro c hc'
        rw [render_tail_trace] at hc'
        simp only [build_scene_audio, log_trace, build_markers_trace, List.mem_append,
          List.mem_cons, List.mem_singleton, List.mem_map, List.not_mem_nil, or_false] at hc'
        rcases hc' with ((h | ⟨m, _, rfl⟩) | rfl) | h
        · rcases h with rfl | rfl | rfl | rfl | rfl | rfl | rfl | rfl | rfl <;> rfl
        · rfl
        · rfl
        · exact render_tail_not_nodetree bits scene view_layer c h
    · intro T hT
      exact Option.noConfusion hT
  | some T =>
    obtain ⟨s1, s', hrun, hnt, hext, htag, hinv, hops, _, htrace⟩ :=
      build_scene_render_fresh_run bits bmain fuel scene view_layer T hfuel hn
    rw [if_neg hc] at htrace
    obtain ⟨he, ho⟩ := expansions_eq_one s1 T hinv htag
    refine ⟨s', hrun, ?_, ?_, ?_, ?_⟩
    · rw [htrace]
      simp only [List.count_append]
      rw [NtExt_count_trace hext
          (Call.checkIsBuiltAndTag scene.id Tag.TAG_SCENE_COMPOSITOR false) rfl,
        count_markers _ _ (by simp),
        count_render_tail _ _ _ _ (by simp) (by simp) (by simp) (by simp)]
      simp [compositor_entry, get_cow_datablock, parameters_entry, checkIsBuiltAndTag,
        build_parameters, build_idproperties, render_entry, build_animdata, add_time_source,
        set_linked_state, BuilderState.fresh, Scene.id, List.count_cons]
    · rw [htrace]
      simp only [List.count_append]
      rw [NtExt_count_trace hext
          (Call.checkIsBuiltAndTag scene.id Tag.TAG_SCENE_COMPOSITOR true) rfl,
        count_markers _ _ (by simp),
        count_render_tail _ _ _ _ (by simp) (by simp) (by simp) (by simp)]
      simp [compositor_entry, get_cow_datablock, parameters_entry, checkIsBuiltAndTag,
        build_parameters, build_idproperties, render_entry, build_animdata, add_time_source,
        set_linked_state, BuilderState.fresh, Scene.id, List.count_cons]
    · intro hT
      exact Option.noConfusion hT
    · intro T2 hT2
      have hTT : T2 = T := by injection hT2 with hT2; exact hT2.symm
      subst hTT
      refine ⟨?_, ?_, ?_⟩
      · unfold compositor_ops
        rw [hops]
        have := NtExt_compositor_ops hext scene
        unfold compositor_ops at this
        rw [this]
        simp [compositor_entry, get_cow_datablock, parameters_entry, checkIsBuiltAndTag,
          build_parameters, build_idproperties, render_entry, build_animdata, add_time_source,
          set_linked_state, BuilderState.fresh, Scene.id]
      · unfold expansions at he ⊢
        rw [htrace]
        simp only [List.count_append]
        rw [he, count_markers _ _ (by simp),
          count_render_tail _ _ _ _ (by simp) (by simp) (by simp) (by simp)]
        simp [List.count_cons]
      · unfold nodetree_ops at ho ⊢
        rw [hops, ho]

/-- Witness of the amended C4: the scene with a node-tree and R_DOCOMP clear. -/
theorem build_scene_render_without_compositing_witness :
    cyclic_bmain.nodetrees.length < 3 ∧
    scene_nocomp.r.scemode &&& sample_bits.R_DOCOMP = 0 ∧
    ∃ s', build_scene_render sample_bits cyclic_bmain 3 scene_nocomp 0 BuilderState.fresh
        = some s' ∧
      s'.trace.count
        (Call.checkIsBuiltAndTag scene_nocomp.id Tag.TAG_SCENE_COMPOSITOR false) = 1 ∧
      s'.trace.count
        (Call.checkIsBuiltAndTag scene_nocomp.id Tag.TAG_SCENE_COMPOSITOR true) = 0 ∧
      (scene_nocomp.nodetree = none →
        compositor_ops scene_nocomp s' = 0 ∧ ∀ c ∈ s'.trace, c.isNodetreeCall = false) ∧
      (∀ T, scene_nocomp.nodetree = some T →
        compositor_ops scene_nocomp s' = 1 ∧ expansions T s' = 1 ∧ nodetree_ops T s' = 1) :=
  ⟨by decide, by decide,
    build_scene_render_without_compositing sample_bits cyclic_bmain 3 scene_nocomp 0
      (by decide) (by decide)⟩

/-- C5: for every scene, whatever its mode flags, `build_scene_parameters` on a fresh
pass returns and enters `build_scene_compositor` (its tag check ran, with result
`false`).  If the scene has a non-null node-tree this creates the (scene, SHADING,
COMPOSITOR_EVAL) operation, bound to the evaluated copy of the scene, and builds the
node-tree: the tree was expanded once and has its shading operation.  The only gate is
whether a node-tree exists: with a null node-tree no such operation is created. -/
theorem build_scene_parameters_enters_compositor (bmain : Main) (fuel : Nat) (scene : Scene)
    (hfuel : bmain.nodetrees.length < fuel) :
    ∃ s', build_scene_parameters bmain fuel scene BuilderState.fresh = some s' ∧
      s'.trace.count (Call.checkIsBuiltAndTag scene.id Tag.TAG_SCENE_COMPOSITOR false) = 1 ∧
      (∀ T, scene.nodetree = some T →
        compositor_ops scene s' = 1 ∧
        (⟨scene.id, NodeType.SHADING, OperationCode.COMPOSITOR_EVAL,
          some (EvalCallback.BKE_scene_eval_compositor_nodetree scene.id)⟩ : OperationNode)
            ∈ s'.operations ∧
        expansions T s' = 1 ∧ nodetree_ops T s' = 1) ∧
      (scene.nodetree = none → compositor_ops scene s' = 0) := by
  cases hn : scene.nodetree with
  | none =>
    have hp : (scene.id, Tag.TAG_PARAMETERS) ∉ BuilderState.fresh.built_map := by
      simp [BuilderState.fresh]
    refine ⟨_, by
      rw [build_scene_parameters_new bmain fuel scene _ hp,
        build_scene_compositor_new_none bmain fuel scene _
          (by rw [parameters_entry_built_map scene _ hp]; simp [BuilderState.fresh]) hn]
      rfl, ?_, ?_, ?_⟩
    · rw [build_markers_trace, List.count_append, count_markers _ _ (by simp)]
      simp [parameters_entry, checkIsBuiltAndTag, build_parameters, build_idproperties,
        BuilderState.fresh, Scene.id, List.count_cons]
    · intro T hT
      exact Option.noConfusion hT
    · intro _
      unfold compositor_ops
      rw [build_markers_operations]
      simp [parameters_entry, checkIsBuiltAndTag, build_parameters, build_idproperties,
        BuilderState.fresh, Scene.id]
  | some T =>
    obtain ⟨s1, h1, _, hext, htag, hinv⟩ := build_scene_parameters_run bmain fuel scene
      BuilderState.fresh T hfuel (by simp [BuilderState.fresh]) (by simp [BuilderState.fresh])
      hn
    have hinv0 :
        NtInv (compositor_entry scene (parameters_entry scene BuilderState.fresh)) := by
      apply NtInv_of_none
      · intro c hc
        simp [compositor_entry, get_cow_datablock, parameters_entry, checkIsBuiltAndTag,
          build_parameters, build_idproperties, BuilderState.fresh, Scene.id] at hc
        rcases hc with rfl | rfl | rfl | rfl | rfl | rfl | rfl | rfl | rfl <;> rfl
      · intro o ho
        simp [compositor_entry, get_cow_datablock, parameters_entry, checkIsBuiltAndTag,
          build_parameters, build_idproperties, BuilderState.fresh, Scene.id] at ho
        rcases ho with rfl | rfl <;> rfl
      · intro p hp
        simp [compositor_entry, get_cow_datablock, parameters_entry, checkIsBuiltAndTag,
          build_parameters, build_idproperties, BuilderState.fresh, Scene.id] at hp
        rcases hp with rfl | rfl <;> rfl
    obtain ⟨he, ho⟩ := expansions_eq_one s1 T (hinv hinv0) htag
    refine ⟨_, h1, ?_, ?_, ?_⟩
    · rw [build_markers_trace, List.count_append,
        NtExt_count_trace hext
          (Call.checkIsBuiltAndTag scene.id Tag.TAG_SCENE_COMPOSITOR false) rfl,
        count_markers _ _ (by simp)]
      simp [compositor_entry, get_cow_datablock, parameters_entry, checkIsBuiltAndTag,
        build_parameters, build_idproperties, BuilderState.fresh, Scene.id, List.count_cons]
    · intro T2 hT2
      have hTT : T2 = T := by injection hT2 with hT2; exact hT2.symm
      subst hTT
      refine ⟨?_, ?_, ?_, ?_⟩
      · unfold compositor_ops
        rw [build_markers_operations]
        have := NtExt_compositor_ops hext scene
        unfold compositor_ops at this
        rw [this]
        simp [compositor_entry, get_cow_datablock, parameters_entry, checkIsBuiltAndTag,
          build_parameters, build_idproperties, BuilderState.fresh, Scene.id]
      · rw [build_markers_operations]
        obtain ⟨l, e, _⟩ := hext.operations_ext
        rw [e]
        apply List.mem_append_left
        simp [compositor_entry]
      · unfold expansions at he ⊢
        rw [build_markers_trace, List.count_append, he, count_markers _ _ (by simp)]
      · unfold nodetree_ops at ho ⊢
        rw [build_markers_operations, ho]
    · intro hT
      exact Option.noConfusion hT

/-- Witness of C5: the scene with a node-tree and the compositing flag clear. -/
theorem build_scene_parameters_enters_compositor_witness :
    cyclic_bmain.nodetrees.length < 3 ∧
    ∃ s', build_scene_parameters cyclic_bmain 3 scene_nocomp BuilderState.fresh = some s' ∧
      s'.trace.count
        (Call.checkIsBuiltAndTag scene_nocomp.id Tag.TAG_SCENE_COMPOSITOR false) = 1 ∧
      (∀ T, scene_nocomp.nodetree = some T →
        compositor_ops scene_nocomp s' = 1 ∧
        (⟨scene_nocomp.id, NodeType.SHADING, OperationCode.COMPOSITOR_EVAL,
          some (EvalCallback.BKE_scene_eval_compositor_nodetree scene_nocomp.id)⟩ :
            OperationNode) ∈ s'.operations ∧
        expansions T s' = 1 ∧ nodetree_ops T s' = 1) ∧
      (scene_nocomp.nodetree = none → compositor_ops scene_nocomp s' = 0) :=
  ⟨by decide,
    build_scene_parameters_enters_compositor cyclic_bmain 3 scene_nocomp (by decide)⟩

/-- C6: for every scene whose node-tree is null, `build_scene_compositor` returns for
every fuel (no error) and is a no-op on the graph: ID nodes, components, operations and
time source are unchanged, and the only call made is the tag check, so the evaluated
copy is not resolved, no operation is added and `build_nodetree` is not called. -/
theorem build_scene_compositor_null_nodetree (bmain : Main) (fuel : Nat) (scene : Scene)
    (s : BuilderState) (h : scene.nodetree = none) :
    ∃ s', build_scene_compositor bmain fuel scene s = some s' ∧
      s'.id_nodes = s.id_nodes ∧ s'.components = s.components ∧
      s'.operations = s.operations ∧ s'.time_source = s.time_source ∧
      s'.trace = s.trace ++ [Call.checkIsBuiltAndTag scene.id Tag.TAG_SCENE_COMPOSITOR
        (decide ((scene.id, Tag.TAG_SCENE_COMPOSITOR) ∈ s.built_map))] := by
  by_cases hb : (scene.id, Tag.TAG_SCENE_COMPOSITOR) ∈ s.built_map
  · exact ⟨_, build_scene_compositor_built bmain fuel scene s hb, rfl, rfl, rfl, rfl,
      by simp [hb]⟩
  · exact ⟨_, build_scene_compositor_new_none bmain fuel scene s hb h, rfl, rfl, rfl, rfl,
      by simp [hb]⟩

/-- Witness of C6: the scene without node-tree, on a fresh pass, with no fuel. -/
theorem build_scene_compositor_null_nodetree_witness :
    scene_plain.nodetree = none ∧
    ∃ s', build_scene_compositor cyclic_bmain 0 scene_plain BuilderState.fresh = some s' ∧
      s'.id_nodes = BuilderState.fresh.id_nodes ∧
      s'.components = BuilderState.fresh.components ∧
      s'.operations = BuilderState.fresh.operations ∧
      s'.time_source = BuilderState.fresh.time_source ∧
      s'.trace = BuilderState.fresh.trace ++
        [Call.checkIsBuiltAndTag scene_plain.id Tag.TAG_SCENE_COMPOSITOR
          (decide ((scene_plain.id, Tag.TAG_SCENE_COMPOSITOR) ∈
            BuilderState.fresh.built_map))] :=
  ⟨rfl, build_scene_compositor_null_nodetree cyclic_bmain 0 scene_plain BuilderState.fresh rfl⟩

/-- C7: after `build_scene_render` the scene's ID node has linked state DIRECTLY,
whatever the builder state (and so whatever the linked state of the scene) was before
the call. -/
theorem build_scene_render_linked_directly (bits : SceModeBits) (bmain : Main) (fuel : Nat)
    (scene : Scene) (view_layer : Nat) (s : BuilderState)
    (hfuel : bmain.nodetrees.length < fuel) :
    ∃ s', build_scene_render bits bmain fuel scene view_layer s = some s' ∧
      linked_state_of scene.id s' = some eDepsNode_LinkedState.DEG_ID_LINKED_DIRECTLY := by
  obtain ⟨s', h, g⟩ := build_scene_render_returns bits bmain fuel scene view_layer s hfuel
  exact ⟨s', h, g.2 _ (linked_state_of_render_entry scene view_layer s)⟩

/-- Witness of C7: the scene is first registered as indirectly linked, then rendered. -/
theorem build_scene_render_linked_directly_witness :
    cyclic_bmain.nodetrees.length < 3 ∧
    ∃ s', build_scene_render sample_bits cyclic_bmain 3 scene_comp 0
        (add_id_node scene_comp.id BuilderState.fresh).2 = some s' ∧
      linked_state_of scene_comp.id s' = some eDepsNode_LinkedState.DEG_ID_LINKED_DIRECTLY :=
  ⟨by decide,
    build_scene_render_linked_directly sample_bits cyclic_bmain 3 scene_comp 0
      (add_id_node scene_comp.id BuilderState.fresh).2 (by decide)⟩

/-- C11: for every entity `E`, a second `add_id_node E` request later in the pass (in
any state whose registry extends the one the first request left) returns the identical
ID node, the one at the same place of the registry, and registers nothing; a request
never makes the registry smaller, it adds at most one node, later states only hold
more nodes, and a registry with at most one ID node per entity stays so. -/
theorem add_id_node_idempotent (E : ID) (s t : BuilderState)
    (hs : (s.id_nodes.map (·.id_orig)).Nodup)
    (ht : RegistryGrows (add_id_node E s).2 t) :
    (add_id_node E t).1 = (add_id_node E s).1 ∧
    (add_id_node E t).2.id_nodes = t.id_nodes ∧
    ((add_id_node E s).2.id_nodes.map (·.id_orig)).Nodup ∧
    ((add_id_node E s).2.id_nodes.filter (fun n => decide (n.id_orig = E))).length = 1 ∧
    s.id_nodes.length ≤ (add_id_node E s).2.id_nodes.length ∧
    (add_id_node E s).2.id_nodes.length ≤ s.id_nodes.length + 1 ∧
    (add_id_node E s).2.id_nodes.length ≤ t.id_nodes.length := by
  obtain ⟨k, hk⟩ := ht
  have hfound := find_id_node_add_id_node E s
  have hfound_t := find_id_node_of_map_append E _ _ _ k hfound hk
  have hnodup := add_id_node_nodup E s hs
  refine ⟨?_, ?_, hnodup, ?_, add_id_node_length E s, ?_, ?_⟩
  · rw [add_id_node_fst_of_found E t _ hfound_t]
  · rw [add_id_node_fst_of_found E t _ hfound_t]
    rfl
  · have hmem : E ∈ (add_id_node E s).2.id_nodes.map (·.id_orig) := by
      by_contra hc
      rw [(find_id_node_eq_none E _).2 hc] at hfound
      exact Option.noConfusion hfound
    have hc := List.count_eq_one_of_mem hnodup hmem
    rw [List.count_eq_countP, List.countP_map, List.countP_eq_length_filter] at hc
    rw [← hc]
    congr 2
  · rw [add_id_node_id_nodes]
    split <;> simp
  · have := congrArg List.length hk
    simp only [List.length_map, List.length_append] at this
    omega

/-- Witness of C11: the scene is registered on a fresh pass, an object is registered,
and the scene is requested again. -/
theorem add_id_node_idempotent_witness :
    (BuilderState.fresh.id_nodes.map (·.id_orig)).Nodup ∧
    RegistryGrows (add_id_node (ID.scene 1) BuilderState.fresh).2
      (add_id_node (ID.object 5) (add_id_node (ID.scene 1) BuilderState.fresh).2).2 ∧
    (add_id_node (ID.scene 1)
        (add_id_node (ID.object 5) (add_id_node (ID.scene 1) BuilderState.fresh).2).2).1
      = (add_id_node (ID.scene 1) BuilderState.fresh).1 ∧
    (add_id_node (ID.scene 1)
        (add_id_node (ID.object 5)
          (add_id_node (ID.scene 1) BuilderState.fresh).2).2).2.id_nodes
      = (add_id_node (ID.object 5) (add_id_node (ID.scene 1) BuilderState.fresh).2).2.id_nodes ∧
    ((add_id_node (ID.scene 1) BuilderState.fresh).2.id_nodes.map (·.id_orig)).Nodup ∧
    ((add_id_node (ID.scene 1) BuilderState.fresh).2.id_nodes.filter
      (fun n => decide (n.id_orig = ID.scene 1))).length = 1 ∧
    BuilderState.fresh.id_nodes.length
      ≤ (add_id_node (ID.scene 1) BuilderState.fresh).2.id_nodes.length ∧
    (add_id_node (ID.scene 1) BuilderState.fresh).2.id_nodes.length
      ≤ BuilderState.fresh.id_nodes.length + 1 ∧
    (add_id_node (ID.scene 1) BuilderState.fresh).2.id_nodes.length
      ≤ (add_id_node (ID.object 5)
          (add_id_node (ID.scene 1) BuilderState.fresh).2).2.id_nodes.length :=
  have hs : (BuilderState.fresh.id_nodes.map (·.id_orig)).Nodup := by decide
  have ht : RegistryGrows (add_id_node (ID.scene 1) BuilderState.fresh).2
      (add_id_node (ID.object 5) (add_id_node (ID.scene 1) BuilderState.fresh).2).2 :=
    ⟨[ID.object 5], by decide⟩
  ⟨hs, ht, add_id_node_idempotent (ID.scene 1) BuilderState.fresh _ hs ht⟩

/-- C12: `build_scene_render` calls `build_scene_sequencer` and then
`build_scene_speakers` if and only if the scene's sequencer flag (R_DOSEQ) is set.  From
any builder state the render returns, and the calls it made are: calls `pre` that are
no sequencer or speakers call; then, with the flag set, `build_scene_sequencer`
directly followed by `build_scene_speakers`, and with the flag clear nothing; then
calls `post` that are no sequencer or speakers call. -/
theorem build_scene_render_sequencer (bits : SceModeBits) (bmain : Main) (fuel : Nat)
    (scene : Scene) (view_layer : Nat) (s : BuilderState)
    (hfuel : bmain.nodetrees.length < fuel) :
    ∃ s' pre post, build_scene_render bits bmain fuel scene view_layer s = some s' ∧
      (∀ c ∈ pre, c.notSequencer = true) ∧ (∀ c ∈ post, c.notSequencer = true) ∧
      (scene.r.scemode &&& bits.R_DOSEQ ≠ 0 →
        s'.trace = s.trace ++ pre ++
          [Call.build_scene_sequencer scene.addr,
           Call.build_scene_speakers scene.addr view_layer] ++ post) ∧
      (scene.r.scemode &&& bits.R_DOSEQ = 0 → s'.trace = s.trace ++ pre ++ post) := by
  obtain ⟨s2, s', hrun, hs', _, l, hl, hp⟩ :=
    build_scene_render_calls bits bmain fuel scene view_layer s hfuel
  refine ⟨s', l,
    (if scene.r.scemode &&& bits.R_DOSEQ != 0 then speaker_calls scene.speakers else []) ++
      camera_calls scene,
    hrun, fun c hc => (hp c hc).1, ?_, ?_, ?_⟩
  · intro c hc
    rcases List.mem_append.mp hc with h | h
    · split at h
      · exact speaker_calls_notSequencer _ c h
      · simp at h
    · exact camera_calls_notSequencer scene c h
  · intro hseq
    have hb : (scene.r.scemode &&& bits.R_DOSEQ != 0) = true := by simpa using hseq
    rw [hs', render_camera_trace, render_sequencer_trace, hl, sequencer_calls, if_pos hb,
      if_pos hb]
    simp only [List.append_assoc]
  · intro hseq
    have hb : ¬ ((scene.r.scemode &&& bits.R_DOSEQ != 0) = true) := by simp [hseq]
    rw [hs', render_camera_trace, render_sequencer_trace, hl, sequencer_calls, if_neg hb,
      if_neg hb]
    simp

/-- Witness of C12: the scene with the sequencer flag set, on a fresh pass. -/
theorem build_scene_render_sequencer_witness :
    cyclic_bmain.nodetrees.length < 3 ∧
    ∃ s' pre post,
      build_scene_render sample_bits cyclic_bmain 3 scene_seq 0 BuilderState.fresh = some s' ∧
      (∀ c ∈ pre, c.notSequencer = true) ∧ (∀ c ∈ post, c.notSequencer = true) ∧
      (scene_seq.r.scemode &&& sample_bits.R_DOSEQ ≠ 0 →
        s'.trace = BuilderState.fresh.trace ++ pre ++
          [Call.build_scene_sequencer scene_seq.addr,
           Call.build_scene_speakers scene_seq.addr 0] ++ post) ∧
      (scene_seq.r.scemode &&& sample_bits.R_DOSEQ = 0 →
        s'.trace = BuilderState.fresh.trace ++ pre ++ post) :=
  ⟨by decide,
    build_scene_render_sequencer sample_bits cyclic_bmain 3 scene_seq 0 BuilderState.fresh
      (by decide)⟩

end Deg

/-! ## Results on the OptiX device queue -/

namespace Optix

/-- C14, as stated, fails: the surface shading kernel is none of the four OptiX-specific
kernels, and with a working driver `enqueue` returns `true` for it; the kernel is
launched through the parent queue and no error is logged. -/
theorem enqueue_other_kernel_counterexample :
    is_optix_specific_kernel DeviceKernel.DEVICE_KERNEL_INTEGRATOR_SHADE_SURFACE = false ∧
    enqueue working_driver DeviceKernel.DEVICE_KERNEL_INTEGRATOR_SHADE_SURFACE 64 [100, 200]
        { have_error := false, events := [] }
      = (true, { have_error := false,
                 events := [Event.cuda_enqueue
                   DeviceKernel.DEVICE_KERNEL_INTEGRATOR_SHADE_SURFACE 64 [100, 200]] }) := by
  decide

/-- C14, amended: `OptiXDeviceQueue::enqueue`, given any kernel other than the four
OptiX-specific ones, hands the request to `CUDADeviceQueue::enqueue` and returns what
that returns: it logs no error of its own and launches nothing through OptiX.  The
default case of the launch `switch`, which logs the error and returns `false`, is the
case of those kernels alone, so no kernel that passes the guard reaches it. -/
theorem enqueue_other_kernel (drv : Driver) (kernel : DeviceKernel) (work_size : Int)
    (args : List Nat) (dev : Device) (h : is_optix_specific_kernel kernel = false) :
    enqueue drv kernel work_size args dev
        = drv.CUDADeviceQueue_enqueue kernel work_size args dev ∧
      select_pipeline kernel = none ∧
      ∀ k, is_optix_specific_kernel k = true → select_pipeline k ≠ none := by
  refine ⟨by simp [enqueue, h], ?_, ?_⟩
  · revert h
    cases kernel <;> decide
  · intro k
    cases k <;> decide

/-- Witness of the amended C14: the surface shading kernel with a working driver. -/
theorem enqueue_other_kernel_witness :
    is_optix_specific_kernel DeviceKernel.DEVICE_KERNEL_INTEGRATOR_SHADE_SURFACE = false ∧
    enqueue working_driver DeviceKernel.DEVICE_KERNEL_INTEGRATOR_SHADE_SURFACE 64 [100, 200]
        { have_error := false, events := [] }
        = working_driver.CUDADeviceQueue_enqueue
            DeviceKernel.DEVICE_KERNEL_INTEGRATOR_SHADE_SURFACE 64 [100, 200]
            { have_error := false, events := [] } ∧
      select_pipeline DeviceKernel.DEVICE_KERNEL_INTEGRATOR_SHADE_SURFACE = none ∧
      ∀ k, is_optix_specific_kernel k = true → select_pipeline k ≠ none :=
  ⟨by decide,
    enqueue_other_kernel working_driver DeviceKernel.DEVICE_KERNEL_INTEGRATOR_SHADE_SURFACE 64
      [100, 200] { have_error := false, events := [] } (by decide)⟩

/-- C22: in `OptiXDeviceQueue::enqueue` every kernel that passes the
`is_optix_specific_kernel` test has one of the four pipeline cases of the `switch`, so
the call never takes the case that logs the invalid kernel: with an error already set on
the device it returns `false` at once and does nothing, and otherwise what it does ends
with the launch of the pipeline and ray-generation record of that case, after steps
that are neither the error log nor a launch. -/
theorem enqueue_invalid_kernel_unreachable (drv : Driver) (kernel : DeviceKernel)
    (work_size : Int) (args : List Nat) (dev : Device)
    (h : is_optix_specific_kernel kernel = true) :
    ∃ pipeline raygen, select_pipeline kernel = some (pipeline, raygen) ∧
      (dev.have_error = true → enqueue drv kernel work_size args dev = (false, dev)) ∧
      (dev.have_error = false →
        ∃ pre, (enqueue drv kernel work_size args dev).2.events
            = dev.events ++ pre ++ [Event.optixLaunch pipeline raygen work_size] ∧
          Event.log_error_invalid_kernel ∉ pre ∧
          (∀ p r w, Event.optixLaunch p r w ∉ pre) ∧
          (enqueue drv kernel work_size args dev).1
            = !(enqueue drv kernel work_size args dev).2.have_error) := by
  have hsome : (select_pipeline kernel).isSome = true := by
    revert h
    cases kernel <;> decide
  obtain ⟨⟨pipeline, raygen⟩, hsel⟩ := Option.isSome_iff_exists.mp hsome
  refine ⟨pipeline, raygen, hsel, fun he => ?_, fun he => ?_⟩
  · simp [enqueue, h, he]
  · by_cases hk : kernel = DeviceKernel.DEVICE_KERNEL_INTEGRATOR_SHADE_SURFACE_RAYTRACE
    · subst hk
      refine ⟨[Event.debug_enqueue DeviceKernel.DEVICE_KERNEL_INTEGRATOR_SHADE_SURFACE_RAYTRACE
          work_size, Event.copy_path_index_array args[0]?,
        Event.copy_render_buffer args[1]?, Event.stream_synchronize], ?_, ?_, ?_, ?_⟩ <;>
        simp [enqueue, h, he, hsel, device_assert]
    · refine ⟨[Event.debug_enqueue kernel work_size, Event.copy_path_index_array args[0]?,
        Event.stream_synchronize], ?_, ?_, ?_, ?_⟩ <;>
        simp [enqueue, h, he, hsel, device_assert, hk]

theorem enqueue_invalid_kernel_unreachable_witness :
    is_optix_specific_kernel DeviceKernel.DEVICE_KERNEL_INTEGRATOR_INTERSECT_SHADOW = true ∧
    ∃ pipeline raygen,
      select_pipeline DeviceKernel.DEVICE_KERNEL_INTEGRATOR_INTERSECT_SHADOW
        = some (pipeline, raygen) ∧
      ((Device.mk false []).have_error = true →
        enqueue working_driver DeviceKernel.DEVICE_KERNEL_INTEGRATOR_INTERSECT_SHADOW 64
          [100, 200] (Device.mk false []) = (false, Device.mk false [])) ∧
      ((Device.mk false []).have_error = false →
        ∃ pre, (enqueue working_driver DeviceKernel.DEVICE_KERNEL_INTEGRATOR_INTERSECT_SHADOW
              64 [100, 200] (Device.mk false [])).2.events
            = (Device.mk false []).events ++ pre ++
              [Event.optixLaunch pipeline raygen 64] ∧
          Event.log_error_invalid_kernel ∉ pre ∧
          (∀ p r w, Event.optixLaunch p r w ∉ pre) ∧
          (enqueue working_driver DeviceKernel.DEVICE_KERNEL_INTEGRATOR_INTERSECT_SHADOW
              64 [100, 200] (Device.mk false [])).1
            = !(enqueue working_driver DeviceKernel.DEVICE_KERNEL_INTEGRATOR_INTERSECT_SHADOW
              64 [100, 200] (Device.mk false [])).2.have_error) :=
  ⟨by decide,
    enqueue_invalid_kernel_unreachable working_driver
      DeviceKernel.DEVICE_KERNEL_INTEGRATOR_INTERSECT_SHADOW 64 [100, 200]
      (Device.mk false []) (by decide)⟩

end Optix

/-! ## Results on the cache library -/

namespace CacheLib

/-- A fold in `Option` returns, with an invariant kept, when every step does. -/
theorem foldlM_some_of_forall {α β : Type} (f : β → α → Option β) (P : β → Prop)
    (l : List α) (b : β) (hb : P b)
    (h : ∀ b a, a ∈ l → P b → ∃ b', f b a = some b' ∧ P b') :
    ∃ b', l.foldlM f b = some b' ∧ P b' := by
  induction l generalizing b with
  | nil => exact ⟨b, rfl, hb⟩
  | cons a rest ih =>
    obtain ⟨b1, h1, p1⟩ := h b a (List.mem_cons_self a rest) hb
    obtain ⟨b2, h2, p2⟩ := ih b1 p1 (fun b a ha => h b a (List.mem_cons_of_mem _ ha))
    exact ⟨b2, by simp [List.foldlM_cons, h1, h2], p2⟩

/-- Enough fuel gives a result, and the levels of the calls stay within bounds. -/
theorem cache_library_tag_recursive_returns (c : Defines) :
    ∀ (fuel level ob : Nat) (s : TagState),
      c.MAX_CACHE_GROUP_LEVEL + 1 < fuel + level → level ≤ c.MAX_CACHE_GROUP_LEVEL + 1 →
      ∃ s' new, cache_library_tag_recursive c fuel level ob s = some s' ∧
        s'.calls = s.calls ++ new ∧
        ∀ p ∈ new, level ≤ p.1 ∧ p.1 ≤ c.MAX_CACHE_GROUP_LEVEL + 1 := by
  intro fuel
  induction fuel with
  | zero => intro level ob s h1 h2; omega
  | succ n ih =>
    intro level ob s hfuel hlevel
    have base : ∀ p ∈ [(level, ob)], level ≤ p.1 ∧ p.1 ≤ c.MAX_CACHE_GROUP_LEVEL + 1 := by
      intro p hp
      simp only [List.mem_singleton] at hp
      subst hp
      exact ⟨le_refl _, hlevel⟩
    unfold cache_library_tag_recursive
    simp only []
    split
    · exact ⟨_, [(level, ob)], rfl, rfl, base⟩
    · rename_i hlv
      split
      · exact ⟨_, [(level, ob)], rfl, rfl, base⟩
      · split
        · split
          · exact ⟨_, [(level, ob)], rfl, rfl, base⟩
          · rename_i gobject _
            have key := foldlM_some_of_forall
              (fun s gob_ob =>
                match s.objects[ob]? with
                | none => some s
                | some o =>
                  if o.flag &&& c.LIB_DOIT = 0 then
                    cache_library_tag_recursive c n (level + 1) gob_ob
                      { s with
                        objects := s.objects.set ob { o with flag := o.flag ||| c.LIB_DOIT } }
                  else some s)
              (fun b : TagState => ∃ new, b.calls = s.calls ++ new ∧
                ∀ p ∈ new, level ≤ p.1 ∧ p.1 ≤ c.MAX_CACHE_GROUP_LEVEL + 1)
              gobject
              { s with calls := s.calls ++ [(level, ob)] }
              ⟨[(level, ob)], rfl, base⟩
              (by
                intro b a _ hP
                obtain ⟨new, hnew, hbound⟩ := hP
                simp only []
                split
                · exact ⟨b, rfl, new, hnew, hbound⟩
                · split
                  · obtain ⟨s', new2, hrun, hcalls, hb2⟩ := ih (level + 1) a
                      { b with objects := b.objects.set ob _ } (by omega) (by omega)
                    refine ⟨s', hrun, new ++ new2, ?_, ?_⟩
                    · rw [hcalls]
                      simp only [hnew, List.append_assoc]
                    · intro p hp
                      rcases List.mem_append.mp hp with h | h
                      · exact hbound p h
                      · have := hb2 p h
                        omega
                  · exact ⟨b, rfl, new, hnew, hbound⟩)
            obtain ⟨s', hs', new, hnew, hbound⟩ := key
            exact ⟨s', new, hs', hnew, hbound⟩
        · exact ⟨_, [(level, ob)], rfl, rfl, base⟩

/-- A call on a container that already has the tag changes no object and calls
nothing. -/
theorem cache_library_tag_recursive_tagged (c : Defines) (fuel level ob : Nat) (s : TagState)
    (h : tagged c s.objects ob = true) :
    cache_library_tag_recursive c (fuel + 1) level ob s =
      some { s with calls := s.calls ++ [(level, ob)] } := by
  unfold tagged at h
  unfold cache_library_tag_recursive
  simp only []
  split
  · rfl
  · split
    · rfl
    · rename_i o ho
      split
      · split
        · rfl
        · rename_i gobject _
          have key := foldlM_some_of_forall
            (fun s gob_ob =>
              match s.objects[ob]? with
              | none => some s
              | some o =>
                if o.flag &&& c.LIB_DOIT = 0 then
                  cache_library_tag_recursive c fuel (level + 1) gob_ob
                    { s with
                      objects := s.objects.set ob { o with flag := o.flag ||| c.LIB_DOIT } }
                else some s)
            (fun b : TagState => b = { s with calls := s.calls ++ [(level, ob)] })
            gobject
            { s with calls := s.calls ++ [(level, ob)] }
            rfl
            (by
              intro b a _ hb
              subst hb
              refine ⟨_, ?_, rfl⟩
              simp only [] at ho ⊢
              rw [ho]
              rw [ho] at h
              simp only [bne_iff_ne, ne_eq] at h
              simp [h])
          obtain ⟨s', hs', rfl⟩ := key
          exact hs'
      · rfl

/-- Equal strings that each split at their first underscore split the same way. -/
theorem append_cons_inj_of_not_mem {α : Type} (c : α) :
    ∀ (a b x y : List α), c ∉ a → c ∉ b → a ++ c :: x = b ++ c :: y → a = b ∧ x = y := by
  intro a
  induction a with
  | nil =>
    intro b x y _ hb h
    cases b with
    | nil => simpa using h
    | cons d b =>
      simp only [List.nil_append, List.cons_append, List.cons.injEq] at h
      exact absurd (by rw [h.1]; exact List.mem_cons_self _ _) hb
  | cons e a ih =>
    intro b x y ha hb h
    cases b with
    | nil =>
      simp only [List.nil_append, List.cons_append, List.cons.injEq] at h
      exact absurd (by rw [← h.1]; exact List.mem_cons_self _ _) ha
    | cons d b =>
      simp only [List.cons_append, List.cons.injEq] at h
      obtain ⟨r1, r2⟩ := ih b x y (fun hc => ha (List.mem_cons_of_mem _ hc))
        (fun hc => hb (List.mem_cons_of_mem _ hc)) h.2
      exact ⟨by rw [h.1, r1], r2⟩

theorem digitChar_inj : ∀ a < 10, ∀ b < 10, Nat.digitChar a = Nat.digitChar b → a = b := by
  decide

theorem digitChar_ne_underscore : ∀ a < 10, Nat.digitChar a ≠ '_' := by decide

theorem digitChar_ne_zero_char : ∀ a < 10, a ≠ 0 → Nat.digitChar a ≠ '0' := by decide

theorem map_digitChar_inj : ∀ (l m : List Nat), (∀ d ∈ l, d < 10) → (∀ d ∈ m, d < 10) →
    l.map Nat.digitChar = m.map Nat.digitChar → l = m := by
  intro l
  induction l with
  | nil => intro m _ _ h; cases m with
    | nil => rfl
    | cons _ _ => simp at h
  | cons a l ih =>
    intro m hl hm h
    cases m with
    | nil => simp at h
    | cons b m =>
      simp only [List.map_cons, List.cons.injEq] at h
      have e1 := digitChar_inj a (hl a (List.mem_cons_self _ _)) b
        (hm b (List.mem_cons_self _ _)) h.1
      have e2 := ih m (fun d hd => hl d (List.mem_cons_of_mem _ hd))
        (fun d hd => hm d (List.mem_cons_of_mem _ hd)) h.2
      rw [e1, e2]

theorem decimal_not_underscore (n : Nat) : '_' ∉ decimal n := by
  unfold decimal
  split
  · decide
  · intro h
    simp only [List.mem_map, List.mem_reverse] at h
    obtain ⟨d, hd, he⟩ := h
    exact digitChar_ne_underscore d (Nat.digits_lt_base (by norm_num) hd) he

theorem decimal_injective (n m : Nat) (h : decimal n = decimal m) : n = m := by
  have hlt : ∀ k : Nat, ∀ d ∈ (Nat.digits 10 k).reverse, d < 10 := fun k d hd =>
    Nat.digits_lt_base (by norm_num) (List.mem_reverse.mp hd)
  have hne : ∀ k : Nat, k ≠ 0 →
      (Nat.digits 10 k).reverse.map Nat.digitChar ≠ ['0'] := by
    intro k hk he
    have hlast := Nat.getLast_digit_ne_zero 10 hk
    have hnil : Nat.digits 10 k ≠ [] := Nat.digits_ne_nil_iff_ne_zero.mpr hk
    cases hr : (Nat.digits 10 k).reverse with
    | nil => simp [hr] at he
    | cons a r =>
      rw [hr] at he
      simp only [List.map_cons, List.cons.injEq, List.map_eq_nil_iff] at he
      have ha : a < 10 := hlt k a (by rw [hr]; exact List.mem_cons_self _ _)
      have hlast2 : (Nat.digits 10 k).getLast hnil = a := by
        have : Nat.digits 10 k = (a :: r).reverse := by rw [← hr, List.reverse_reverse]
        simp [this]
      rw [hlast2] at hlast
      exact digitChar_ne_zero_char a ha hlast he.1
  unfold decimal at h
  by_cases hn : n = 0 <;> by_cases hm : m = 0
  · rw [hn, hm]
  · simp only [hn, hm, if_true, if_false] at h
    exact absurd h.symm (hne m hm)
  · simp only [hn, hm, if_true, if_false] at h
    exact absurd h (hne n hn)
  · simp only [hn, hm, if_false] at h
    have := map_digitChar_inj _ _ (hlt n) (hlt m) h
    exact Nat.digits.injective 10 (List.reverse_injective this)

theorem prefix_not_underscore (t : CacheType) (p : List Char)
    (h : BKE_cache_item_name_prefix t = some p) : '_' ∉ p := by
  cases t <;> simp only [ BKE_cache_item_name_prefix, Option.some.injEq, reduceCtorEq] at h <;>
    (subst h; decide)

theorem prefix_injective (t u : CacheType) (p : List Char)
    (ht : BKE_cache_item_name_prefix t = some p) (hu : BKE_cache_item_name_prefix u = some p) :
    t = u := by
  cases t <;> cases u <;>
    simp only [ BKE_cache_item_name_prefix, Option.some.injEq, reduceCtorEq] at ht hu <;>
    first
    | rfl
    | (subst ht; revert hu; decide)

/-- Equal strings that each split at their last underscore split the same way. -/
theorem append_cons_inj_of_not_mem_right {α : Type} (c : α) (a b x y : List α)
    (hx : c ∉ x) (hy : c ∉ y) (h : a ++ c :: x = b ++ c :: y) : a = b ∧ x = y := by
  have hr : x.reverse ++ c :: a.reverse = y.reverse ++ c :: b.reverse := by
    have := congrArg List.reverse h
    simpa using this
  obtain ⟨r1, r2⟩ := append_cons_inj_of_not_mem c _ _ _ _
    (by simpa using hx) (by simpa using hy) hr
  exact ⟨List.reverse_injective r2, List.reverse_injective r1⟩

/-- C15, at the failing input: object 0 belongs to cache library 1 and instances a
group whose members are the plain objects 1 and 2.  The list that
`BKE_cache_library_make_object_list` fills, starting empty, holds object 0 alone: the
loop of `cache_library_tag_recursive` sets the tag on the container `ob` where the members
`gob->ob` were meant, so neither member of the group is in the list. -/
theorem make_object_list_misses_members :
    (BKE_cache_library_make_object_list sample_defines 10 group_of_two (some 1) []).map
        Prod.snd = some [0] ∧
      (group_of_two.get? 0).map Object.dup_group = some (some [1, 2]) := by
  decide

/-- C16: `cache_library_tag_recursive`, started at a level of at most
`MAX_CACHE_GROUP_LEVEL + 1` with fuel for the levels that remain, returns on every object
graph; every call it makes has a level between the starting level and
`MAX_CACHE_GROUP_LEVEL + 1`; and on a container whose tag is already set it changes no
object and makes no recursive call. -/
theorem cache_library_tag_recursive_terminates (c : Defines) (fuel level ob : Nat)
    (s : TagState) (hfuel : c.MAX_CACHE_GROUP_LEVEL + 1 < fuel + level)
    (hlevel : level ≤ c.MAX_CACHE_GROUP_LEVEL + 1) :
    ∃ s' new, cache_library_tag_recursive c fuel level ob s = some s' ∧
      s'.calls = s.calls ++ new ∧
      (∀ p ∈ new, level ≤ p.1 ∧ p.1 ≤ c.MAX_CACHE_GROUP_LEVEL + 1) ∧
      (tagged c s.objects ob = true → s'.objects = s.objects ∧ new = [(level, ob)]) := by
  obtain ⟨s', new, hrun, hcalls, hbound⟩ :=
    cache_library_tag_recursive_returns c fuel level ob s hfuel hlevel
  refine ⟨s', new, hrun, hcalls, hbound, ?_⟩
  intro ht
  obtain ⟨n, rfl⟩ : ∃ n, fuel = n + 1 := ⟨fuel - 1, by omega⟩
  rw [cache_library_tag_recursive_tagged c n level ob s ht] at hrun
  simp only [Option.some.injEq] at hrun
  subst hrun
  exact ⟨rfl, by simpa using hcalls.symm⟩

theorem cache_library_tag_recursive_terminates_witness :
    sample_defines.MAX_CACHE_GROUP_LEVEL + 1 < 10 + 0 ∧
      0 ≤ sample_defines.MAX_CACHE_GROUP_LEVEL + 1 ∧
      ∃ s' new, cache_library_tag_recursive sample_defines 10 0 0
          { objects := self_group, calls := [] } = some s' ∧
        s'.calls = [] ++ new ∧
        (∀ p ∈ new, 0 ≤ p.1 ∧ p.1 ≤ sample_defines.MAX_CACHE_GROUP_LEVEL + 1) ∧
        (tagged sample_defines self_group 0 = true →
          s'.objects = self_group ∧ new = [(0, 0)]) :=
  ⟨by decide, by decide,
    cache_library_tag_recursive_terminates sample_defines 10 0 0
      { objects := self_group, calls := [] } (by decide) (by decide)⟩

/-- C17, counterexample: the object named `A_1` without an index and the object named
`A` with index 1 differ in name and index and get the same item name `OBJECT_A_1`, and
so do an object with index `-1` and the same object with index `-2`. -/
theorem BKE_cache_item_name_counterexample :
    "A_1".toList ≠ "A".toList ∧ (-1 : Int) ≠ 1 ∧
      BKE_cache_item_name "A_1".toList .CACHE_TYPE_OBJECT (-1) = some "OBJECT_A_1".toList ∧
      BKE_cache_item_name "A".toList .CACHE_TYPE_OBJECT 1 = some "OBJECT_A_1".toList ∧
      (-1 : Int) ≠ -2 ∧
      BKE_cache_item_name "A".toList .CACHE_TYPE_OBJECT (-1) =
        BKE_cache_item_name "A".toList .CACHE_TYPE_OBJECT (-2) := by
  refine ⟨by decide, by decide, ?_, ?_, by decide, ?_⟩ <;>
    simp [BKE_cache_item_name, BKE_cache_item_name_prefix, decimal, Nat.digitChar]

/-- C17, amended: for any two triples with valid cache types and any object names,
`BKE_cache_item_name` writes the same name exactly when the types are equal and one of
these holds: both indices are not negative, and the object names and the indices are
equal; both indices are negative, and the object names are equal (a negative index is
not written); or one index is negative and the object name of that triple is the other
object name followed by an underscore and the other index in decimal. -/
theorem BKE_cache_item_name_injective (t1 t2 : CacheType) (n1 n2 : List Char) (i1 i2 : Int)
    (o1 o2 : List Char)
    (e1 : BKE_cache_item_name n1 t1 i1 = some o1)
    (e2 : BKE_cache_item_name n2 t2 i2 = some o2) :
    o1 = o2 ↔
      (t1 = t2 ∧
        ((0 ≤ i1 ∧ 0 ≤ i2 ∧ n1 = n2 ∧ i1 = i2) ∨
          (i1 < 0 ∧ i2 < 0 ∧ n1 = n2) ∨
          (0 ≤ i1 ∧ i2 < 0 ∧ n2 = n1 ++ '_' :: decimal i1.toNat) ∨
          (i1 < 0 ∧ 0 ≤ i2 ∧ n1 = n2 ++ '_' :: decimal i2.toNat))) := by
  unfold BKE_cache_item_name at e1 e2
  cases hp1 : BKE_cache_item_name_prefix t1 with
  | none => simp [hp1] at e1
  | some p1 =>
    cases hp2 : BKE_cache_item_name_prefix t2 with
    | none => simp [hp2] at e2
    | some p2 =>
      have u1 := prefix_not_underscore t1 p1 hp1
      have u2 := prefix_not_underscore t2 p2 hp2
      simp only [hp1, hp2] at e1 e2
      constructor
      · intro ho
        subst ho
        by_cases c1 : i1 ≥ 0 <;> by_cases c2 : i2 ≥ 0 <;>
          simp only [c1, c2, if_true, if_false, Option.some.injEq] at e1 e2
        · rw [← e2] at e1
          obtain ⟨r1, r2⟩ := append_cons_inj_of_not_mem '_' _ _ _ _ u1 u2 e1
          obtain ⟨r3, r4⟩ := append_cons_inj_of_not_mem_right '_' _ _ _ _
            (decimal_not_underscore _) (decimal_not_underscore _) r2
          have := decimal_injective _ _ r4
          subst r1
          exact ⟨prefix_injective _ _ _ hp1 hp2, Or.inl ⟨c1, c2, r3, by omega⟩⟩
        · rw [← e2] at e1
          obtain ⟨r1, r2⟩ := append_cons_inj_of_not_mem '_' _ _ _ _ u1 u2 e1
          subst r1
          exact ⟨prefix_injective _ _ _ hp1 hp2,
            Or.inr (Or.inr (Or.inl ⟨c1, by omega, r2.symm⟩))⟩
        · rw [← e2] at e1
          obtain ⟨r1, r2⟩ := append_cons_inj_of_not_mem '_' _ _ _ _ u1 u2 e1
          subst r1
          exact ⟨prefix_injective _ _ _ hp1 hp2,
            Or.inr (Or.inr (Or.inr ⟨by omega, c2, r2⟩))⟩
        · rw [← e2] at e1
          obtain ⟨r1, r2⟩ := append_cons_inj_of_not_mem '_' _ _ _ _ u1 u2 e1
          subst r1
          exact ⟨prefix_injective _ _ _ hp1 hp2, Or.inr (Or.inl ⟨by omega, by omega, r2⟩)⟩
      · rintro ⟨rfl, hcase⟩
        rw [hp1] at hp2
        simp only [Option.some.injEq] at hp2
        subst hp2
        rcases hcase with ⟨a, b, rfl, rfl⟩ | ⟨a, b, rfl⟩ | ⟨a, b, rfl⟩ | ⟨a, b, rfl⟩
        · rw [e1] at e2
          exact Option.some.inj e2
        · have c1 : ¬ i1 ≥ 0 := by omega
          have c2 : ¬ i2 ≥ 0 := by omega
          simp only [c1, c2, if_false, Option.some.injEq] at e1 e2
          rw [← e1, ← e2]
        · have c1 : i1 ≥ 0 := a
          have c2 : ¬ i2 ≥ 0 := by omega
          simp only [c1, c2, if_true, if_false, Option.some.injEq] at e1 e2
          rw [← e1, ← e2]
        · have c1 : ¬ i1 ≥ 0 := by omega
          have c2 : i2 ≥ 0 := b
          simp only [c1, c2, if_true, if_false, Option.some.injEq] at e1 e2
          rw [← e1, ← e2]

theorem BKE_cache_item_name_injective_witness :
    BKE_cache_item_name "A_B".toList .CACHE_TYPE_HAIR 1 = some "HAIR_A_B_1".toList ∧
      BKE_cache_item_name "A_B".toList .CACHE_TYPE_HAIR 2 = some "HAIR_A_B_2".toList ∧
      ("HAIR_A_B_1".toList = "HAIR_A_B_2".toList ↔
        (CacheType.CACHE_TYPE_HAIR = CacheType.CACHE_TYPE_HAIR ∧
          (((0 : Int) ≤ 1 ∧ (0 : Int) ≤ 2 ∧ "A_B".toList = "A_B".toList ∧ (1 : Int) = 2) ∨
            ((1 : Int) < 0 ∧ (2 : Int) < 0 ∧ "A_B".toList = "A_B".toList) ∨
            ((0 : Int) ≤ 1 ∧ (2 : Int) < 0 ∧
              "A_B".toList = "A_B".toList ++ '_' :: decimal (1 : Int).toNat) ∨
            ((1 : Int) < 0 ∧ (0 : Int) ≤ 2 ∧
              "A_B".toList = "A_B".toList ++ '_' :: decimal (2 : Int).toNat)))) :=
  ⟨by simp [BKE_cache_item_name, BKE_cache_item_name_prefix, decimal, Nat.digitChar],
    by simp [BKE_cache_item_name, BKE_cache_item_name_prefix, decimal, Nat.digitChar],
    BKE_cache_item_name_injective .CACHE_TYPE_HAIR .CACHE_TYPE_HAIR "A_B".toList
      "A_B".toList 1 2 "HAIR_A_B_1".toList "HAIR_A_B_2".toList
      (by simp [BKE_cache_item_name, BKE_cache_item_name_prefix, decimal, Nat.digitChar])
      (by simp [BKE_cache_item_name, BKE_cache_item_name_prefix, decimal, Nat.digitChar])⟩

end CacheLib

/-! ## Results on the KDL vectors -/

namespace KDL

/-- Both branches of `Vector::Normalize` return the norm. -/
theorem Vector_Normalize_snd (ops : Ops) (v : Vector) (eps : ℚ) :
    (v.Normalize ops eps).2 = v.Norm ops := by
  unfold Vector.Normalize
  simp only []
  split <;> rfl

/-- Both branches of `Vector2::Normalize` return the norm. -/
theorem Vector2_Normalize_snd (ops : Ops) (v : Vector2) (eps : ℚ) :
    (v.Normalize ops eps).2 = v.Norm ops := by
  unfold Vector2.Normalize
  simp only []
  split <;> rfl

/-- C18, at the failing inputs: `Vector(0.5, 0, 0).Normalize(1)` sets the vector to
`(1, 0, 0)` and returns `0.5`, and `Vector2(0, 0.5).Normalize(1)` sets the vector to
`(1, 0)` and returns `0.5`: in the branch for a norm smaller than `eps` the value
returned is the norm of the old vector, where the comment above the function says norm
0. -/
theorem Normalize_small_returns_norm :
    Vector.Normalize exact_ops ⟨1 / 2, 0, 0⟩ 1 = (⟨1, 0, 0⟩, 1 / 2) ∧
      Vector2.Normalize exact_ops ⟨0, 1 / 2⟩ 1 = (⟨1, 0⟩, 1 / 2) := by
  have h1 : Rat.sqrt 1 = 1 := by simp
  constructor
  · norm_num [Vector.Normalize, Vector.Norm, exact_ops, fabs, h1]
  · norm_num [Vector2.Normalize, Vector2.Norm, exact_ops, fabs, h1]

end KDL

/-! ## Results on the keyframe columns -/

namespace Keylist

/-- C19: when the bits of `ACTKEYBLOCK_FLAG_MOVING_HOLD` are not empty and are in none of
the other three flags, `compute_keyblock_data` sets the moving hold flag exactly when both
the previous key and the next key have the key type `BEZT_KEYTYPE_MOVEHOLD`; so a
`MOVEHOLD` key whose predecessor has another type gets no moving hold. -/
theorem compute_keyblock_data_moving_hold {F : Type} (d : Enums) (env : Env F)
    (prev beztn : BezTriple F)
    (h0 : d.ACTKEYBLOCK_FLAG_MOVING_HOLD ≠ 0)
    (hs : d.ACTKEYBLOCK_FLAG_STATIC_HOLD &&& d.ACTKEYBLOCK_FLAG_MOVING_HOLD = 0)
    (ha : d.ACTKEYBLOCK_FLAG_ANY_HOLD &&& d.ACTKEYBLOCK_FLAG_MOVING_HOLD = 0)
    (hn : d.ACTKEYBLOCK_FLAG_NON_BEZIER &&& d.ACTKEYBLOCK_FLAG_MOVING_HOLD = 0) :
    (compute_keyblock_data d env prev beztn).flag &&& d.ACTKEYBLOCK_FLAG_MOVING_HOLD ≠ 0 ↔
      (BEZKEYTYPE prev = d.BEZT_KEYTYPE_MOVEHOLD ∧
        BEZKEYTYPE beztn = d.BEZT_KEYTYPE_MOVEHOLD) := by
  unfold compute_keyblock_data
  simp only []
  by_cases c1 : BEZKEYTYPE beztn = d.BEZT_KEYTYPE_MOVEHOLD <;>
  by_cases c2 : BEZKEYTYPE prev = d.BEZT_KEYTYPE_MOVEHOLD <;>
  simp only [c1, c2, if_true, if_false, and_self, and_true, and_false, true_and, false_and,
    iff_true, iff_false, not_not] <;>
  (repeat' split) <;>
  simp [Nat.and_distrib_right, hs, ha, hn, h0]

theorem compute_keyblock_data_moving_hold_witness :
    sample_enums.ACTKEYBLOCK_FLAG_MOVING_HOLD ≠ 0 ∧
      ((compute_keyblock_data sample_enums int_env (sample_key 0 1 5)
            (sample_key 4 9 5)).flag &&& sample_enums.ACTKEYBLOCK_FLAG_MOVING_HOLD ≠ 0 ↔
        (BEZKEYTYPE (sample_key 0 1 5) = sample_enums.BEZT_KEYTYPE_MOVEHOLD ∧
          BEZKEYTYPE (sample_key 4 9 5) = sample_enums.BEZT_KEYTYPE_MOVEHOLD)) :=
  ⟨by decide,
    compute_keyblock_data_moving_hold sample_enums int_env (sample_key 0 1 5)
      (sample_key 4 9 5) (by decide) (by decide) (by decide) (by decide)⟩

/-- C20: `nupdate_ak_bezt` with a key whose extreme type differs from the column's: a
column that was `FLAT` gets exactly the key's type; a column that was not `FLAT` gets
`old | new | MIXED` when the key's type is not `FLAT`; and the extreme type of the column
is unchanged when the key's type is `FLAT` and the column's is not, or the two are
equal. -/
theorem nupdate_ak_bezt_extreme_type {F : Type} (d : Enums) (env : Env F)
    (ak : ActKeyColumn F) (chain : BezTripleChain F) :
    (bezt_extreme_type d env chain ≠ ak.extreme_type ∧
        ak.extreme_type = d.KEYFRAME_EXTREME_FLAT →
      (nupdate_ak_bezt d env ak chain).extreme_type = bezt_extreme_type d env chain) ∧
    (bezt_extreme_type d env chain ≠ ak.extreme_type ∧
        ak.extreme_type ≠ d.KEYFRAME_EXTREME_FLAT ∧
        bezt_extreme_type d env chain ≠ d.KEYFRAME_EXTREME_FLAT →
      (nupdate_ak_bezt d env ak chain).extreme_type =
        ak.extreme_type ||| bezt_extreme_type d env chain ||| d.KEYFRAME_EXTREME_MIXED) ∧
    (bezt_extreme_type d env chain = d.KEYFRAME_EXTREME_FLAT ∨
        bezt_extreme_type d env chain = ak.extreme_type →
      (nupdate_ak_bezt d env ak chain).extreme_type = ak.extreme_type) := by
  unfold nupdate_ak_bezt
  simp only []
  generalize bezt_extreme_type d env chain = new_extreme
  refine ⟨?_, ?_, ?_⟩
  · rintro ⟨h1, h2⟩
    split_ifs <;> simp_all
  · rintro ⟨h1, h2, h3⟩
    split_ifs <;> simp_all [Nat.lor_assoc]
  · intro h
    split_ifs <;> simp_all

/-! ### Long keyframes and the search in the tree of columns -/

/-- A column of the tree that the search returns is a column of the tree for which the
range test holds, whatever the test is. -/
theorem find_any_between_from_sound {F : Type} (env : Env F)
    (range2f_in_range : Range2f F → F → Bool) (frame_range : Range2f F) :
    ∀ (t : DLRBT_Node F) (ak : ActKeyColumn F),
      find_any_between_from env range2f_in_range frame_range t = some ak →
      ak ∈ t.columns ∧ range2f_in_range frame_range ak.cfra = true := by
  intro t
  induction t with
  | nil => intro ak h; simp [find_any_between_from] at h
  | node left col right ihl ihr =>
    intro ak h
    unfold find_any_between_from at h
    split at h
    · rename_i hin
      simp only [Option.some.injEq] at h
      subst h
      exact ⟨by simp [DLRBT_Node.columns], hin⟩
    · split at h
      · obtain ⟨h1, h2⟩ := ihr ak h
        exact ⟨by simp [DLRBT_Node.columns, h1], h2⟩
      · obtain ⟨h1, h2⟩ := ihl ak h
        exact ⟨by simp [DLRBT_Node.columns, h1], h2⟩

/-- In a search tree the search finds a column whenever the tree has one that passes
the range test, for a test that accepts only frames of the closed range and every frame
strictly inside it, when no column that sits at the start of a range that is not empty is
rejected by the test. -/
theorem find_any_between_from_complete {F : Type} [LinearOrder F] (env : Env F)
    (range2f_in_range : Range2f F → F → Bool) (frame_range : Range2f F)
    (hlt : ∀ a b, env.lt a b = true ↔ a < b)
    (hinside : ∀ x, range2f_in_range frame_range x = true →
      frame_range.min ≤ x ∧ x ≤ frame_range.max)
    (hcover : ∀ x, frame_range.min < x → x < frame_range.max →
      range2f_in_range frame_range x = true) :
    ∀ (t : DLRBT_Node F), t.ordered = true →
      (∀ x ∈ t.columns, x.cfra = frame_range.min → frame_range.min < frame_range.max →
        range2f_in_range frame_range x.cfra = true) →
      ∀ x ∈ t.columns, range2f_in_range frame_range x.cfra = true →
      (find_any_between_from env range2f_in_range frame_range t).isSome = true := by
  intro t
  induction t with
  | nil => intro _ _ x hx; simp [DLRBT_Node.columns] at hx
  | node left col right ihl ihr =>
    intro hord hmin x hx hacc
    simp only [DLRBT_Node.ordered, Bool.and_eq_true, List.all_eq_true, decide_eq_true_eq]
      at hord
    obtain ⟨⟨⟨hl, hr⟩, hol⟩, hor⟩ := hord
    have hminl : ∀ y ∈ left.columns, y.cfra = frame_range.min →
        frame_range.min < frame_range.max → range2f_in_range frame_range y.cfra = true :=
      fun y hy => hmin y (by simp [DLRBT_Node.columns, hy])
    have hminr : ∀ y ∈ right.columns, y.cfra = frame_range.min →
        frame_range.min < frame_range.max → range2f_in_range frame_range y.cfra = true :=
      fun y hy => hmin y (by simp [DLRBT_Node.columns, hy])
    have hcol : col ∈ (DLRBT_Node.node left col right).columns := by
      simp [DLRBT_Node.columns]
    obtain ⟨hxmin, hxmax⟩ := hinside _ hacc
    unfold find_any_between_from
    split
    · rfl
    · rename_i hin
      simp only [DLRBT_Node.columns, List.mem_append, List.mem_cons] at hx
      split
      · rename_i hgo
        have hlow : col.cfra < frame_range.min := (hlt _ _).mp hgo
        rcases hx with hx | hx | hx
        · exact absurd (lt_of_le_of_lt (hl x hx) hlow) (not_lt.mpr hxmin)
        · subst hx
          exact absurd hacc hin
        · exact ihr hor hminr x hx hacc
      · rename_i hgo
        have hlow : frame_range.min ≤ col.cfra := by
          by_contra hc
          exact hgo ((hlt _ _).mpr (not_le.mp hc))
        rcases hx with hx | hx | hx
        · exact ihl hol hminl x hx hacc
        · subst hx
          exact absurd hacc hin
        · exfalso
          have hcx : col.cfra ≤ x.cfra := hr x hx
          by_cases hmax : col.cfra < frame_range.max
          · rcases lt_or_eq_of_le hlow with h | h
            · exact hin (hcover _ h hmax)
            · exact hin (hmin col hcol h.symm (by rw [h]; exact hmax))
          · have heq : x.cfra = col.cfra :=
              le_antisymm (le_trans hxmax (not_lt.mp hmax)) hcx
            rw [heq] at hacc
            exact hin hacc

theorem short_incr_iterate (n : Nat) (h : n < 32768) : short_incr^[n] 0 = (n : Int) := by
  induction n with
  | zero => rfl
  | succ k ih =>
    rw [Function.iterate_succ_apply', ih (by omega)]
    unfold short_incr
    omega

/-- A `short` that starts at 0 and is incremented `n` times holds `n` reduced to 16
bits, two's complement. -/
theorem short_incr_iterate_wrap (n : Nat) :
    short_incr^[n] 0 = ((n : Int) + 32768) % 65536 - 32768 := by
  induction n with
  | zero => rfl
  | succ k ih =>
    rw [Function.iterate_succ_apply', ih]
    unfold short_incr
    omega

theorem flagged_replicate (n : Nat) : flagged (List.replicate n ⟨1, 0, 0⟩) = n := by
  induction n with
  | zero => rfl
  | succ k ih =>
    unfold flagged at ih ⊢
    rw [List.replicate_succ, List.countP_cons_of_pos _ _ (by decide), ih]

theorem add_keyblock_info_totcurve {F : Type} (col : ActKeyColumn F) (b : ActKeyBlockInfo) :
    (add_keyblock_info col b).totcurve = col.totcurve := by
  unfold add_keyblock_info
  simp only []
  split <;> split <;> rfl

theorem add_keyblock_info_totblock {F : Type} (col : ActKeyColumn F) (b : ActKeyBlockInfo) :
    (add_keyblock_info col b).totblock =
      if b.flag ≠ 0 then short_incr col.totblock else col.totblock := by
  unfold add_keyblock_info
  simp only []
  split <;> split <;> rfl

/-- The count of blocks of a column goes up by one, as a `short`, for each block with a
flag, whatever branch the block takes. -/
theorem add_keyblock_infos_totblock {F : Type} (blocks : List ActKeyBlockInfo) :
    ∀ col : ActKeyColumn F,
      (add_keyblock_infos col blocks).totblock = short_incr^[flagged blocks] col.totblock := by
  induction blocks with
  | nil => intro col; rfl
  | cons b rest ih =>
    intro col
    have h := ih (add_keyblock_info col b)
    simp only [add_keyblock_infos, List.foldl_cons] at h ⊢
    rw [h, add_keyblock_info_totblock]
    by_cases hb : b.flag = 0
    · simp [flagged, hb]
    · simp [flagged, hb, List.countP_cons_of_pos]

theorem testBit_foldl_or (i : Nat) (blocks : List ActKeyBlockInfo) :
    ∀ acc : Nat, (blocks.foldl (fun acc x => acc ||| x.flag) acc).testBit i =
      (acc.testBit i || blocks.any (fun x => x.flag.testBit i)) := by
  induction blocks with
  | nil => intro acc; simp
  | cons b rest ih =>
    intro acc
    simp only [List.foldl_cons, List.any_cons]
    rw [ih, Nat.testBit_or, Bool.or_assoc]

theorem add_keyblock_info_block_copy {F : Type} (col : ActKeyColumn F) (b : ActKeyBlockInfo)
    (h : col.totcurve ≤ 1 ∧ col.totblock = 0) : (add_keyblock_info col b).block = b := by
  unfold add_keyblock_info
  simp only [h, and_self, if_true]
  split <;> rfl

theorem add_keyblock_info_block_merge {F : Type} (col : ActKeyColumn F) (b : ActKeyBlockInfo)
    (h : ¬ (col.totcurve ≤ 1 ∧ col.totblock = 0)) :
    (add_keyblock_info col b).block =
      { conflict := col.block.conflict ||| (col.block.flag ^^^ b.flag)
        flag := col.block.flag ||| b.flag
        sel := col.block.sel ||| b.sel } := by
  unfold add_keyblock_info
  simp only [h, if_false]
  split <;> rfl

/-- After the first block through the copy branch and the next `k` through the merge
branch, the flag of the column is the union of the flags and the conflict holds the bits
that some of the flags have and not all. -/
theorem add_keyblock_infos_block {F : Type} (col : ActKeyColumn F) (b : ActKeyBlockInfo)
    (rest : List ActKeyBlockInfo) (hb : b.conflict = 0)
    (hfirst : col.totcurve ≤ 1 ∧ col.totblock = 0)
    (hrest : ∀ k < rest.length,
      ¬ ((add_keyblock_infos col (b :: rest.take k)).totcurve ≤ 1 ∧
        (add_keyblock_infos col (b :: rest.take k)).totblock = 0)) :
    ∀ k ≤ rest.length,
      (add_keyblock_infos col (b :: rest.take k)).block.flag =
          (b :: rest.take k).foldl (fun acc x => acc ||| x.flag) 0 ∧
        ∀ i, (add_keyblock_infos col (b :: rest.take k)).block.conflict.testBit i =
          ((b :: rest.take k).any (fun x => x.flag.testBit i) &&
            !(b :: rest.take k).all (fun x => x.flag.testBit i)) := by
  intro k
  induction k with
  | zero =>
    intro _
    simp only [List.take_zero, add_keyblock_infos, List.foldl_cons, List.foldl_nil]
    rw [add_keyblock_info_block_copy col b hfirst]
    refine ⟨by simp, fun i => ?_⟩
    rw [hb]
    cases b.flag.testBit i <;> simp
  | succ k ih =>
    intro hk
    have hlt : k < rest.length := by omega
    obtain ⟨hflag, hconf⟩ := ih (by omega)
    have hmerge := hrest k hlt
    have htake : rest.take (k + 1) = rest.take k ++ [rest[k]] := by
      rw [List.take_succ, List.getElem?_eq_getElem hlt]
      rfl
    have hrun : add_keyblock_infos col (b :: rest.take (k + 1)) =
        add_keyblock_info (add_keyblock_infos col (b :: rest.take k)) rest[k] := by
      rw [htake]
      simp only [add_keyblock_infos, List.foldl_cons, List.foldl_append, List.foldl_nil]
    rw [hrun, add_keyblock_info_block_merge _ _ hmerge, htake]
    refine ⟨?_, fun i => ?_⟩
    · simp only []
      rw [hflag, ← List.cons_append, List.foldl_append]
      rfl
    · simp only []
      rw [Nat.testBit_or, Nat.testBit_xor, hconf i, hflag, testBit_foldl_or,
        ← List.cons_append, List.any_append, List.all_append]
      simp only [Nat.zero_testBit, Bool.false_or, List.any_cons, List.all_cons, List.any_nil,
        List.all_nil, Bool.or_false, Bool.and_true]
      cases b.flag.testBit i <;> cases (rest.take k).any (fun x => x.flag.testBit i) <;>
        cases (rest.take k).all (fun x => x.flag.testBit i) <;>
        cases rest[k].flag.testBit i <;> simp

/-- C21: `actkeyblock_get_valid_hold` returns 0 for a block that is not valid, which is
a null column, a column without a next column, or a column whose `totblock` is not
positive; for a valid block the value returned has exactly the bits that are set in
`block.flag`, clear in `block.conflict`, and set in `ACTKEYBLOCK_FLAG_ANY_HOLD` or
`ACTKEYBLOCK_FLAG_STATIC_HOLD`. -/
theorem actkeyblock_get_valid_hold_bits {F : Type} (d : Enums)
    (ac : Option (ActKeyColumn F)) :
    (actkeyblock_is_valid ac = false ↔
        (ac = none ∨ ∃ col, ac = some col ∧ (col.next = none ∨ col.totblock ≤ 0))) ∧
      (actkeyblock_is_valid ac = false → actkeyblock_get_valid_hold d ac = 0) ∧
      (∀ col, ac = some col → actkeyblock_is_valid ac = true →
        ∀ i, (actkeyblock_get_valid_hold d ac).testBit i =
          (col.block.flag.testBit i && !col.block.conflict.testBit i &&
            (d.ACTKEYBLOCK_FLAG_ANY_HOLD.testBit i ||
              d.ACTKEYBLOCK_FLAG_STATIC_HOLD.testBit i))) := by
  refine ⟨?_, ?_, ?_⟩
  · cases ac with
    | none => simp [actkeyblock_is_valid]
    | some col =>
      cases hn : col.next <;> simp [actkeyblock_is_valid, hn]
  · intro h
    simp [actkeyblock_get_valid_hold, h]
  · intro col hac hvalid i
    subst hac
    simp only [actkeyblock_get_valid_hold, hvalid, Bool.not_true, Bool.false_eq_true,
      if_false, Int.testBit_land, Int.testBit_lnot, Int.testBit_lor]
    rfl

/-- With the range test that includes both ends the conditions on the test hold for
every tree and every range: in a search tree the search returns a column exactly when
some column lies in the closed range. -/
theorem find_any_between_closed_range {F : Type} [LinearOrder F] (env : Env F)
    (range2f_in_range : Range2f F → F → Bool) (keylist : AnimKeylist F)
    (frame_range : Range2f F)
    (hlt : ∀ a b, env.lt a b = true ↔ a < b)
    (hrange : ∀ x, range2f_in_range frame_range x = true ↔
      frame_range.min ≤ x ∧ x ≤ frame_range.max)
    (hbst : keylist.keys.root.ordered = true) :
    (ED_keylist_find_any_between env range2f_in_range keylist frame_range).isSome = true ↔
      ∃ ak ∈ keylist.keys.root.columns,
        frame_range.min ≤ ak.cfra ∧ ak.cfra ≤ frame_range.max := by
  constructor
  · intro h
    obtain ⟨ak, hak⟩ := Option.isSome_iff_exists.mp h
    obtain ⟨h1, h2⟩ := find_any_between_from_sound env range2f_in_range frame_range _ ak hak
    exact ⟨ak, h1, (hrange _).mp h2⟩
  · rintro ⟨ak, hmem, hr⟩
    exact find_any_between_from_complete env range2f_in_range frame_range hlt
      (fun x hx => (hrange x).mp hx)
      (fun x h1 h2 => (hrange x).mpr ⟨le_of_lt h1, le_of_lt h2⟩)
      _ hbst
      (fun x _ hx hlt2 => (hrange _).mpr ⟨by rw [hx], by rw [hx]; exact le_of_lt hlt2⟩)
      ak hmem ((hrange _).mpr hr)

/-- C24, as stated, fails: 32768 blocks with flag 1 and conflict 0 are added to a
column with `totcurve` 1 and `totblock` 0; the first takes the copy branch and every
later one the merge branch, all 32768 have a flag that is not zero, and `totblock`, a
`short`, ends at -32768. -/
theorem add_keyblock_info_merges_counterexample :
    (∀ x ∈ (⟨1, 0, 0⟩ : ActKeyBlockInfo) :: List.replicate 32767 ⟨1, 0, 0⟩,
        x.conflict = 0) ∧
      ((sample_column 3 0 ⟨0, 0, 0⟩ none).totcurve ≤ 1 ∧
        (sample_column 3 0 ⟨0, 0, 0⟩ none).totblock = 0) ∧
      (∀ k < (List.replicate 32767 (⟨1, 0, 0⟩ : ActKeyBlockInfo)).length,
        ¬ ((add_keyblock_infos (sample_column 3 0 ⟨0, 0, 0⟩ none)
              (⟨1, 0, 0⟩ :: (List.replicate 32767 ⟨1, 0, 0⟩).take k)).totcurve ≤ 1 ∧
          (add_keyblock_infos (sample_column 3 0 ⟨0, 0, 0⟩ none)
              (⟨1, 0, 0⟩ :: (List.replicate 32767 ⟨1, 0, 0⟩).take k)).totblock = 0)) ∧
      flagged ((⟨1, 0, 0⟩ : ActKeyBlockInfo) :: List.replicate 32767 ⟨1, 0, 0⟩) = 32768 ∧
      (add_keyblock_infos (sample_column 3 0 ⟨0, 0, 0⟩ none)
          (⟨1, 0, 0⟩ :: List.replicate 32767 ⟨1, 0, 0⟩)).totblock = -32768 := by
  have hcons : ∀ n : Nat, (⟨1, 0, 0⟩ : ActKeyBlockInfo) :: List.replicate n ⟨1, 0, 0⟩ =
      List.replicate (n + 1) ⟨1, 0, 0⟩ := fun n => (List.replicate_succ _ n).symm
  have htot : ∀ n : Nat,
      (add_keyblock_infos (sample_column 3 0 ⟨0, 0, 0⟩ none)
        (List.replicate n ⟨1, 0, 0⟩)).totblock = ((n : Int) + 32768) % 65536 - 32768 := by
    intro n
    rw [add_keyblock_infos_totblock, flagged_replicate]
    exact short_incr_iterate_wrap n
  refine ⟨?_, by decide, ?_, ?_, ?_⟩
  · intro x hx
    rw [hcons] at hx
    rw [List.eq_of_mem_replicate hx]
  · intro k hk
    rw [List.length_replicate] at hk
    rw [List.take_replicate, hcons, htot]
    rintro ⟨_, h⟩
    have hm : min k 32767 = k := Nat.min_eq_left (by omega)
    rw [hm] at h
    push_cast at h
    omega
  · rw [hcons, flagged_replicate]
  · rw [hcons, htot]
    norm_num

/-- C24, amended: when the blocks `b`, `rest` (each with conflict 0) are added to one
column with `add_keyblock_info`, the first through the copy branch (`totcurve <= 1`,
`totblock` 0) and every later one through the merge branch, then `block.flag` is the
bitwise or of all the flags, `block.conflict` holds exactly the bits set in some and not
in all of the flags, and `totblock`, a `short`, is the number of blocks with a flag that
is not zero reduced to 16 bits (two's complement): it has grown by exactly that number
when the number is below 32768. -/
theorem add_keyblock_info_merges {F : Type} (col : ActKeyColumn F) (b : ActKeyBlockInfo)
    (rest : List ActKeyBlockInfo)
    (hconflict : ∀ x ∈ b :: rest, x.conflict = 0)
    (hfirst : col.totcurve ≤ 1 ∧ col.totblock = 0)
    (hrest : ∀ k < rest.length,
      ¬ ((add_keyblock_infos col (b :: rest.take k)).totcurve ≤ 1 ∧
        (add_keyblock_infos col (b :: rest.take k)).totblock = 0)) :
    (add_keyblock_infos col (b :: rest)).block.flag =
        (b :: rest).foldl (fun acc x => acc ||| x.flag) 0 ∧
      (∀ i, (add_keyblock_infos col (b :: rest)).block.conflict.testBit i =
        ((b :: rest).any (fun x => x.flag.testBit i) &&
          !(b :: rest).all (fun x => x.flag.testBit i))) ∧
      (add_keyblock_infos col (b :: rest)).totblock =
        ((flagged (b :: rest) : Int) + 32768) % 65536 - 32768 ∧
      (flagged (b :: rest) < 32768 →
        (add_keyblock_infos col (b :: rest)).totblock =
          col.totblock + (flagged (b :: rest) : Int)) := by
  have hblock := add_keyblock_infos_block col b rest
    (hconflict b (List.mem_cons_self _ _)) hfirst hrest rest.length (le_refl _)
  rw [List.take_length] at hblock
  refine ⟨hblock.1, hblock.2, ?_, ?_⟩
  · rw [add_keyblock_infos_totblock, hfirst.2]
    exact short_incr_iterate_wrap _
  · intro hshort
    rw [add_keyblock_infos_totblock, hfirst.2, short_incr_iterate _ hshort]
    simp

theorem add_keyblock_info_merges_witness :
    (∀ x ∈ [(⟨5, 0, 0⟩ : ActKeyBlockInfo), ⟨4, 0, 1⟩, ⟨0, 0, 0⟩], x.conflict = 0) ∧
      ((sample_column 3 0 ⟨0, 0, 0⟩ none).totcurve ≤ 1 ∧
        (sample_column 3 0 ⟨0, 0, 0⟩ none).totblock = 0) ∧
      ((add_keyblock_infos (sample_column 3 0 ⟨0, 0, 0⟩ none)
            [⟨5, 0, 0⟩, ⟨4, 0, 1⟩, ⟨0, 0, 0⟩]).block.flag =
          [(⟨5, 0, 0⟩ : ActKeyBlockInfo), ⟨4, 0, 1⟩, ⟨0, 0, 0⟩].foldl
            (fun acc x => acc ||| x.flag) 0 ∧
        (∀ i, (add_keyblock_infos (sample_column 3 0 ⟨0, 0, 0⟩ none)
              [⟨5, 0, 0⟩, ⟨4, 0, 1⟩, ⟨0, 0, 0⟩]).block.conflict.testBit i =
          ([(⟨5, 0, 0⟩ : ActKeyBlockInfo), ⟨4, 0, 1⟩, ⟨0, 0, 0⟩].any
              (fun x => x.flag.testBit i) &&
            !(List.all [(⟨5, 0, 0⟩ : ActKeyBlockInfo), ⟨4, 0, 1⟩, ⟨0, 0, 0⟩]
              (fun x => x.flag.testBit i)))) ∧
        (add_keyblock_infos (sample_column 3 0 ⟨0, 0, 0⟩ none)
            [⟨5, 0, 0⟩, ⟨4, 0, 1⟩, ⟨0, 0, 0⟩]).totblock =
          ((flagged [(⟨5, 0, 0⟩ : ActKeyBlockInfo), ⟨4, 0, 1⟩, ⟨0, 0, 0⟩] : Int) + 32768)
            % 65536 - 32768 ∧
        (flagged [(⟨5, 0, 0⟩ : ActKeyBlockInfo), ⟨4, 0, 1⟩, ⟨0, 0, 0⟩] < 32768 →
          (add_keyblock_infos (sample_column 3 0 ⟨0, 0, 0⟩ none)
              [⟨5, 0, 0⟩, ⟨4, 0, 1⟩, ⟨0, 0, 0⟩]).totblock =
            (sample_column 3 0 ⟨0, 0, 0⟩ none).totblock +
              (flagged [(⟨5, 0, 0⟩ : ActKeyBlockInfo), ⟨4, 0, 1⟩, ⟨0, 0, 0⟩] : Int))) :=
  ⟨by decide, by decide,
    add_keyblock_info_merges (sample_column 3 0 ⟨0, 0, 0⟩ none) ⟨5, 0, 0⟩
      [⟨4, 0, 1⟩, ⟨0, 0, 0⟩] (by decide) (by decide) (by decide)⟩

end Keylist
